import Mathlib

/-! CineReserve: the booking backend of `src/backend/server.js`

A shallow embedding of the document store and of the request handlers that
touch seats and bookings (`POST /book`, `POST /shows`, `DELETE /shows/:id`,
`createSeatsForShow`, `getPriceByPriority`, `GET /seats/:show_id`, the movie
routes, the two `GET /bookings/...` handlers, `POST /reset-db`) and of the
seat selection of the client (`src/script.js`), followed by theorems about them.

Modelling conventions
* An ObjectId is a natural number.  A document created by the server receives
  the next unused number (`Store.nextId`), which stands for the driver's
  generation of a fresh identifier.  A body field is `none` when it is absent.
* `bookRoute` is the whole of `POST /book`: a request may carry values the
  driver cannot cast to an ObjectId, and the error the driver then throws is
  caught by the handler's `catch`.  `book` is the same handler on requests
  whose identifiers are well-formed (`bookRoute_raw`).
* A stored seat is the document as mongoose hands it to the handlers, schema
  defaults applied (`hydrate`): its `price` is never absent, it is a number or
  null.
* A JavaScript number is an exact integer.
* `jwt.verify` is a parameter of every handler: it either yields the decoded
  payload or throws, and a throw is caught by the handler's `catch` (status 500).
* Handlers run one after the other; each is a function from the store and the
  request to a response and the next store.
-/

namespace CineReserve

/-! ## Documents (the mongoose schemas) -/

/-- A document of `showSchema`. -/
structure Show where
  _id : Nat
  movie_id : Nat
  theatre_name : String
  show_datetime : Nat
deriving DecidableEq, Repr

/-- A document of `seatSchema` as `Seat.find` hands it to the handlers, schema
defaults applied.  `price` is `none` when the stored field is null; a document
stored without the field reads as the default, `some 150` (see `hydrate`). -/
structure Seat where
  _id : Nat
  show_id : Nat
  seat_row : String
  seat_col : Nat
  is_reserved : Bool
  priority : Int
  price : Option Int
deriving DecidableEq, Repr

/-- A document of `bookingSchema` (the `booking_time` stamp is left out). -/
structure Booking where
  _id : Nat
  user_id : Nat
  show_id : Nat
  seats : List Nat
  total_price : Int
deriving DecidableEq, Repr

/-- The collections the handlers below read and write. -/
structure Store where
  shows : List Show
  seats : List Seat
  bookings : List Booking
  nextId : Nat
deriving DecidableEq, Repr

/-- The store before any request. -/
def emptyStore : Store :=
  { shows := [], seats := [], bookings := [], nextId := 0 }

/-! ## Requests and responses -/

/-- The payload `jwt.sign` puts in a token and `jwt.verify` gives back. -/
structure Decoded where
  userId : Nat
  username : String
  role : String
deriving DecidableEq, Repr

/-- The function `jwt.verify(token, secret)`: the payload, or the message of the
error it throws. -/
abbrev Verifier := String → Except String Decoded

/-- An entry of the `cast` or `crew` array of a movie. -/
structure Person where
  name : String
  role : String
  photo_url : String
deriving DecidableEq, Repr

/-- A document of `movieSchema`. A text field is `none` when it is absent. -/
structure Movie where
  _id : Nat
  movie_name : Option String
  genre : Option String
  description : Option String
  poster_url : Option String
  release_date : Option Nat
  cast : List Person
  crew : List Person
deriving DecidableEq, Repr

/-- The whole database the routes below work on: the movies beside the store
of shows, seats and bookings. -/
structure Database where
  movies : List Movie
  store : Store
deriving DecidableEq, Repr

/-- An element of the array `GET /seats/:show_id` answers with. -/
structure SeatView where
  _id : Nat
  seat_row : String
  seat_col : Nat
  is_reserved : Bool
  priority : Int
  price : Int
  category : String
deriving DecidableEq, Repr

/-- An element of the array the first `GET /bookings/:userId` handler answers
with (the `booking_time` stamp is left out). -/
structure BookingDetail where
  booking_id : Nat
  movie_name : String
  poster_url : String
  theatre_name : String
  show_datetime : Option Nat
  total_price : Int
  seat_count : Nat
  seats : List String
deriving DecidableEq, Repr

/-- The JSON body of a response. -/
inductive Body where
  | error (error : String)
  | message (message : String)
  | showAdded (message : String) (show_id : Nat)
  | booked (message : String) (booking_id : Nat) (total_price : Int) (seats_count : Nat)
  | seatList (seats : List SeatView)
  | movieAdded (message : String) (movie_id : Nat)
  | movieUpdated (message : String) (movie : Movie)
  | bookingDetails (bookings : List BookingDetail)
  | bookings (bookings : List Booking)
deriving DecidableEq, Repr

/-- The answer of a handler: HTTP status and JSON body. -/
structure Response where
  status : Nat
  body : Body
deriving DecidableEq, Repr

/-- The request of `POST /book`: the `token` header, the two body fields the
handler destructures, and whatever other fields the body carries. A field is
`none` when it is absent. -/
structure BookRequest where
  token : Option String
  show_id : Option Nat
  seats : Option (List Nat)
  extra : List (String × Int)
deriving DecidableEq, Repr

/-- The request of `POST /shows`; `show_datetime` is the instant the submitted
date denotes. -/
structure ShowRequest where
  token : Option String
  movie_id : Option Nat
  theatre_name : Option String
  show_datetime : Option Nat
deriving DecidableEq, Repr

/-- The request of `DELETE /shows/:id`. -/
structure DeleteShowRequest where
  token : Option String
  id : Nat
deriving DecidableEq, Repr

/-! ## Stored documents and schema defaults -/

/-- The `price` field of a seat as the collection stores it. -/
inductive StoredPrice where
  | absent
  | null
  | number (price : Int)
deriving DecidableEq, Repr

/-- A seat as the collection stores it: the three fields `seatSchema` gives a
default may be absent. -/
structure StoredSeat where
  _id : Nat
  show_id : Nat
  seat_row : String
  seat_col : Nat
  is_reserved : Option Bool
  priority : Option Int
  price : StoredPrice
deriving DecidableEq, Repr

/-- The document mongoose builds from a stored seat: an absent field takes the
default of `seatSchema` (`is_reserved: false`, `priority: 1`, `price: 150`); a
stored null stays null. -/
def hydrate (d : StoredSeat) : Seat :=
  { _id := d._id, show_id := d.show_id, seat_row := d.seat_row, seat_col := d.seat_col,
    is_reserved := d.is_reserved.getD false,
    priority := d.priority.getD 1,
    price := match d.price with
      | .absent => some 150
      | .null => none
      | .number p => some p }

/-! ## Pricing -/

/-- The source's `getPriceByPriority`: `priceMap[priority] || 150`. -/
def getPriceByPriority (priority : Int) : Int :=
  if priority = 1 then 150
  else if priority = 2 then 250
  else if priority = 3 then 400
  else 150

/-- The expression `seat.price || getPriceByPriority(seat.priority)` used by
`POST /book` and `GET /seats/:show_id`: the fallback is taken when the price
reads 0 or null. -/
def seatPrice (seat : Seat) : Int :=
  match seat.price with
  | some p => if p ≠ 0 then p else getPriceByPriority seat.priority
  | none => getPriceByPriority seat.priority

/-! ## Store queries and updates used by the handlers -/

/-- The query `Seat.find({ _id: { $in: ids } })`. -/
def findSeatsByIds (seats : List Seat) (ids : List Nat) : List Seat :=
  seats.filter (fun seat => decide (seat._id ∈ ids))

/-- The update `Seat.updateMany({ _id: { $in: ids } }, { $set: { is_reserved: true } })`. -/
def reserveSeats (seats : List Seat) (ids : List Nat) : List Seat :=
  seats.map (fun seat => if seat._id ∈ ids then { seat with is_reserved := true } else seat)

/-! ## `POST /book` -/

/-- The handler `app.post("/book")` on a request whose show_id and seat ids are
well-formed ObjectIds, so that no database call throws; `bookRoute` is the
handler on every request. -/
def book (verify : Verifier) (s : Store) (r : BookRequest) : Response × Store :=
  match r.token with
  | none => (⟨401, .error "Unauthorized"⟩, s)
  | some token =>
    if token = "" then (⟨401, .error "Unauthorized"⟩, s)
    else
      match verify token with
      | .error msg => (⟨500, .error msg⟩, s)
      | .ok decoded =>
        match r.show_id, r.seats with
        | some show_id, some seats =>
          if seats.length = 0 then (⟨400, .error "Missing booking data"⟩, s)
          else
            let seatDetails := findSeatsByIds s.seats seats
            let alreadyReserved := seatDetails.filter (fun seat => seat.is_reserved)
            if alreadyReserved.length > 0 then
              (⟨400, .error "Some seats are already reserved"⟩, s)
            else
              let totalPrice := seatDetails.foldl (fun sum seat => sum + seatPrice seat) 0
              let booking : Booking :=
                { _id := s.nextId, user_id := decoded.userId, show_id := show_id,
                  seats := seats, total_price := totalPrice }
              (⟨200, .booked "Booking successful" booking._id totalPrice seats.length⟩,
               { s with bookings := s.bookings ++ [booking],
                        seats := reserveSeats s.seats seats,
                        nextId := s.nextId + 1 })
        | _, _ => (⟨400, .error "Missing booking data"⟩, s)

/-! ## `POST /book` on every request -/

/-- A value a request gives where an ObjectId is expected: an ObjectId, or a
text the driver cannot cast to one. -/
inductive IdValue where
  | oid (id : Nat)
  | malformed (text : String)
deriving DecidableEq, Repr

/-- The request of `POST /book` as it arrives: like `BookRequest`, with any
value for the show and for each seat. -/
structure RawBookRequest where
  token : Option String
  show_id : Option IdValue
  seats : Option (List IdValue)
  extra : List (String × Int)
deriving DecidableEq, Repr

/-- The messages of the errors the driver throws, as functions of the value it
could not cast: for a query (`CastError`) and for `save` (`ValidationError`). -/
structure DriverMessages where
  castError : String → String
  validationError : String → String

/-- The cast of the values of `{ $in: seats }` to ObjectIds: the ids, or the
first value that cannot be cast. -/
def castIds : List IdValue → Except String (List Nat)
  | [] => .ok []
  | .oid id :: rest =>
    match castIds rest with
    | .ok ids => .ok (id :: ids)
    | .error value => .error value
  | .malformed text :: _ => .error text

/-- The handler `app.post("/book")` on every request. `Seat.find` throws when a
seat value cannot be cast and `booking.save` rejects when the show value
cannot; both errors reach the `catch`, which answers 500. -/
def bookRoute (verify : Verifier) (messages : DriverMessages) (s : Store)
    (r : RawBookRequest) : Response × Store :=
  match r.token with
  | none => (⟨401, .error "Unauthorized"⟩, s)
  | some token =>
    if token = "" then (⟨401, .error "Unauthorized"⟩, s)
    else
      match verify token with
      | .error msg => (⟨500, .error msg⟩, s)
      | .ok decoded =>
        match r.show_id, r.seats with
        | some show_id, some seats =>
          if show_id = .malformed "" ∨ seats.length = 0 then
            (⟨400, .error "Missing booking data"⟩, s)
          else
            match castIds seats with
            | .error value => (⟨500, .error (messages.castError value)⟩, s)
            | .ok ids =>
              let seatDetails := findSeatsByIds s.seats ids
              let alreadyReserved := seatDetails.filter (fun seat => seat.is_reserved)
              if alreadyReserved.length > 0 then
                (⟨400, .error "Some seats are already reserved"⟩, s)
              else
                let totalPrice := seatDetails.foldl (fun sum seat => sum + seatPrice seat) 0
                match show_id with
                | .malformed value => (⟨500, .error (messages.validationError value)⟩, s)
                | .oid showId =>
                  let booking : Booking :=
                    { _id := s.nextId, user_id := decoded.userId, show_id := showId,
                      seats := ids, total_price := totalPrice }
                  (⟨200, .booked "Booking successful" booking._id totalPrice seats.length⟩,
                   { s with bookings := s.bookings ++ [booking],
                            seats := reserveSeats s.seats ids,
                            nextId := s.nextId + 1 })
        | _, _ => (⟨400, .error "Missing booking data"⟩, s)

/-- A request with well-formed ids, as it arrives. -/
def BookRequest.raw (r : BookRequest) : RawBookRequest :=
  { token := r.token, show_id := r.show_id.map IdValue.oid,
    seats := r.seats.map (List.map IdValue.oid), extra := r.extra }

/-! ## Seat provisioning and the show routes -/

/-- A seat object before `insertMany` gives it an `_id`. -/
structure SeatDoc where
  show_id : Nat
  seat_row : String
  seat_col : Nat
  is_reserved : Bool
  priority : Int
  price : Option Int
deriving DecidableEq, Repr

/-- The array `rows` of `createSeatsForShow`. -/
def rows : List String := ["A", "B", "C", "D", "E", "F", "G", "H"]

/-- The priority `createSeatsForShow` gives to the row of index `i`. -/
def rowPriority (i : Nat) : Int :=
  if i < 2 then 3
  else if 2 ≤ i ∧ i < 5 then 2
  else 1

/-- The array `seats` that the two loops of `createSeatsForShow` build. -/
def seatDocs (showId : Nat) : List SeatDoc :=
  rows.enum.flatMap (fun ir =>
    (List.range' 1 10).map (fun col =>
      { show_id := showId, seat_row := ir.2, seat_col := col, is_reserved := false,
        priority := rowPriority ir.1, price := some (getPriceByPriority (rowPriority ir.1)) }))

/-- The documents `Seat.insertMany` stores: each object with a fresh `_id`. -/
def insertMany (firstId : Nat) : List SeatDoc → List Seat
  | [] => []
  | d :: ds =>
    { _id := firstId, show_id := d.show_id, seat_row := d.seat_row, seat_col := d.seat_col,
      is_reserved := d.is_reserved, priority := d.priority, price := d.price }
      :: insertMany (firstId + 1) ds

/-- The source's `createSeatsForShow`. -/
def createSeatsForShow (s : Store) (showId : Nat) : Store :=
  match s.seats.find? (fun seat => seat.show_id = showId) with
  | some _ => s
  | none =>
    let seats := seatDocs showId
    { s with seats := s.seats ++ insertMany s.nextId seats,
             nextId := s.nextId + seats.length }

/-- The handler `app.post("/shows")`. -/
def postShows (verify : Verifier) (s : Store) (r : ShowRequest) : Response × Store :=
  match r.token with
  | none => (⟨401, .error "Unauthorized"⟩, s)
  | some token =>
    if token = "" then (⟨401, .error "Unauthorized"⟩, s)
    else
      match verify token with
      | .error msg => (⟨500, .error msg⟩, s)
      | .ok decoded =>
        if decoded.role ≠ "admin" then (⟨403, .error "Access denied"⟩, s)
        else
          match r.movie_id, r.theatre_name, r.show_datetime with
          | some movie_id, some theatre_name, some show_datetime =>
            if theatre_name = "" then (⟨400, .error "Missing required fields"⟩, s)
            else
              let newShow : Show :=
                { _id := s.nextId, movie_id := movie_id, theatre_name := theatre_name,
                  show_datetime := show_datetime }
              let saved : Store := { s with shows := s.shows ++ [newShow], nextId := s.nextId + 1 }
              (⟨200, .showAdded "Show added successfully" newShow._id⟩,
               createSeatsForShow saved newShow._id)
          | _, _, _ => (⟨400, .error "Missing required fields"⟩, s)

/-- The handler `app.delete("/shows/:id")`: the seats of the show are deleted
before the show is looked up. -/
def deleteShows (verify : Verifier) (s : Store) (r : DeleteShowRequest) : Response × Store :=
  match r.token with
  | none => (⟨401, .error "Unauthorized"⟩, s)
  | some token =>
    if token = "" then (⟨401, .error "Unauthorized"⟩, s)
    else
      match verify token with
      | .error msg => (⟨500, .error msg⟩, s)
      | .ok decoded =>
        if decoded.role ≠ "admin" then (⟨403, .error "Access denied"⟩, s)
        else
          let seatsLeft := s.seats.filter (fun seat => seat.show_id ≠ r.id)
          match s.shows.find? (fun sh => sh._id = r.id) with
          | none => (⟨404, .error "Show not found"⟩, { s with seats := seatsLeft })
          | some _ =>
            (⟨200, .message "Show and associated seats deleted successfully"⟩,
             { s with seats := seatsLeft, shows := s.shows.eraseP (fun sh => sh._id = r.id) })

/-! ## Notions the statements use, and data for examples -/

/-- The reserved seats of a store. -/
def reservedSeats (s : Store) : List Seat :=
  s.seats.filter (fun seat => seat.is_reserved)

/-- A verifier for examples: it accepts the tokens `"user-7"` and `"admin"`. -/
def demoVerify : Verifier := fun token =>
  if token = "user-7" then .ok { userId := 7, username := "asha", role := "user" }
  else if token = "admin" then .ok { userId := 1, username := "admin", role := "admin" }
  else .error "jwt malformed"

/-- A one-seat store for examples: seat 1 of show 10, Standard, available. -/
def oneSeatStore : Store :=
  { shows := [{ _id := 10, movie_id := 3, theatre_name := "INOX", show_datetime := 0 }],
    seats := [{ _id := 1, show_id := 10, seat_row := "F", seat_col := 1, is_reserved := false,
                priority := 1, price := some 150 }],
    bookings := [], nextId := 11 }

/-- The store a successful `POST /book` leaves. -/
def bookedStore (s : Store) (userId show_id : Nat) (seats : List Nat) : Store :=
  { s with
    bookings := s.bookings ++
      [{ _id := s.nextId, user_id := userId, show_id := show_id, seats := seats,
         total_price := (findSeatsByIds s.seats seats).foldl
           (fun sum seat => sum + seatPrice seat) 0 }],
    seats := reserveSeats s.seats seats,
    nextId := s.nextId + 1 }

/-- The answer of a successful `POST /book`. -/
def bookedResponse (s : Store) (seats : List Nat) : Response :=
  ⟨200, .booked "Booking successful" s.nextId
    ((findSeatsByIds s.seats seats).foldl (fun sum seat => sum + seatPrice seat) 0)
    seats.length⟩

/-- A request carrying a price the caller made up. -/
def tamperedRequest : BookRequest :=
  { token := some "user-7", show_id := some 10, seats := some [1],
    extra := [("total_price", 1), ("price", 0)] }

/-- The same request without the extra fields. -/
def plainRequest : BookRequest :=
  { token := some "user-7", show_id := some 10, seats := some [1], extra := [] }

/-- A store for examples: seats 1 and 2 of show 10 are reserved (booked by
user 7), seat 3 is available. -/
def partlyBookedStore : Store :=
  { shows := [{ _id := 10, movie_id := 3, theatre_name := "INOX", show_datetime := 0 }],
    seats := [{ _id := 1, show_id := 10, seat_row := "A", seat_col := 1, is_reserved := true,
                priority := 3, price := some 400 },
              { _id := 2, show_id := 10, seat_row := "A", seat_col := 2, is_reserved := true,
                priority := 3, price := some 400 },
              { _id := 3, show_id := 10, seat_row := "A", seat_col := 3, is_reserved := false,
                priority := 3, price := some 400 }],
    bookings := [{ _id := 11, user_id := 7, show_id := 10, seats := [1, 2], total_price := 800 }],
    nextId := 12 }

/-- The requested seat ids that name a stored seat already reserved. -/
def conflictingSeats (s : Store) (ids : List Nat) : List Nat :=
  ids.filter (fun id => s.seats.any (fun seat => seat._id == id && seat.is_reserved))

/-- The seats a call actually reserved: those, position by position, that were
available in the seat collection before the call and are reserved after it. -/
def reservedBy (before after : List Seat) : List Seat :=
  ((before.zip after).filter (fun p => !p.1.is_reserved && p.2.is_reserved)).map Prod.snd

/-- The relation between a seat before and after a successful call naming
`ids`: a named seat was available and only its flag is set, any other seat is
unchanged. -/
def SeatStep (ids : List Nat) (old new : Seat) : Prop :=
  if old._id ∈ ids then old.is_reserved = false ∧ new = { old with is_reserved := true }
  else new = old

/-- The stores reachable from the empty store by handling, one after the
other, requests to `POST /shows`, `POST /book` and `DELETE /shows/:id`, where
every `POST /book` request satisfies `guard` in the store it meets. -/
inductive ReachableWith (verify : Verifier) (guard : Store → BookRequest → Prop) :
    Store → Prop where
  | init : ReachableWith verify guard emptyStore
  | addShow {s : Store} (r : ShowRequest) :
      ReachableWith verify guard s → ReachableWith verify guard (postShows verify s r).2
  | book {s : Store} (r : BookRequest) :
      ReachableWith verify guard s → guard s r → ReachableWith verify guard (book verify s r).2
  | deleteShow {s : Store} (r : DeleteShowRequest) :
      ReachableWith verify guard s → ReachableWith verify guard (deleteShows verify s r).2

/-- Reachable by any requests at all. -/
def Reachable (verify : Verifier) (s : Store) : Prop :=
  ReachableWith verify (fun _ _ => True) s

/-- No seat id is in the seat lists of two different bookings. -/
def NoSharedSeat (s : Store) : Prop :=
  s.bookings.Pairwise (fun b₁ b₂ => ∀ id ∈ b₁.seats, id ∉ b₂.seats)

/-- Every seat id of the request names a seat the store holds. -/
def NamesStoredSeats (s : Store) (r : BookRequest) : Prop :=
  ∀ ids, r.seats = some ids → ∀ id ∈ ids, ∃ seat ∈ s.seats, seat._id = id

/-- A well-formed admin request creating a show. -/
def showRequest : ShowRequest :=
  { token := some "admin", movie_id := some 3, theatre_name := some "INOX",
    show_datetime := some 1700000000 }

/-- The store after: a show is created (it gets id 0, its seats ids 1 to 80),
seat 1 is booked, the show is deleted, seat 1 is booked again. -/
def rebookedStore : Store :=
  (book demoVerify
    (deleteShows demoVerify
      (book demoVerify (postShows demoVerify emptyStore showRequest).2
        { token := some "user-7", show_id := some 0, seats := some [1], extra := [] }).2
      { token := some "admin", id := 0 }).2
    { token := some "user-7", show_id := some 0, seats := some [1], extra := [] }).2

/-- The invariant behind exclusivity: stored seats and booked seat ids carry
identifiers already issued, every stored seat a booking lists is reserved, and
no seat id is listed by two bookings. -/
def StoreInv (s : Store) : Prop :=
  (∀ seat ∈ s.seats, seat._id < s.nextId) ∧
  (∀ b ∈ s.bookings, ∀ id ∈ b.seats,
    id < s.nextId ∧ ∀ seat ∈ s.seats, seat._id = id → seat.is_reserved = true) ∧
  NoSharedSeat s

/-- The store after a show is created in the empty store: the show has id 0 and
its 80 seats have ids 1 to 80. -/
def freshShowStore : Store :=
  (postShows demoVerify emptyStore showRequest).2

/-- A request for the nine seats of ids 1 to 9. -/
def nineSeatsRequest : BookRequest :=
  { token := some "user-7", show_id := some 0, seats := some [1, 2, 3, 4, 5, 6, 7, 8, 9],
    extra := [] }

/-- A request naming seat 1 twice. -/
def repeatedSeatRequest : BookRequest :=
  { token := some "user-7", show_id := some 10, seats := some [1, 1], extra := [] }

/-- The request with each seat id of the list kept once; a notion for
statements, the handler has no such step. -/
def BookRequest.dedup (r : BookRequest) : BookRequest :=
  { r with seats := r.seats.map List.dedup }

/-- The label `GET /seats/:show_id` computes for a seat:
`seat.priority === 3 ? 'VIP' : seat.priority === 2 ? 'Premium' : 'Standard'`. -/
def seatCategory (seat : Seat) : String :=
  if seat.priority = 3 then "VIP" else if seat.priority = 2 then "Premium" else "Standard"

/-- The seats a call of `createSeatsForShow` adds to the collection: what the
seat collection holds after the call beyond what it held before. -/
def createdSeats (s : Store) (showId : Nat) : List Seat :=
  (createSeatsForShow s showId).seats.drop s.seats.length

/-- The seats of a show. -/
def seatsOfShow (s : Store) (showId : Nat) : List Seat :=
  s.seats.filter (fun seat => decide (seat.show_id = showId))

/-- The fields of a seat object other than its show: row, column, flag,
priority and price. -/
def SeatDoc.view (d : SeatDoc) : String × Nat × Bool × Int × Option Int :=
  (d.seat_row, d.seat_col, d.is_reserved, d.priority, d.price)

/-- The same fields of a stored seat. -/
def Seat.view (seat : Seat) : String × Nat × Bool × Int × Option Int :=
  (seat.seat_row, seat.seat_col, seat.is_reserved, seat.priority, seat.price)

/-- The arrays `theatres` and `times` of `seedDatabase`, paired. -/
def seedSlots : List (String × Nat) := [("PVR Cinemas", 10), ("INOX", 14), ("Cinepolis", 18)]

/-- The shows `seedDatabase` inserts for the movies of ids `movieIds`: one per
movie and theatre, at today's date with the hour of the slot (`showDate hour`),
with identifiers from `firstId` on. -/
def seedShows (firstId : Nat) (movieIds : List Nat) (showDate : Nat → Nat) : List Show :=
  (movieIds.flatMap (fun movie_id =>
      seedSlots.map (fun slot => (movie_id, slot.1, showDate slot.2)))).enum.map
    (fun ix => { _id := firstId + ix.1, movie_id := ix.2.1, theatre_name := ix.2.2.1,
                 show_datetime := ix.2.2.2 })

/-- The source's `seedDatabase` as `POST /reset-db` meets it, with no admin user
and no movie in the database: the admin user and the two movies are created
(they take three identifiers), then six shows, then the seats of each show. -/
def seedDatabase (showDate : Nat → Nat) (s : Store) : Store :=
  let movieIds := [s.nextId + 1, s.nextId + 2]
  let createdShows := seedShows (s.nextId + 3) movieIds showDate
  let withShows : Store :=
    { s with shows := s.shows ++ createdShows, nextId := s.nextId + 3 + createdShows.length }
  createdShows.foldl (fun st sh => createSeatsForShow st sh._id) withShows

/-- The handler `app.post("/reset-db")`: every collection is emptied, then the
database is seeded. -/
def resetDb (showDate : Nat → Nat) (s : Store) : Response × Store :=
  (⟨200, .message "Database reset and reseeded successfully!"⟩,
   seedDatabase showDate { s with shows := [], seats := [], bookings := [] })

/-- A request to the server. `other` stands for the routes that write none of
the collections of shows, seats and bookings: signup, login, the profile,
booking-list and movie routes, `GET /shows/:movie_id` and `GET /seats/:show_id`. -/
inductive Operation where
  | book (r : BookRequest)
  | postShows (r : ShowRequest)
  | deleteShows (r : DeleteShowRequest)
  | resetDb (showDate : Nat → Nat)
  | other

/-- The store an operation leaves. -/
def Operation.run (verify : Verifier) (s : Store) : Operation → Store
  | .book r => (CineReserve.book verify s r).2
  | .postShows r => (CineReserve.postShows verify s r).2
  | .deleteShows r => (CineReserve.deleteShows verify s r).2
  | .resetDb showDate => (CineReserve.resetDb showDate s).2
  | .other => s

/-- What the database guarantees about `_id`: no two stored seats share one, and
every stored seat carries an identifier that has been issued. -/
def SeatIdsOk (s : Store) : Prop :=
  (s.seats.map (fun seat => seat._id)).Nodup ∧ ∀ seat ∈ s.seats, seat._id < s.nextId

/-- Every seat of `after` either carries an identifier not yet issued in
`before`, or continues a seat of `before` without losing its reservation. -/
def KeepsReservations (before after : Store) : Prop :=
  before.nextId ≤ after.nextId ∧
  ∀ seat' ∈ after.seats, before.nextId ≤ seat'._id ∨
    ∃ seat ∈ before.seats, seat._id = seat'._id ∧
      (seat.is_reserved = true → seat'.is_reserved = true)

/-- The stores a sequence of operations leaves, one after the other. -/
def runAll (verify : Verifier) (s : Store) (ops : List Operation) : Store :=
  ops.foldl (fun st op => op.run verify st) s

/-- Where a `POST /book` handler stands. The handler gives way to other handlers
at each `await`, so it runs in three steps, each ending with one database call:
`Seat.find`, `booking.save` and `Seat.updateMany`. -/
inductive BookTask where
  | start (r : BookRequest)
  | saving (user_id show_id : Nat) (seats : List Nat) (totalPrice : Int)
  | updating (booking_id : Nat) (seats : List Nat) (totalPrice : Int)
  | done (resp : Response)
deriving DecidableEq, Repr

/-- One step of a `POST /book` handler on the store as it is when the step runs:
from the start to the answer of `Seat.find` (or to an early answer), then
`booking.save`, then `Seat.updateMany` and the answer. -/
def bookStep (verify : Verifier) (s : Store) : BookTask → BookTask × Store
  | .start r =>
    match r.token with
    | none => (.done ⟨401, .error "Unauthorized"⟩, s)
    | some token =>
      if token = "" then (.done ⟨401, .error "Unauthorized"⟩, s)
      else
        match verify token with
        | .error msg => (.done ⟨500, .error msg⟩, s)
        | .ok decoded =>
          match r.show_id, r.seats with
          | some show_id, some seats =>
            if seats.length = 0 then (.done ⟨400, .error "Missing booking data"⟩, s)
            else
              let seatDetails := findSeatsByIds s.seats seats
              let alreadyReserved := seatDetails.filter (fun seat => seat.is_reserved)
              if alreadyReserved.length > 0 then
                (.done ⟨400, .error "Some seats are already reserved"⟩, s)
              else
                let totalPrice := seatDetails.foldl (fun sum seat => sum + seatPrice seat) 0
                (.saving decoded.userId show_id seats totalPrice, s)
          | _, _ => (.done ⟨400, .error "Missing booking data"⟩, s)
  | .saving user_id show_id seats totalPrice =>
    (.updating s.nextId seats totalPrice,
     { s with bookings := s.bookings ++
                [{ _id := s.nextId, user_id := user_id, show_id := show_id, seats := seats,
                   total_price := totalPrice }],
              nextId := s.nextId + 1 })
  | .updating booking_id seats totalPrice =>
    (.done ⟨200, .booked "Booking successful" booking_id totalPrice seats.length⟩,
     { s with seats := reserveSeats s.seats seats })
  | .done resp => (.done resp, s)

/-- Two handlers running concurrently: the schedule says, step after step, which
of the two takes its next step (`false` the first, `true` the second). -/
def interleave (verify : Verifier) :
    List Bool → Store × BookTask × BookTask → Store × BookTask × BookTask
  | [], state => state
  | false :: schedule, (s, a, b) =>
    interleave verify schedule ((bookStep verify s a).2, (bookStep verify s a).1, b)
  | true :: schedule, (s, a, b) =>
    interleave verify schedule ((bookStep verify s b).2, a, (bookStep verify s b).1)

/-- The responses and the store when requests are handled one after the other,
each to completion before the next starts. -/
def bookAll (verify : Verifier) (s : Store) : List BookRequest → List Response × Store
  | [] => ([], s)
  | r :: rs =>
    ((book verify s r).1 :: (bookAll verify (book verify s r).2 rs).1,
     (bookAll verify (book verify s r).2 rs).2)

/-- The request of the admin user for seat 1 of show 10. -/
def rivalRequest : BookRequest :=
  { token := some "admin", show_id := some 10, seats := some [1], extra := [] }

/-- The request has a token that verifies, a show_id and a seat list naming `x`. -/
def NamesSeat (verify : Verifier) (r : BookRequest) (x : Nat) : Prop :=
  ∃ token decoded show_id seats,
    r.token = some token ∧ token ≠ "" ∧ verify token = .ok decoded ∧
    r.show_id = some show_id ∧ r.seats = some seats ∧ x ∈ seats

/-- The answer to a request that names a reserved seat. -/
def conflictResponse : Response :=
  ⟨400, .error "Some seats are already reserved"⟩

/-- Every stored seat has a priority among 1, 2, 3 and the price of its priority. -/
def SeatsPriced (s : Store) : Prop :=
  ∀ seat ∈ s.seats,
    (seat.priority = 1 ∨ seat.priority = 2 ∨ seat.priority = 3) ∧
      seat.price = some (getPriceByPriority seat.priority)

/-- The request the client's `bookSeats` sends for seat 1 of show 10, with the
user id of another user put in the body. -/
def forgedUserRequest : BookRequest :=
  { token := some "user-7", show_id := some 10, seats := some [1], extra := [("user_id", 99)] }

/-! ### `GET /seats/:show_id` -/

/-- The array `seatsWithPrice` of `app.get("/seats/:show_id")`. -/
def seatsWithPrice (s : Store) (show_id : Nat) : List SeatView :=
  (s.seats.filter (fun seat => decide (seat.show_id = show_id))).map (fun seat =>
    { _id := seat._id, seat_row := seat.seat_row, seat_col := seat.seat_col,
      is_reserved := seat.is_reserved, priority := seat.priority,
      price := seatPrice seat, category := seatCategory seat })

/-- The handler `app.get("/seats/:show_id")`. -/
def getSeats (s : Store) (show_id : Nat) : Response :=
  ⟨200, .seatList (seatsWithPrice s show_id)⟩

/-! ### The seat selection of the client (`src/script.js`) -/

/-- An element of the client's `SELECTED_SEATS`. -/
structure SelectedSeat where
  seatId : Nat
  price : Int
  category : String
  label : String
deriving DecidableEq, Repr

/-- The client's `CURRENT_USER`. -/
structure CurrentUser where
  userId : Nat
  username : String
  token : String
  role : String
deriving DecidableEq, Repr

/-- The client's `toggleSeatSelection`, as a function of `SELECTED_SEATS` and of
the seat clicked: a seat already selected is spliced out at the index
`findIndex` gives, another one is pushed unless 8 seats are selected. -/
def toggleSeatSelection (selected : List SelectedSeat) (seat : SeatView) : List SelectedSeat :=
  match selected.findIdx? (fun s => s.seatId == seat._id) with
  | some index => selected.eraseIdx index
  | none =>
    if selected.length ≥ 8 then selected
    else selected ++ [{ seatId := seat._id, price := seat.price, category := seat.category,
                        label := seat.seat_row ++ toString seat.seat_col }]

/-- The `totalPrice` that `updateBookingSummary` shows and `bookSeats` asks the
user to confirm: `SELECTED_SEATS.reduce((sum, seat) => sum + seat.price, 0)`. -/
def totalPrice (selected : List SelectedSeat) : Int :=
  selected.foldl (fun sum seat => sum + seat.price) 0

/-- The request the client's `bookSeats` sends, if it sends one: none when no
seat is selected or the user declines the confirmation. -/
def bookSeats (user : CurrentUser) (showId : Nat) (selected : List SelectedSeat)
    (confirmed : Bool) : Option BookRequest :=
  if selected.length = 0 then none
  else if !confirmed then none
  else some { token := some user.token, show_id := some showId,
              seats := some (selected.map (fun s => s.seatId)),
              extra := [("user_id", (user.userId : Int))] }

/-- The seats of the map `loadSeatMap` draws that react to a click: those the
server returned as not reserved. -/
def clickableSeats (s : Store) (showId : Nat) : List SeatView :=
  (seatsWithPrice s showId).filter (fun seat => !seat.is_reserved)

/-- The selection after a sequence of clicks on a freshly loaded seat map, where
`loadSeatMap` has set `SELECTED_SEATS = []`. -/
def selectionAfter (clicks : List SeatView) : List SelectedSeat :=
  clicks.foldl toggleSeatSelection []

/-- What holds of a selection built from the seats of a store: no seat is
selected twice, and each selected seat is a stored, available seat of the show
with the price the server showed. -/
def SelectionOf (s : Store) (showId : Nat) (selected : List SelectedSeat) : Prop :=
  (selected.map (fun e => e.seatId)).Nodup ∧
  ∀ e ∈ selected, ∃ seat ∈ s.seats, seat._id = e.seatId ∧ seatPrice seat = e.price ∧
    seat.is_reserved = false ∧ seat.show_id = showId

/-- The price of the stored seat of a given id, 0 if there is none. -/
def priceOfId (s : Store) (id : Nat) : Int :=
  ((s.seats.find? (fun seat => decide (seat._id = id))).map seatPrice).getD 0

/-- The client's user for examples: user 7 with the token that verifies. -/
def demoUser : CurrentUser :=
  { userId := 7, username := "asha", token := "user-7", role := "user" }

/-- A click on seat 1 of the one-seat store, as the listing shows it. -/
def clickOnSeatOne : SeatView :=
  { _id := 1, seat_row := "F", seat_col := 1, is_reserved := false, priority := 1,
    price := 150, category := "Standard" }

/-! ### The movie routes -/

/-- The request of `POST /movies`. -/
structure MovieRequest where
  token : Option String
  movie_name : Option String
  description : Option String
  poster_url : Option String
  genre : Option String
  release_date : Option Nat
deriving DecidableEq, Repr

/-- The request of `PUT /movies/:id`. -/
structure PutMovieRequest where
  token : Option String
  id : Nat
  movie_name : Option String
  description : Option String
  poster_url : Option String
  genre : Option String
  release_date : Option Nat
deriving DecidableEq, Repr

/-- The request of `DELETE /movies/:id`. -/
structure DeleteMovieRequest where
  token : Option String
  id : Nat
deriving DecidableEq, Repr

/-- The request of `PUT /movies/:id/cast-crew`. -/
structure CastCrewRequest where
  token : Option String
  id : Nat
  cast : Option (List Person)
  crew : Option (List Person)
deriving DecidableEq, Repr

/-- The update object a route hands to `Movie.findByIdAndUpdate`: a field is
`none` when the object does not carry it (`release_date` may carry `null`). -/
structure MovieUpdate where
  movie_name : Option String
  description : Option String
  poster_url : Option String
  genre : Option String
  release_date : Option (Option Nat)
  cast : Option (List Person)
  crew : Option (List Person)
deriving DecidableEq, Repr

/-- How the driver writes an update object onto a document; it is a parameter of
the routes that update a movie. -/
abbrev ApplyUpdate := MovieUpdate → Movie → Movie

/-- The call `Movie.findByIdAndUpdate(id, update, { new: true })`: the updated
document, if a movie of that id exists, and the collection after the call. -/
def findByIdAndUpdate (applyUpdate : ApplyUpdate) (id : Nat) (update : MovieUpdate) :
    List Movie → Option Movie × List Movie
  | [] => (none, [])
  | m :: ms =>
    if m._id = id then (some (applyUpdate update m), applyUpdate update m :: ms)
    else ((findByIdAndUpdate applyUpdate id update ms).1,
          m :: (findByIdAndUpdate applyUpdate id update ms).2)

/-- The handler `app.post("/movies")`. -/
def postMovies (verify : Verifier) (db : Database) (r : MovieRequest) : Response × Database :=
  match r.token with
  | none => (⟨401, .error "Unauthorized"⟩, db)
  | some token =>
    if token = "" then (⟨401, .error "Unauthorized"⟩, db)
    else
      match verify token with
      | .error msg => (⟨500, .error msg⟩, db)
      | .ok decoded =>
        if decoded.role ≠ "admin" then (⟨403, .error "Access denied"⟩, db)
        else
          match r.movie_name, r.poster_url with
          | some movie_name, some poster_url =>
            if movie_name = "" ∨ poster_url = "" then (⟨400, .error "Missing fields"⟩, db)
            else
              let movie : Movie :=
                { _id := db.store.nextId, movie_name := some movie_name,
                  genre := r.genre, description := r.description,
                  poster_url := some poster_url, release_date := r.release_date,
                  cast := [], crew := [] }
              (⟨200, .movieAdded "Movie added successfully" movie._id⟩,
               { movies := db.movies ++ [movie],
                 store := { db.store with nextId := db.store.nextId + 1 } })
          | _, _ => (⟨400, .error "Missing fields"⟩, db)

/-- The handler `app.put("/movies/:id")`. -/
def putMovie (verify : Verifier) (applyUpdate : ApplyUpdate) (db : Database)
    (r : PutMovieRequest) : Response × Database :=
  match r.token with
  | none => (⟨401, .error "Unauthorized"⟩, db)
  | some token =>
    if token = "" then (⟨401, .error "Unauthorized"⟩, db)
    else
      match verify token with
      | .error msg => (⟨500, .error msg⟩, db)
      | .ok decoded =>
        if decoded.role ≠ "admin" then (⟨403, .error "Access denied"⟩, db)
        else
          let updateData : MovieUpdate :=
            { movie_name := r.movie_name, description := r.description,
              poster_url := r.poster_url, genre := r.genre,
              release_date := some r.release_date, cast := none, crew := none }
          match findByIdAndUpdate applyUpdate r.id updateData db.movies with
          | (none, _) => (⟨404, .error "Movie not found"⟩, db)
          | (some movie, movies) =>
            (⟨200, .movieUpdated "Movie updated successfully" movie⟩, { db with movies := movies })

/-- The handler `app.delete("/movies/:id")`. -/
def deleteMovie (verify : Verifier) (db : Database) (r : DeleteMovieRequest) :
    Response × Database :=
  match r.token with
  | none => (⟨401, .error "Unauthorized"⟩, db)
  | some token =>
    if token = "" then (⟨401, .error "Unauthorized"⟩, db)
    else
      match verify token with
      | .error msg => (⟨500, .error msg⟩, db)
      | .ok decoded =>
        if decoded.role ≠ "admin" then (⟨403, .error "Access denied"⟩, db)
        else
          match db.movies.find? (fun m => m._id = r.id) with
          | none => (⟨404, .error "Movie not found"⟩, db)
          | some _ =>
            (⟨200, .message "Movie deleted successfully"⟩,
             { db with movies := db.movies.eraseP (fun m => m._id = r.id) })

/-- The handler `app.put("/movies/:id/cast-crew")`. -/
def putCastCrew (verify : Verifier) (applyUpdate : ApplyUpdate) (db : Database)
    (r : CastCrewRequest) : Response × Database :=
  match r.token with
  | none => (⟨401, .error "Unauthorized"⟩, db)
  | some token =>
    if token = "" then (⟨401, .error "Unauthorized"⟩, db)
    else
      match verify token with
      | .error msg => (⟨500, .error msg⟩, db)
      | .ok decoded =>
        if decoded.role ≠ "admin" then (⟨403, .error "Access denied"⟩, db)
        else
          let update : MovieUpdate :=
            { movie_name := none, description := none, poster_url := none, genre := none,
              release_date := none, cast := r.cast, crew := r.crew }
          match findByIdAndUpdate applyUpdate r.id update db.movies with
          | (none, _) => (⟨404, .error "Movie not found"⟩, db)
          | (some movie, movies) =>
            (⟨200, .movieUpdated "Cast and crew updated successfully" movie⟩,
             { db with movies := movies })

/-- A request to one of the routes the source marks admin-only. -/
inductive AdminRequest where
  | postMovies (r : MovieRequest)
  | putMovie (r : PutMovieRequest)
  | deleteMovie (r : DeleteMovieRequest)
  | putCastCrew (r : CastCrewRequest)
  | postShows (r : ShowRequest)
  | deleteShows (r : DeleteShowRequest)
deriving DecidableEq, Repr

/-- The `token` header of a request to an admin-only route. -/
def AdminRequest.token : AdminRequest → Option String
  | .postMovies r => r.token
  | .putMovie r => r.token
  | .deleteMovie r => r.token
  | .putCastCrew r => r.token
  | .postShows r => r.token
  | .deleteShows r => r.token

/-- The admin-only routes on the whole database; the two show routes work on
its store. -/
def adminRoute (verify : Verifier) (applyUpdate : ApplyUpdate) (db : Database) :
    AdminRequest → Response × Database
  | .postMovies r => CineReserve.postMovies verify db r
  | .putMovie r => CineReserve.putMovie verify applyUpdate db r
  | .deleteMovie r => CineReserve.deleteMovie verify db r
  | .putCastCrew r => CineReserve.putCastCrew verify applyUpdate db r
  | .postShows r =>
    ((CineReserve.postShows verify db.store r).1,
     { db with store := (CineReserve.postShows verify db.store r).2 })
  | .deleteShows r =>
    ((CineReserve.deleteShows verify db.store r).1,
     { db with store := (CineReserve.deleteShows verify db.store r).2 })

/-- An update that overwrites the fields the update object carries. -/
def overwriteFields : ApplyUpdate := fun u m =>
  { m with
    movie_name := (u.movie_name.map some).getD m.movie_name,
    description := (u.description.map some).getD m.description,
    poster_url := (u.poster_url.map some).getD m.poster_url,
    genre := (u.genre.map some).getD m.genre,
    release_date := u.release_date.getD m.release_date,
    cast := u.cast.getD m.cast,
    crew := u.crew.getD m.crew }

/-- A database for examples: one movie, and the partly booked store. -/
def demoDatabase : Database :=
  { movies := [{ _id := 3, movie_name := some "Inception", genre := some "Sci-Fi",
                 description := some "A dream heist thriller by Christopher Nolan.",
                 poster_url := some "https://example.org/inception.jpg",
                 release_date := none, cast := [], crew := [] }],
    store := partlyBookedStore }

/-! ### The two `GET /bookings/...` handlers -/

/-- A request `GET /bookings/<id>`: the `token` header and the id in the path. -/
structure BookingsRequest where
  token : Option String
  userId : Nat
deriving DecidableEq, Repr

/-- The JavaScript `value || fallback` on a text that may be absent. -/
def orElse (value : Option String) (fallback : String) : String :=
  match value with
  | some v => if v = "" then fallback else v
  | none => fallback

/-- The handler `app.get("/bookings/:userId")`, the first of the two registered
for this path: the ten latest bookings of the user of the path, with movie and
show details. Bookings are stored in the order they were made, so the order of
`sort({ booking_time: -1 })` is the reverse of the stored order. -/
def getBookingsWithDetails (verify : Verifier) (db : Database) (r : BookingsRequest) :
    Response :=
  match r.token with
  | none => ⟨401, .error "Unauthorized"⟩
  | some token =>
    if token = "" then ⟨401, .error "Unauthorized"⟩
    else
      match verify token with
      | .error msg => ⟨500, .error msg⟩
      | .ok _ =>
        let bookings :=
          ((db.store.bookings.filter (fun b => decide (b.user_id = r.userId))).reverse).take 10
        let bookingsWithDetails := bookings.map (fun booking =>
          let show? := db.store.shows.find? (fun sh => decide (sh._id = booking.show_id))
          let movie := show?.bind (fun sh => db.movies.find? (fun m => decide (m._id = sh.movie_id)))
          let seats := findSeatsByIds db.store.seats booking.seats
          ({ booking_id := booking._id,
             movie_name := orElse (movie.bind (fun m => m.movie_name)) "Unknown",
             poster_url := orElse (movie.bind (fun m => m.poster_url)) "",
             theatre_name := orElse (show?.map (fun sh => sh.theatre_name)) "Unknown",
             show_datetime := show?.map (fun sh => sh.show_datetime),
             total_price := booking.total_price,
             seat_count := seats.length,
             seats := seats.map (fun s => s.seat_row ++ toString s.seat_col) } : BookingDetail))
        ⟨200, .bookingDetails bookingsWithDetails⟩

/-- The handler `app.get("/bookings/:user_id")`, registered second for the same
path: the caller's own bookings, refused when the path names another user.
`bookingSchema.show_id` names no model to populate from, so the bookings are
answered with `show_id` as stored. -/
def getMyBookings (verify : Verifier) (db : Database) (r : BookingsRequest) : Response :=
  match r.token with
  | none => ⟨401, .error "Unauthorized"⟩
  | some token =>
    if token = "" then ⟨401, .error "Unauthorized"⟩
    else
      match verify token with
      | .error msg => ⟨500, .error msg⟩
      | .ok decoded =>
        if decoded.userId ≠ r.userId then ⟨403, .error "Access denied"⟩
        else
          ⟨200, .bookings
            (db.store.bookings.filter (fun b => decide (b.user_id = decoded.userId)))⟩

/-- The handlers registered for `GET /bookings/<id>`, in the order of the
source: both paths, `/bookings/:userId` and `/bookings/:user_id`, match the
same requests. -/
def bookingsHandlers : List (Verifier → Database → BookingsRequest → Response) :=
  [getBookingsWithDetails, getMyBookings]

/-- The answer to `GET /bookings/<id>`: the router runs the handlers that match
in the order of registration, and a handler that answers without calling `next`
ends the chain; both handlers always answer, so the first one does. -/
def getBookings (verify : Verifier) (db : Database) (r : BookingsRequest) : Response :=
  match bookingsHandlers with
  | handler :: _ => handler verify db r
  | [] => ⟨404, .error "Not found"⟩

/-- A database for examples: one movie, and the one-seat store after the admin
user (user 1) has booked seat 1. -/
def rivalDatabase : Database :=
  { movies := [{ _id := 3, movie_name := some "Inception", genre := some "Sci-Fi",
                 description := some "A dream heist thriller by Christopher Nolan.",
                 poster_url := some "https://example.org/inception.jpg",
                 release_date := none, cast := [], crew := [] }],
    store := (book demoVerify oneSeatStore rivalRequest).2 }

/-! ### Notions and data for the whole booking route -/

/-- Messages for examples, in the wording of the driver. -/
def demoMessages : DriverMessages :=
  { castError := fun value =>
      "Cast to ObjectId failed for value \"" ++ value ++ "\" (type string) at path \"_id\"",
    validationError := fun value =>
      "Booking validation failed: show_id: Cast to ObjectId failed for value \"" ++ value ++ "\"" }

/-- The tier price the specification states for a seat: 150 for Standard, 250
for Premium, 400 for VIP. -/
def tierPrice (seat : Seat) : Int :=
  if seatCategory seat = "VIP" then 400
  else if seatCategory seat = "Premium" then 250
  else 150

/-- The price the specification states for a stored seat: the stored price when
the field is present and non-zero, `getPriceByPriority(priority)` when it is
absent or 0. -/
def statedPrice (d : StoredSeat) : Int :=
  match d.price with
  | .number p => if p ≠ 0 then p else getPriceByPriority (hydrate d).priority
  | .null => getPriceByPriority (hydrate d).priority
  | .absent => getPriceByPriority (hydrate d).priority

/-- A Premium seat of show 10 stored without a `price` field. -/
def unpricedSeat : StoredSeat :=
  { _id := 4, show_id := 10, seat_row := "C", seat_col := 4, is_reserved := some false,
    priority := some 2, price := .absent }

/-- Seats of show 10 as stored, all Premium and available: with a price of 999,
with a price of 0, with a null price, and without the field. -/
def mixedStoredSeats : List StoredSeat :=
  [{ _id := 1, show_id := 10, seat_row := "C", seat_col := 1, is_reserved := some false,
     priority := some 2, price := .number 999 },
   { _id := 2, show_id := 10, seat_row := "C", seat_col := 2, is_reserved := some false,
     priority := some 2, price := .number 0 },
   { _id := 3, show_id := 10, seat_row := "C", seat_col := 3, is_reserved := some false,
     priority := some 2, price := .null },
   unpricedSeat]

/-- The store holding show 10 and the seats above, as the handlers read them. -/
def mixedPriceStore : Store :=
  { shows := [{ _id := 10, movie_id := 3, theatre_name := "INOX", show_datetime := 0 }],
    seats := mixedStoredSeats.map hydrate,
    bookings := [], nextId := 11 }

/-- The stored seat after `{ $set: { is_reserved: true } }`. -/
def StoredSeat.reserve (d : StoredSeat) : StoredSeat :=
  { d with is_reserved := some true }

/-! ## General facts about the handlers -/

/-- The handler on a request that passes the token and body checks. -/
theorem book_of_checked (verify : Verifier) (s : Store) (r : BookRequest)
    (token : String) (decoded : Decoded) (show_id : Nat) (seats : List Nat)
    (htok : r.token = some token) (hne : token ≠ "") (hver : verify token = .ok decoded)
    (hshow : r.show_id = some show_id) (hseats : r.seats = some seats) (hlen : seats ≠ []) :
    book verify s r =
      if ((findSeatsByIds s.seats seats).filter (fun seat => seat.is_reserved)).length > 0 then
        (⟨400, .error "Some seats are already reserved"⟩, s)
      else (bookedResponse s seats, bookedStore s decoded.userId show_id seats) := by
  have hl : seats.length ≠ 0 := by simpa using hlen
  simp only [book, htok, hne, hver, hshow, hseats, hl, if_false, bookedResponse, bookedStore]

/-- Every run of the handler either answers something other than 200 and leaves
the store as it was, or books. -/
theorem book_cases (verify : Verifier) (s : Store) (r : BookRequest) :
    ((book verify s r).1.status ≠ 200 ∧ (book verify s r).2 = s) ∨
    (∃ token decoded show_id seats,
      r.token = some token ∧ token ≠ "" ∧ verify token = .ok decoded ∧
      r.show_id = some show_id ∧ r.seats = some seats ∧ seats ≠ [] ∧
      (findSeatsByIds s.seats seats).filter (fun seat => seat.is_reserved) = [] ∧
      book verify s r = (bookedResponse s seats, bookedStore s decoded.userId show_id seats)) := by
  rcases r with ⟨tok, sh, sts, extra⟩
  cases tok with
  | none => left; simp [book]
  | some token =>
    by_cases hne : token = ""
    · left; simp [book, hne]
    · cases hver : verify token with
      | error msg => left; simp [book, hne, hver]
      | ok decoded =>
        cases sh with
        | none => left; simp [book, hne, hver]
        | some show_id =>
          cases sts with
          | none => left; simp [book, hne, hver]
          | some seats =>
            by_cases hlen : seats = []
            · left; simp [book, hne, hver, hlen]
            · have hb := book_of_checked verify s ⟨some token, some show_id, some seats, extra⟩
                token decoded show_id seats rfl hne hver rfl rfl hlen
              by_cases hres :
                  ((findSeatsByIds s.seats seats).filter (fun seat => seat.is_reserved)).length > 0
              · left
                rw [hb, if_pos hres]
                simp
              · right
                rw [if_neg hres] at hb
                refine ⟨token, decoded, show_id, seats, rfl, hne, hver, rfl, rfl, hlen, ?_, hb⟩
                exact List.length_eq_zero.mp (Nat.eq_zero_of_not_pos hres)

/-- An answer other than 200 leaves the whole store as it was. -/
theorem book_store_of_ne_200 (verify : Verifier) (s : Store) (r : BookRequest)
    (h : (book verify s r).1.status ≠ 200) : (book verify s r).2 = s := by
  rcases book_cases verify s r with ⟨_, h2⟩ | ⟨_, _, _, seats, _, _, _, _, _, _, _, hb⟩
  · exact h2
  · rw [hb] at h
    exact absurd rfl h

/-- A run that answers 200 is a booking run. -/
theorem book_of_status_200 (verify : Verifier) (s : Store) (r : BookRequest)
    (h : (book verify s r).1.status = 200) :
    ∃ token decoded show_id seats,
      r.token = some token ∧ token ≠ "" ∧ verify token = .ok decoded ∧
      r.show_id = some show_id ∧ r.seats = some seats ∧ seats ≠ [] ∧
      (findSeatsByIds s.seats seats).filter (fun seat => seat.is_reserved) = [] ∧
      book verify s r = (bookedResponse s seats, bookedStore s decoded.userId show_id seats) := by
  rcases book_cases verify s r with ⟨h1, _⟩ | h2
  · exact absurd h h1
  · exact h2

/-- The seats the query finds and that are reserved: non-empty exactly when a
stored seat named in the list is reserved. -/
theorem alreadyReserved_pos_iff (seats : List Seat) (ids : List Nat) :
    ((findSeatsByIds seats ids).filter (fun seat => seat.is_reserved)).length > 0 ↔
      ∃ seat ∈ seats, seat._id ∈ ids ∧ seat.is_reserved = true := by
  constructor
  · intro hpos
    obtain ⟨seat, hmem⟩ := List.exists_mem_of_length_pos hpos
    simp only [findSeatsByIds, List.mem_filter, decide_eq_true_eq] at hmem
    exact ⟨seat, hmem.1.1, hmem.1.2, hmem.2⟩
  · rintro ⟨seat, hmem, hid, hres⟩
    apply List.length_pos_of_mem (a := seat)
    simp only [findSeatsByIds, List.mem_filter, decide_eq_true_eq]
    exact ⟨⟨hmem, hid⟩, hres⟩

/-- A checked request naming a stored reserved seat is answered 400 with the
fixed message, and the store stays as it was. -/
theorem book_of_conflict (verify : Verifier) (s : Store) (r : BookRequest)
    (token : String) (decoded : Decoded) (show_id : Nat) (seats : List Nat)
    (htok : r.token = some token) (hne : token ≠ "") (hver : verify token = .ok decoded)
    (hshow : r.show_id = some show_id) (hseats : r.seats = some seats) (hlen : seats ≠ [])
    (hres : ∃ seat ∈ s.seats, seat._id ∈ seats ∧ seat.is_reserved = true) :
    book verify s r = (⟨400, .error "Some seats are already reserved"⟩, s) := by
  rw [book_of_checked verify s r token decoded show_id seats htok hne hver hshow hseats hlen,
    if_pos ((alreadyReserved_pos_iff s.seats seats).mpr hres)]

/-- A checked request naming no stored reserved seat books. -/
theorem book_of_free (verify : Verifier) (s : Store) (r : BookRequest)
    (token : String) (decoded : Decoded) (show_id : Nat) (seats : List Nat)
    (htok : r.token = some token) (hne : token ≠ "") (hver : verify token = .ok decoded)
    (hshow : r.show_id = some show_id) (hseats : r.seats = some seats) (hlen : seats ≠ [])
    (hfree : ∀ seat ∈ s.seats, seat._id ∈ seats → seat.is_reserved = false) :
    book verify s r = (bookedResponse s seats, bookedStore s decoded.userId show_id seats) := by
  rw [book_of_checked verify s r token decoded show_id seats htok hne hver hshow hseats hlen,
    if_neg]
  rw [alreadyReserved_pos_iff]
  rintro ⟨seat, hmem, hid, hres⟩
  rw [hfree seat hmem hid] at hres
  exact Bool.false_ne_true hres

/-- In a booking run no stored seat named in the list was reserved. -/
theorem free_of_filter_nil (seats : List Seat) (ids : List Nat)
    (h : (findSeatsByIds seats ids).filter (fun seat => seat.is_reserved) = []) :
    ∀ seat ∈ seats, seat._id ∈ ids → seat.is_reserved = false := by
  intro seat hmem hid
  by_contra hres
  have hpos := (alreadyReserved_pos_iff seats ids).mpr
    ⟨seat, hmem, hid, by simpa using hres⟩
  rw [h] at hpos
  exact absurd hpos (by simp)

/-- A requested seat conflicts exactly when a stored seat of that id is reserved. -/
theorem conflictingSeats_ne_nil_iff (s : Store) (ids : List Nat) :
    conflictingSeats s ids ≠ [] ↔ ∃ seat ∈ s.seats, seat._id ∈ ids ∧ seat.is_reserved = true := by
  constructor
  · intro hne
    obtain ⟨id, hmem⟩ := List.exists_mem_of_ne_nil _ hne
    simp only [conflictingSeats, List.mem_filter, List.any_eq_true, Bool.and_eq_true,
      beq_iff_eq] at hmem
    obtain ⟨hid, seat, hseat, heq, hres⟩ := hmem
    exact ⟨seat, hseat, heq ▸ hid, hres⟩
  · rintro ⟨seat, hseat, hid, hres⟩
    apply List.ne_nil_of_mem (a := seat._id)
    simp only [conflictingSeats, List.mem_filter, List.any_eq_true, Bool.and_eq_true,
      beq_iff_eq]
    exact ⟨hid, seat, hseat, rfl, hres⟩

/-- A seat of the updated collection comes from a seat of the old one. -/
theorem mem_reserveSeats (seats : List Seat) (ids : List Nat) (seat : Seat) :
    seat ∈ reserveSeats seats ids ↔
      ∃ old ∈ seats, seat = if old._id ∈ ids then { old with is_reserved := true } else old := by
  simp only [reserveSeats, List.mem_map]
  constructor
  · rintro ⟨old, hold, h⟩
    exact ⟨old, hold, h.symm⟩
  · rintro ⟨old, hold, h⟩
    exact ⟨old, hold, h.symm⟩

/-- The `reduce` of the handler is the sum of the seat prices. -/
theorem foldl_seatPrice (l : List Seat) (init : Int) :
    l.foldl (fun sum seat => sum + seatPrice seat) init = init + (l.map seatPrice).sum := by
  induction l generalizing init with
  | nil => simp
  | cons a l ih => simp [List.foldl_cons, ih, add_assoc]

/-- When no stored seat named in the list is reserved, the seats the update
reserves are the seats the query found, with the flag set. -/
theorem reservedBy_reserveSeats (l : List Seat) (ids : List Nat)
    (hfree : ∀ seat ∈ l, seat._id ∈ ids → seat.is_reserved = false) :
    reservedBy l (reserveSeats l ids) =
      (findSeatsByIds l ids).map (fun seat => { seat with is_reserved := true }) := by
  induction l with
  | nil => rfl
  | cons a l ih =>
    have ih2 := ih (fun seat hmem => hfree seat (List.mem_cons_of_mem a hmem))
    simp only [reservedBy, reserveSeats, findSeatsByIds] at ih2 ⊢
    by_cases ha : a._id ∈ ids
    · have hra : a.is_reserved = false := hfree a (List.mem_cons_self a l) ha
      simp [List.filter_cons, ha, hra, ih2]
    · cases hra : a.is_reserved <;> simp [List.filter_cons, ha, hra, ih2]

/-- The update relates every seat to its successor. -/
theorem forall₂_reserveSeats (l : List Seat) (ids : List Nat)
    (hfree : ∀ seat ∈ l, seat._id ∈ ids → seat.is_reserved = false) :
    List.Forall₂ (SeatStep ids) l (reserveSeats l ids) := by
  induction l with
  | nil => exact List.Forall₂.nil
  | cons a l ih =>
    refine List.Forall₂.cons ?_ (ih (fun seat hmem => hfree seat (List.mem_cons_of_mem a hmem)))
    unfold SeatStep
    by_cases ha : a._id ∈ ids
    · rw [if_pos ha]
      exact ⟨hfree a (List.mem_cons_self a l) ha, if_pos ha⟩
    · rw [if_neg ha]
      exact if_neg ha

/-- Distinct ids that each name one stored seat, in a store whose seat ids are
distinct, are found one seat each. -/
theorem length_findSeatsByIds (l : List Seat) (ids : List Nat)
    (hids : ids.Nodup) (hstore : (l.map (fun seat => seat._id)).Nodup)
    (hall : ∀ id ∈ ids, id ∈ l.map (fun seat => seat._id)) :
    (findSeatsByIds l ids).length = ids.length := by
  have hmap : ((findSeatsByIds l ids).map (fun seat => seat._id)) =
      (l.map (fun seat => seat._id)).filter (fun id => decide (id ∈ ids)) := by
    rw [findSeatsByIds, List.filter_map]
    rfl
  have hperm : List.Perm ((l.map (fun seat => seat._id)).filter (fun id => decide (id ∈ ids)))
      ids := by
    rw [List.perm_ext_iff_of_nodup (hstore.filter _) hids]
    intro id
    simp only [List.mem_filter, decide_eq_true_eq]
    exact ⟨fun h => h.2, fun h => ⟨hall id h, h⟩⟩
  rw [← List.length_map (findSeatsByIds l ids) (fun seat => seat._id), hmap]
  exact hperm.length_eq

/-- The identifiers `insertMany` gives out start at `firstId` and are consecutive. -/
theorem insertMany_id_range (docs : List SeatDoc) (firstId : Nat) :
    ∀ seat ∈ insertMany firstId docs, firstId ≤ seat._id ∧ seat._id < firstId + docs.length := by
  induction docs generalizing firstId with
  | nil => intro seat hmem; exact absurd hmem (List.not_mem_nil _)
  | cons d ds ih =>
    intro seat hmem
    simp only [insertMany, List.mem_cons] at hmem
    rcases hmem with rfl | hmem
    · simp
    · have := ih (firstId + 1) seat hmem
      simp only [List.length_cons]
      omega

/-- Provisioning seats keeps the invariant. -/
theorem StoreInv.createSeatsForShow {s : Store} (h : StoreInv s) (showId : Nat) :
    StoreInv (createSeatsForShow s showId) := by
  unfold CineReserve.createSeatsForShow
  split
  · exact h
  · obtain ⟨hseat, hbook, hshared⟩ := h
    refine ⟨?_, ?_, hshared⟩
    · intro seat hmem
      simp only [List.mem_append] at hmem
      rcases hmem with hmem | hmem
      · have := hseat seat hmem
        simp only
        omega
      · exact (insertMany_id_range _ _ seat hmem).2
    · intro b hb id hid
      obtain ⟨hlt, hres⟩ := hbook b hb id hid
      refine ⟨by simp only; omega, ?_⟩
      intro seat hmem heq
      simp only [List.mem_append] at hmem
      rcases hmem with hmem | hmem
      · exact hres seat hmem heq
      · have := (insertMany_id_range _ _ seat hmem).1
        omega

/-- Handling `POST /shows` keeps the invariant. -/
theorem StoreInv.postShows {s : Store} (h : StoreInv s) (verify : Verifier) (r : ShowRequest) :
    StoreInv (postShows verify s r).2 := by
  have hsaved : ∀ sh : Show,
      StoreInv { s with shows := s.shows ++ [sh], nextId := s.nextId + 1 } := by
    intro sh
    obtain ⟨hseat, hbook, hshared⟩ := h
    refine ⟨?_, ?_, hshared⟩
    · intro seat hmem
      exact Nat.lt_succ_of_lt (hseat seat hmem)
    · intro b hb id hid
      exact ⟨Nat.lt_succ_of_lt (hbook b hb id hid).1, (hbook b hb id hid).2⟩
  unfold CineReserve.postShows
  split
  · exact h
  · split
    · exact h
    · split
      · exact h
      · split
        · exact h
        · split
          · split
            · exact h
            · exact (hsaved _).createSeatsForShow _
          · exact h

/-- Handling `DELETE /shows/:id` keeps the invariant. -/
theorem StoreInv.deleteShows {s : Store} (h : StoreInv s) (verify : Verifier)
    (r : DeleteShowRequest) : StoreInv (deleteShows verify s r).2 := by
  have hleft : ∀ shows : List Show,
      StoreInv { s with seats := s.seats.filter (fun seat => seat.show_id ≠ r.id),
                        shows := shows } := by
    intro shows
    obtain ⟨hseat, hbook, hshared⟩ := h
    refine ⟨?_, ?_, hshared⟩
    · intro seat hmem
      exact hseat seat (List.mem_of_mem_filter hmem)
    · intro b hb id hid
      exact ⟨(hbook b hb id hid).1,
        fun seat hmem heq => (hbook b hb id hid).2 seat (List.mem_of_mem_filter hmem) heq⟩
  unfold CineReserve.deleteShows
  split
  · exact h
  · split
    · exact h
    · split
      · exact h
      · split
        · exact h
        · split
          · exact hleft _
          · exact hleft _

/-- The update keeps the identifier of every seat. -/
theorem reserveSeats_id {seats : List Seat} {ids : List Nat} {seat : Seat}
    (hmem : seat ∈ reserveSeats seats ids) :
    ∃ old ∈ seats, old._id = seat._id ∧ (old._id ∈ ids → seat.is_reserved = true) ∧
      (old._id ∉ ids → seat = old) := by
  obtain ⟨old, hold, heq⟩ := (mem_reserveSeats seats ids seat).mp hmem
  refine ⟨old, hold, ?_, ?_, ?_⟩
  · rw [heq]; split_ifs <;> rfl
  · intro hin; rw [heq, if_pos hin]
  · intro hnot; rw [heq, if_neg hnot]

/-- Handling a `POST /book` that names stored seats only keeps the invariant. -/
theorem StoreInv.book {s : Store} (h : StoreInv s) (verify : Verifier) (r : BookRequest)
    (hguard : NamesStoredSeats s r) : StoreInv (book verify s r).2 := by
  rcases book_cases verify s r with ⟨_, hs⟩ | ⟨token, decoded, show_id, seats, _, _, _, _,
    hseats, _, hnil, hb⟩
  · rw [hs]; exact h
  · have hfree := free_of_filter_nil s.seats seats hnil
    have hstored := hguard seats hseats
    obtain ⟨hseat, hbook, hshared⟩ := h
    rw [hb]
    refine ⟨?_, ?_, ?_⟩
    · intro seat hmem
      obtain ⟨old, hold, hid, _, _⟩ := reserveSeats_id hmem
      have := hseat old hold
      simp only [bookedStore]
      omega
    · intro b hbmem id hid
      simp only [bookedStore, List.mem_append, List.mem_singleton] at hbmem
      rcases hbmem with hbmem | rfl
      · obtain ⟨hlt, hres⟩ := hbook b hbmem id hid
        refine ⟨Nat.lt_succ_of_lt hlt, ?_⟩
        intro seat hmem heq
        obtain ⟨old, hold, hoid, hin, hout⟩ := reserveSeats_id hmem
        by_cases hnamed : old._id ∈ seats
        · exact hin hnamed
        · rw [hout hnamed]
          exact hres old hold (by rw [← heq, hout hnamed])
      · simp only at hid
        obtain ⟨stored, hstoredmem, hstoredid⟩ := hstored id hid
        refine ⟨?_, ?_⟩
        · have := hseat stored hstoredmem
          simp only [bookedStore]
          omega
        · intro seat hmem heq
          obtain ⟨old, _, hoid, hin, _⟩ := reserveSeats_id hmem
          exact hin (by rw [hoid, heq]; exact hid)
    · unfold NoSharedSeat at hshared ⊢
      simp only [bookedStore]
      rw [List.pairwise_append]
      refine ⟨hshared, List.pairwise_singleton _ _, ?_⟩
      intro b hbmem b' hb' id hid hid'
      rw [List.mem_singleton] at hb'
      subst hb'
      simp only at hid'
      obtain ⟨stored, hstoredmem, hstoredid⟩ := hstored id hid'
      have htrue := (hbook b hbmem id hid).2 stored hstoredmem hstoredid
      have hfalse := hfree stored hstoredmem (by rw [hstoredid]; exact hid')
      rw [htrue] at hfalse
      exact Bool.noConfusion hfalse

/-- The query finds the same seats whether an id is repeated or not. -/
theorem findSeatsByIds_dedup (l : List Seat) (ids : List Nat) :
    findSeatsByIds l ids.dedup = findSeatsByIds l ids := by
  simp only [findSeatsByIds, List.mem_dedup]

/-- The update changes the same seats whether an id is repeated or not. -/
theorem reserveSeats_dedup (l : List Seat) (ids : List Nat) :
    reserveSeats l ids.dedup = reserveSeats l ids := by
  simp only [reserveSeats, List.mem_dedup]

/-- Every object the loops build belongs to the show. -/
theorem seatDocs_show_id (showId : Nat) : ∀ d ∈ seatDocs showId, d.show_id = showId := by
  intro d hd
  simp only [seatDocs, List.mem_flatMap, List.mem_map] at hd
  obtain ⟨_, _, _, _, rfl⟩ := hd
  rfl

/-- The loops build 80 objects. -/
theorem seatDocs_length (showId : Nat) : (seatDocs showId).length = 80 := rfl

/-- Apart from the show, the objects the loops build are the same for every show. -/
theorem seatDocs_view (showId : Nat) :
    (seatDocs showId).map SeatDoc.view = (seatDocs 0).map SeatDoc.view := rfl

/-- `insertMany` stores as many documents as it is given objects. -/
theorem insertMany_length (docs : List SeatDoc) (firstId : Nat) :
    (insertMany firstId docs).length = docs.length := by
  induction docs generalizing firstId with
  | nil => rfl
  | cons d ds ih => simp only [insertMany, List.length_cons, ih]

/-- `insertMany` stores the fields of the objects as they are. -/
theorem insertMany_view (docs : List SeatDoc) (firstId : Nat) :
    (insertMany firstId docs).map Seat.view = docs.map SeatDoc.view := by
  induction docs generalizing firstId with
  | nil => rfl
  | cons d ds ih =>
    simp only [insertMany, List.map_cons, ih]
    rfl

/-- `insertMany` stores the show of the objects as it is. -/
theorem insertMany_show_id (docs : List SeatDoc) (firstId showId : Nat)
    (h : ∀ d ∈ docs, d.show_id = showId) :
    ∀ seat ∈ insertMany firstId docs, seat.show_id = showId := by
  induction docs generalizing firstId with
  | nil => intro seat hmem; exact absurd hmem (List.not_mem_nil _)
  | cons d ds ih =>
    intro seat hmem
    simp only [insertMany, List.mem_cons] at hmem
    rcases hmem with rfl | hmem
    · exact h d (List.mem_cons_self d ds)
    · exact ih (firstId + 1) (fun d' hd' => h d' (List.mem_cons_of_mem d hd')) seat hmem

/-- `createSeatsForShow` when the store holds a seat of the show: nothing changes. -/
theorem createSeatsForShow_of_some (s : Store) (showId : Nat)
    (h : ∃ seat ∈ s.seats, seat.show_id = showId) : createSeatsForShow s showId = s := by
  obtain ⟨seat, hmem, hshow⟩ := h
  unfold createSeatsForShow
  split
  · rfl
  · rename_i hnone
    rw [List.find?_eq_none] at hnone
    exact absurd (by simpa using hshow) (hnone seat hmem)

/-- `createSeatsForShow` when the store holds no seat of the show: 80 documents
are appended. -/
theorem createSeatsForShow_of_none (s : Store) (showId : Nat)
    (h : ∀ seat ∈ s.seats, seat.show_id ≠ showId) :
    createSeatsForShow s showId =
      { s with seats := s.seats ++ insertMany s.nextId (seatDocs showId),
               nextId := s.nextId + 80 } := by
  unfold createSeatsForShow
  split
  · rename_i found hfound
    have hp := List.find?_some hfound
    have hmem := List.mem_of_find?_eq_some hfound
    exact absurd (by simpa using hp) (h found hmem)
  · rfl

/-- The seats added for a show that had none. -/
theorem createdSeats_of_none (s : Store) (showId : Nat)
    (h : ∀ seat ∈ s.seats, seat.show_id ≠ showId) :
    createdSeats s showId = insertMany s.nextId (seatDocs showId) := by
  simp only [createdSeats, createSeatsForShow_of_none s showId h, List.drop_left]

/-- The seats added are objects of the loops: their fields are among those of
the layout. -/
theorem view_mem_of_mem_createdSeats (s : Store) (showId : Nat) (seat : Seat)
    (hmem : seat ∈ createdSeats s showId) :
    seat.view ∈ (seatDocs 0).map SeatDoc.view := by
  by_cases h : ∀ seat ∈ s.seats, seat.show_id ≠ showId
  · rw [createdSeats_of_none s showId h] at hmem
    rw [← seatDocs_view showId, ← insertMany_view (seatDocs showId) s.nextId]
    exact List.mem_map_of_mem Seat.view hmem
  · push_neg at h
    rw [createdSeats, createSeatsForShow_of_some s showId h, List.drop_length] at hmem
    exact absurd hmem (List.not_mem_nil _)

/-- After `createSeatsForShow` the store holds a seat of the show. -/
theorem exists_seat_after_createSeatsForShow (s : Store) (showId : Nat) :
    ∃ seat ∈ (createSeatsForShow s showId).seats, seat.show_id = showId := by
  by_cases h : ∃ seat ∈ s.seats, seat.show_id = showId
  · rw [createSeatsForShow_of_some s showId h]
    exact h
  · push_neg at h
    rw [createSeatsForShow_of_none s showId h]
    have hpos : 0 < (insertMany s.nextId (seatDocs showId)).length := by
      rw [insertMany_length, seatDocs_length]
      decide
    obtain ⟨seat, hmem⟩ := List.exists_mem_of_length_pos hpos
    exact ⟨seat, List.mem_append_right _ hmem,
      insertMany_show_id (seatDocs showId) s.nextId showId (seatDocs_show_id showId) seat hmem⟩

/-- Two updates can be done in either order. -/
theorem reserveSeats_comm (l : List Seat) (a b : List Nat) :
    reserveSeats (reserveSeats l a) b = reserveSeats (reserveSeats l b) a := by
  simp only [reserveSeats, List.map_map]
  apply List.map_congr_left
  intro seat _
  simp only [Function.comp]
  by_cases ha : seat._id ∈ a <;> by_cases hb : seat._id ∈ b <;> simp [ha, hb]

/-- Seats named by a list disjoint from the list just booked are as available
after the update as they were before. -/
theorem free_after_reserveSeats (l : List Seat) (a b : List Nat)
    (hdisj : ∀ id ∈ a, id ∉ b)
    (hfree : ∀ seat ∈ l, seat._id ∈ b → seat.is_reserved = false) :
    ∀ seat ∈ reserveSeats l a, seat._id ∈ b → seat.is_reserved = false := by
  intro seat hmem hb
  obtain ⟨old, hold, hid, _, hout⟩ := reserveSeats_id hmem
  have hnot : old._id ∉ a := fun ha => hdisj old._id ha (hid ▸ hb)
  rw [hout hnot]
  exact hfree old hold (hid ▸ hb)

/-- In a collection with distinct ids, two seats of the same id are one seat. -/
theorem seat_eq_of_id_eq {l : List Seat} (hnodup : (l.map (fun seat => seat._id)).Nodup)
    {a b : Seat} (ha : a ∈ l) (hb : b ∈ l) (hid : a._id = b._id) : a = b :=
  List.inj_on_of_nodup_map hnodup ha hb hid

/-- A store keeps its own reservations. -/
theorem keepsReservations_refl (s : Store) : KeepsReservations s s :=
  ⟨Nat.le_refl _, fun seat' hmem => Or.inr ⟨seat', hmem, rfl, id⟩⟩

/-- Keeping reservations composes. -/
theorem keepsReservations_trans {a b c : Store} (hab : KeepsReservations a b)
    (hbc : KeepsReservations b c) : KeepsReservations a c := by
  refine ⟨Nat.le_trans hab.1 hbc.1, ?_⟩
  intro seat'' hmem
  rcases hbc.2 seat'' hmem with h | ⟨seat', hmem', hid', hres'⟩
  · exact Or.inl (Nat.le_trans hab.1 h)
  · rcases hab.2 seat' hmem' with h | ⟨seat, hmem0, hid, hres⟩
    · exact Or.inl (hid' ▸ h)
    · exact Or.inr ⟨seat, hmem0, hid.trans hid', fun h => hres' (hres h)⟩

/-- Provisioning seats keeps the reservations. -/
theorem keepsReservations_createSeatsForShow (s : Store) (showId : Nat) :
    KeepsReservations s (createSeatsForShow s showId) := by
  by_cases h : ∃ seat ∈ s.seats, seat.show_id = showId
  · rw [createSeatsForShow_of_some s showId h]
    exact keepsReservations_refl s
  · push_neg at h
    rw [createSeatsForShow_of_none s showId h]
    refine ⟨Nat.le_add_right _ _, ?_⟩
    intro seat' hmem
    simp only [List.mem_append] at hmem
    rcases hmem with hmem | hmem
    · exact Or.inr ⟨seat', hmem, rfl, id⟩
    · exact Or.inl (insertMany_id_range _ _ seat' hmem).1

/-- Provisioning the seats of several shows keeps the reservations. -/
theorem keepsReservations_foldl (shows : List Show) (s : Store) :
    KeepsReservations s (shows.foldl (fun st sh => CineReserve.createSeatsForShow st sh._id) s) := by
  induction shows generalizing s with
  | nil => exact keepsReservations_refl s
  | cons sh rest ih =>
    simp only [List.foldl_cons]
    exact keepsReservations_trans (keepsReservations_createSeatsForShow s sh._id) (ih _)

/-- `POST /book` keeps the reservations. -/
theorem keepsReservations_book (verify : Verifier) (s : Store) (r : BookRequest) :
    KeepsReservations s (book verify s r).2 := by
  rcases book_cases verify s r with ⟨_, hs⟩ | ⟨_, decoded, show_id, seats, _, _, _, _, _, _, _, hb⟩
  · rw [hs]
    exact keepsReservations_refl s
  · rw [hb]
    refine ⟨Nat.le_succ _, ?_⟩
    intro seat' hmem
    obtain ⟨old, hold, hid, hin, hout⟩ := reserveSeats_id hmem
    refine Or.inr ⟨old, hold, hid, fun hres => ?_⟩
    by_cases hnamed : old._id ∈ seats
    · exact hin hnamed
    · rw [hout hnamed]
      exact hres

/-- `POST /shows` keeps the reservations. -/
theorem keepsReservations_postShows (verify : Verifier) (s : Store) (r : ShowRequest) :
    KeepsReservations s (postShows verify s r).2 := by
  have hsaved : ∀ sh : Show,
      KeepsReservations s { s with shows := s.shows ++ [sh], nextId := s.nextId + 1 } :=
    fun sh => ⟨Nat.le_succ _, fun seat' hmem => Or.inr ⟨seat', hmem, rfl, id⟩⟩
  unfold CineReserve.postShows
  split
  · exact keepsReservations_refl s
  · split
    · exact keepsReservations_refl s
    · split
      · exact keepsReservations_refl s
      · split
        · exact keepsReservations_refl s
        · split
          · split
            · exact keepsReservations_refl s
            · exact keepsReservations_trans (hsaved _) (keepsReservations_createSeatsForShow _ _)
          · exact keepsReservations_refl s

/-- `DELETE /shows/:id` keeps the reservations of the seats it leaves. -/
theorem keepsReservations_deleteShows (verify : Verifier) (s : Store)
    (r : DeleteShowRequest) : KeepsReservations s (deleteShows verify s r).2 := by
  have hleft : ∀ shows : List Show,
      KeepsReservations s
        { s with seats := s.seats.filter (fun seat => seat.show_id ≠ r.id), shows := shows } :=
    fun shows => ⟨Nat.le_refl _,
      fun seat' hmem => Or.inr ⟨seat', List.mem_of_mem_filter hmem, rfl, id⟩⟩
  unfold CineReserve.deleteShows
  split
  · exact keepsReservations_refl s
  · split
    · exact keepsReservations_refl s
    · split
      · exact keepsReservations_refl s
      · split
        · exact keepsReservations_refl s
        · split
          · exact hleft _
          · exact hleft _

/-- `POST /reset-db` leaves only seats with identifiers not issued before. -/
theorem keepsReservations_resetDb (showDate : Nat → Nat) (s : Store) :
    KeepsReservations s (resetDb showDate s).2 := by
  have h := keepsReservations_foldl
    (seedShows (s.nextId + 3) [s.nextId + 1, s.nextId + 2] showDate)
    { shows := [] ++ seedShows (s.nextId + 3) [s.nextId + 1, s.nextId + 2] showDate,
      seats := [], bookings := [],
      nextId := s.nextId + 3 +
        (seedShows (s.nextId + 3) [s.nextId + 1, s.nextId + 2] showDate).length }
  refine ⟨?_, ?_⟩
  · exact Nat.le_trans (by simp only; omega) h.1
  · intro seat' hmem
    rcases h.2 seat' hmem with hge | ⟨seat, hnil, _⟩
    · left
      simp only at hge
      omega
    · exact absurd hnil (List.not_mem_nil _)

/-- Every operation keeps the reservations. -/
theorem keepsReservations_run (verify : Verifier) (s : Store) (op : Operation) :
    KeepsReservations s (op.run verify s) := by
  cases op with
  | book r => exact keepsReservations_book verify s r
  | postShows r => exact keepsReservations_postShows verify s r
  | deleteShows r => exact keepsReservations_deleteShows verify s r
  | resetDb showDate => exact keepsReservations_resetDb showDate s
  | other => exact keepsReservations_refl s

/-- The identifiers `insertMany` gives out, in order. -/
theorem insertMany_ids (docs : List SeatDoc) (firstId : Nat) :
    (insertMany firstId docs).map (fun seat => seat._id) = List.range' firstId docs.length := by
  induction docs generalizing firstId with
  | nil => rfl
  | cons d ds ih => simp only [insertMany, List.map_cons, List.length_cons, List.range'_succ, ih]

/-- The update leaves the identifiers as they are. -/
theorem reserveSeats_ids (l : List Seat) (ids : List Nat) :
    (reserveSeats l ids).map (fun seat => seat._id) = l.map (fun seat => seat._id) := by
  simp only [reserveSeats, List.map_map]
  apply List.map_congr_left
  intro seat _
  simp only [Function.comp]
  split_ifs <;> rfl

/-- The empty store meets the guarantees on `_id`. -/
theorem seatIdsOk_emptyStore : SeatIdsOk emptyStore :=
  ⟨List.nodup_nil, fun seat hmem => absurd hmem (List.not_mem_nil seat)⟩

/-- Provisioning seats keeps the guarantees on `_id`. -/
theorem seatIdsOk_createSeatsForShow {s : Store} (h : SeatIdsOk s) (showId : Nat) :
    SeatIdsOk (createSeatsForShow s showId) := by
  by_cases hex : ∃ seat ∈ s.seats, seat.show_id = showId
  · rw [createSeatsForShow_of_some s showId hex]
    exact h
  · push_neg at hex
    rw [createSeatsForShow_of_none s showId hex]
    obtain ⟨hnodup, hlt⟩ := h
    constructor
    · simp only [List.map_append, insertMany_ids]
      refine List.Nodup.append hnodup (List.nodup_range' _ _) ?_
      intro id hold hnew
      obtain ⟨seat, hmem, rfl⟩ := List.mem_map.mp hold
      have := hlt seat hmem
      rw [List.mem_range'_1] at hnew
      omega
    · intro seat hmem
      simp only [List.mem_append] at hmem
      rcases hmem with hmem | hmem
      · have := hlt seat hmem
        simp only
        omega
      · have := (insertMany_id_range _ _ seat hmem).2
        rw [seatDocs_length] at this
        exact this

/-- Provisioning the seats of several shows keeps the guarantees on `_id`. -/
theorem seatIdsOk_foldl (shows : List Show) {s : Store} (h : SeatIdsOk s) :
    SeatIdsOk (shows.foldl (fun st sh => CineReserve.createSeatsForShow st sh._id) s) := by
  induction shows generalizing s with
  | nil => exact h
  | cons sh rest ih =>
    simp only [List.foldl_cons]
    exact ih (seatIdsOk_createSeatsForShow h sh._id)

/-- Every operation keeps the guarantees on `_id`. -/
theorem seatIdsOk_run {s : Store} (h : SeatIdsOk s) (verify : Verifier) (op : Operation) :
    SeatIdsOk (op.run verify s) := by
  cases op with
  | book r =>
    rcases book_cases verify s r with ⟨_, hs⟩ | ⟨_, _, _, seats, _, _, _, _, _, _, _, hb⟩
    · simp only [Operation.run, hs]
      exact h
    · simp only [Operation.run, hb, bookedStore]
      refine ⟨by simp only [reserveSeats_ids]; exact h.1, ?_⟩
      intro seat hmem
      obtain ⟨old, hold, hid, _, _⟩ := reserveSeats_id hmem
      have := h.2 old hold
      simp only
      omega
  | postShows r =>
    have hsaved : ∀ sh : Show,
        SeatIdsOk { s with shows := s.shows ++ [sh], nextId := s.nextId + 1 } :=
      fun sh => ⟨h.1, fun seat hmem => Nat.lt_succ_of_lt (h.2 seat hmem)⟩
    simp only [Operation.run]
    unfold CineReserve.postShows
    split
    · exact h
    · split
      · exact h
      · split
        · exact h
        · split
          · exact h
          · split
            · split
              · exact h
              · exact seatIdsOk_createSeatsForShow (hsaved _) _
            · exact h
  | deleteShows r =>
    have hleft : ∀ shows : List Show,
        SeatIdsOk
          { s with seats := s.seats.filter (fun seat => seat.show_id ≠ r.id), shows := shows } :=
      fun shows => ⟨List.Nodup.sublist (List.Sublist.map _ (List.filter_sublist _)) h.1,
        fun seat hmem => h.2 seat (List.mem_of_mem_filter hmem)⟩
    simp only [Operation.run]
    unfold CineReserve.deleteShows
    split
    · exact h
    · split
      · exact h
      · split
        · exact h
        · split
          · exact h
          · split
            · exact hleft _
            · exact hleft _
  | resetDb showDate =>
    simp only [Operation.run, resetDb, seedDatabase]
    apply seatIdsOk_foldl
    exact ⟨List.nodup_nil, fun seat hmem => absurd hmem (List.not_mem_nil seat)⟩
  | other => exact h

/-- A sequence of operations keeps the reservations and the guarantees on `_id`. -/
theorem keepsReservations_runAll (verify : Verifier) (ops : List Operation) (s : Store)
    (h : SeatIdsOk s) :
    KeepsReservations s (runAll verify s ops) ∧ SeatIdsOk (runAll verify s ops) := by
  induction ops generalizing s with
  | nil => exact ⟨keepsReservations_refl s, h⟩
  | cons op rest ih =>
    obtain ⟨hk, hi⟩ := ih (op.run verify s) (seatIdsOk_run h verify op)
    exact ⟨keepsReservations_trans (keepsReservations_run verify s op) hk, hi⟩

/-- Between two stores of which the second keeps the reservations of the first,
a seat present in both that was reserved is reserved. -/
theorem keepsReservations_reserved {s s' : Store} (hk : KeepsReservations s s')
    (hids : SeatIdsOk s) {seat seat' : Seat} (hbefore : seat ∈ s.seats)
    (hafter : seat' ∈ s'.seats) (hsame : seat'._id = seat._id)
    (hres : seat.is_reserved = true) : seat'.is_reserved = true := by
  rcases hk.2 seat' hafter with hge | ⟨old, hold, hid, himp⟩
  · have := hids.2 seat hbefore
    omega
  · have heq : old = seat := seat_eq_of_id_eq hids.1 hold hbefore (hid.trans hsame)
    exact himp (heq ▸ hres)

/-- The three steps of a handler, run with no other handler in between, are the
handler `book`. -/
theorem bookStep_thrice (verify : Verifier) (s : Store) (r : BookRequest) :
    bookStep verify (bookStep verify (bookStep verify s (.start r)).2
        (bookStep verify s (.start r)).1).2
      (bookStep verify (bookStep verify s (.start r)).2 (bookStep verify s (.start r)).1).1 =
      (.done (book verify s r).1, (book verify s r).2) := by
  rcases r with ⟨tok, sh, sts, extra⟩
  cases tok with
  | none => rfl
  | some token =>
    by_cases hne : token = ""
    · simp [bookStep, book, hne]
    · cases hver : verify token with
      | error msg => simp [bookStep, book, hne, hver]
      | ok decoded =>
        cases sh with
        | none => simp [bookStep, book, hne, hver]
        | some show_id =>
          cases sts with
          | none => simp [bookStep, book, hne, hver]
          | some seats =>
            by_cases hlen : seats = []
            · simp [bookStep, book, hne, hver, hlen]
            · by_cases hres :
                  ((findSeatsByIds s.seats seats).filter (fun seat => seat.is_reserved)).length > 0
              · simp [bookStep, book, hne, hver, hlen, hres]
              · simp [bookStep, book, hne, hver, hlen, hres]

/-- The schedule that lets the first handler finish before the second starts
gives what handling the two requests one after the other gives. -/
theorem interleave_serial (verify : Verifier) (s : Store) (r₁ r₂ : BookRequest) :
    interleave verify [false, false, false, true, true, true] (s, .start r₁, .start r₂) =
      ((book verify (book verify s r₁).2 r₂).2, .done (book verify s r₁).1,
        .done (book verify (book verify s r₁).2 r₂).1) := by
  simp only [interleave]
  rw [bookStep_thrice verify s r₁]
  simp only
  rw [bookStep_thrice verify (book verify s r₁).2 r₂]

/-- Once a stored seat is reserved, every request naming it, handled one after
the other, gets the conflict answer. -/
theorem bookAll_of_reserved (verify : Verifier) (x : Nat) (rs : List BookRequest) (s : Store)
    (hx : ∃ seat ∈ s.seats, seat._id = x ∧ seat.is_reserved = true)
    (hreqs : ∀ r ∈ rs, NamesSeat verify r x) :
    ∀ resp ∈ (bookAll verify s rs).1, resp = conflictResponse := by
  induction rs with
  | nil => intro resp hmem; exact absurd hmem (List.not_mem_nil _)
  | cons r rs ih =>
    obtain ⟨token, decoded, show_id, seats, htok, hne, hver, hshow, hseats, hxin⟩ :=
      hreqs r (List.mem_cons_self r rs)
    obtain ⟨seat, hmem, hid, hres⟩ := hx
    have hb := book_of_conflict verify s r token decoded show_id seats htok hne hver hshow hseats
      (List.ne_nil_of_mem hxin) ⟨seat, hmem, hid ▸ hxin, hres⟩
    intro resp hresp
    simp only [bookAll, hb, List.mem_cons] at hresp
    rcases hresp with rfl | hresp
    · rfl
    · exact ih (fun r' hr' => hreqs r' (List.mem_cons_of_mem r hr')) resp hresp

/-- A `DELETE /shows/:id` answered 200 removed the seats of the show and the show. -/
theorem deleteShows_of_status_200 (verify : Verifier) (s : Store) (r : DeleteShowRequest)
    (hok : (deleteShows verify s r).1.status = 200) :
    (deleteShows verify s r).2 =
      { s with seats := s.seats.filter (fun seat => seat.show_id ≠ r.id),
               shows := s.shows.eraseP (fun sh => sh._id = r.id) } := by
  rcases r with ⟨tok, id⟩
  cases tok with
  | none => simp [deleteShows] at hok
  | some token =>
    by_cases hne : token = ""
    · simp [deleteShows, hne] at hok
    · cases hver : verify token with
      | error msg => simp [deleteShows, hne, hver] at hok
      | ok decoded =>
        by_cases hrole : decoded.role = "admin"
        · cases hfind : s.shows.find? (fun sh => sh._id = id) with
          | none => simp [deleteShows, hne, hver, hrole, hfind] at hok
          | some found => simp [deleteShows, hne, hver, hrole, hfind]
        · simp [deleteShows, hne, hver, hrole] at hok

/-- A seat of the store after `createSeatsForShow` was there before or is an
object of the loops. -/
theorem mem_createSeatsForShow (s : Store) (showId : Nat) (seat : Seat)
    (hmem : seat ∈ (createSeatsForShow s showId).seats) :
    seat ∈ s.seats ∨ seat.view ∈ (seatDocs 0).map SeatDoc.view := by
  by_cases h : ∃ seat ∈ s.seats, seat.show_id = showId
  · rw [createSeatsForShow_of_some s showId h] at hmem
    exact Or.inl hmem
  · push_neg at h
    rw [createSeatsForShow_of_none s showId h] at hmem
    simp only [List.mem_append] at hmem
    rcases hmem with hmem | hmem
    · exact Or.inl hmem
    · right
      rw [← seatDocs_view showId, ← insertMany_view (seatDocs showId) s.nextId]
      exact List.mem_map_of_mem Seat.view hmem

/-- A seat of the store after `POST /shows` was there before or is an object of
the loops. -/
theorem mem_postShows (verify : Verifier) (s : Store) (r : ShowRequest) (seat : Seat)
    (hmem : seat ∈ (postShows verify s r).2.seats) :
    seat ∈ s.seats ∨ seat.view ∈ (seatDocs 0).map SeatDoc.view := by
  unfold postShows at hmem
  split at hmem
  · exact Or.inl hmem
  · split at hmem
    · exact Or.inl hmem
    · split at hmem
      · exact Or.inl hmem
      · split at hmem
        · exact Or.inl hmem
        · split at hmem
          · split at hmem
            · exact Or.inl hmem
            · rcases mem_createSeatsForShow
                { s with shows := s.shows ++ [_], nextId := s.nextId + 1 } _ seat hmem with h | h
              · exact Or.inl h
              · exact Or.inr h
          · exact Or.inl hmem

/-- A seat of the store after `DELETE /shows/:id` was there before. -/
theorem mem_deleteShows (verify : Verifier) (s : Store) (r : DeleteShowRequest) (seat : Seat)
    (hmem : seat ∈ (deleteShows verify s r).2.seats) : seat ∈ s.seats := by
  unfold deleteShows at hmem
  split at hmem
  · exact hmem
  · split at hmem
    · exact hmem
    · split at hmem
      · exact hmem
      · split at hmem
        · exact hmem
        · split at hmem
          · exact List.mem_of_mem_filter hmem
          · exact List.mem_of_mem_filter hmem

/-- A seat of the store after `POST /book` is a seat that was there before, its
flag apart. -/
theorem mem_book (verify : Verifier) (s : Store) (r : BookRequest) (seat : Seat)
    (hmem : seat ∈ (book verify s r).2.seats) :
    ∃ old ∈ s.seats, seat.priority = old.priority ∧ seat.price = old.price ∧
      seat._id = old._id ∧ seat.show_id = old.show_id := by
  rcases book_cases verify s r with ⟨_, hs⟩ | ⟨_, _, _, seats, _, _, _, _, _, _, _, hb⟩
  · rw [hs] at hmem
    exact ⟨seat, hmem, rfl, rfl, rfl, rfl⟩
  · rw [hb] at hmem
    obtain ⟨old, hold, heq⟩ := (mem_reserveSeats s.seats seats seat).mp hmem
    refine ⟨old, hold, ?_⟩
    rw [heq]
    split_ifs <;> exact ⟨rfl, rfl, rfl, rfl⟩

/-- A toggle never takes the selection beyond 8 seats. -/
theorem toggleSeatSelection_length_le (selected : List SelectedSeat) (seat : SeatView)
    (h : selected.length ≤ 8) : (toggleSeatSelection selected seat).length ≤ 8 := by
  unfold toggleSeatSelection
  split
  · exact Nat.le_trans (List.length_eraseIdx_le _ _) h
  · split
    · exact h
    · rename_i hlt
      simp only [List.length_append, List.length_singleton]
      omega

/-- Toggles from a selection of at most 8 seats leave at most 8 seats. -/
theorem foldl_toggleSeatSelection_length_le (clicks : List SeatView)
    (selected : List SelectedSeat) (h : selected.length ≤ 8) :
    (clicks.foldl toggleSeatSelection selected).length ≤ 8 := by
  induction clicks generalizing selected with
  | nil => exact h
  | cons c rest ih => exact ih _ (toggleSeatSelection_length_le selected c h)

/-- A seat of the map that reacts to a click shows a stored, available seat of
the show at the price the server computes. -/
theorem mem_clickableSeats (s : Store) (showId : Nat) (c : SeatView)
    (hc : c ∈ clickableSeats s showId) :
    ∃ seat ∈ s.seats, seat._id = c._id ∧ seatPrice seat = c.price ∧
      seat.is_reserved = false ∧ seat.show_id = showId := by
  simp only [clickableSeats, seatsWithPrice, List.mem_filter, List.mem_map,
    decide_eq_true_eq] at hc
  obtain ⟨⟨seat, ⟨hmem, hshow⟩, rfl⟩, hres⟩ := hc
  exact ⟨seat, hmem, rfl, rfl, by simpa using hres, hshow⟩

/-- A toggle on a clickable seat keeps the selection a selection of the store. -/
theorem selectionOf_toggle (s : Store) (showId : Nat) (selected : List SelectedSeat)
    (c : SeatView) (h : SelectionOf s showId selected) (hc : c ∈ clickableSeats s showId) :
    SelectionOf s showId (toggleSeatSelection selected c) := by
  obtain ⟨hnodup, hall⟩ := h
  unfold toggleSeatSelection
  split
  · rename_i index _
    have hsub := List.eraseIdx_sublist selected index
    exact ⟨List.Nodup.sublist (hsub.map _) hnodup, fun e he => hall e (hsub.subset he)⟩
  · rename_i hnone
    split
    · exact ⟨hnodup, hall⟩
    · rw [List.findIdx?_eq_none_iff] at hnone
      constructor
      · rw [List.map_append, List.map_singleton]
        refine List.Nodup.append hnodup (List.nodup_singleton _) ?_
        intro id hold hnew
        rw [List.mem_singleton] at hnew
        obtain ⟨e, he, rfl⟩ := List.mem_map.mp hold
        have := hnone e he
        simp only [beq_eq_false_iff_ne, ne_eq] at this
        exact this hnew
      · intro e he
        rcases List.mem_append.mp he with he | he
        · exact hall e he
        · rw [List.mem_singleton] at he
          subst he
          exact mem_clickableSeats s showId c hc

/-- The selection built by clicks on clickable seats is a selection of the store. -/
theorem selectionOf_foldl (s : Store) (showId : Nat) (clicks : List SeatView)
    (selected : List SelectedSeat) (h : SelectionOf s showId selected)
    (hclicks : ∀ c ∈ clicks, c ∈ clickableSeats s showId) :
    SelectionOf s showId (clicks.foldl toggleSeatSelection selected) := by
  induction clicks generalizing selected with
  | nil => exact h
  | cons c rest ih =>
    exact ih _ (selectionOf_toggle s showId selected c h (hclicks c (List.mem_cons_self c rest)))
      (fun c' hc' => hclicks c' (List.mem_cons_of_mem c hc'))

/-- The client's `reduce` is the sum of the selected prices. -/
theorem totalPrice_eq_sum (selected : List SelectedSeat) :
    totalPrice selected = (selected.map (fun e => e.price)).sum := by
  have key : ∀ (l : List SelectedSeat) (init : Int),
      l.foldl (fun sum seat => sum + seat.price) init = init + (l.map (fun e => e.price)).sum := by
    intro l
    induction l with
    | nil => intro init; simp
    | cons a l ih => intro init; simp [List.foldl_cons, ih, add_assoc]
  rw [totalPrice, key, zero_add]

/-- With distinct stored ids, the price found by id is the price of the seat. -/
theorem priceOfId_of_mem (s : Store) (hnodup : (s.seats.map (fun seat => seat._id)).Nodup)
    (seat : Seat) (hmem : seat ∈ s.seats) : priceOfId s seat._id = seatPrice seat := by
  unfold priceOfId
  cases hfind : s.seats.find? (fun x => decide (x._id = seat._id)) with
  | none =>
    rw [List.find?_eq_none] at hfind
    exact absurd (by simp) (hfind seat hmem)
  | some found =>
    have hid : found._id = seat._id := by simpa using List.find?_some hfind
    have heq : found = seat :=
      seat_eq_of_id_eq hnodup (List.mem_of_find?_eq_some hfind) hmem hid
    simp [heq]

/-- With distinct stored ids and distinct requested ids that all name stored
seats, the ids of the seats found are the requested ids in some order. -/
theorem findSeatsByIds_ids_perm (l : List Seat) (ids : List Nat)
    (hids : ids.Nodup) (hstore : (l.map (fun seat => seat._id)).Nodup)
    (hall : ∀ id ∈ ids, id ∈ l.map (fun seat => seat._id)) :
    List.Perm ((findSeatsByIds l ids).map (fun seat => seat._id)) ids := by
  have hmap : ((findSeatsByIds l ids).map (fun seat => seat._id)) =
      (l.map (fun seat => seat._id)).filter (fun id => decide (id ∈ ids)) := by
    rw [findSeatsByIds, List.filter_map]
    rfl
  rw [hmap, List.perm_ext_iff_of_nodup (hstore.filter _) hids]
  intro id
  simp only [List.mem_filter, decide_eq_true_eq]
  exact ⟨fun h => h.2, fun h => ⟨hall id h, h⟩⟩

/-- For a selection of the store, the sum the server computes over the seats it
finds is the total the client shows. -/
theorem server_total_eq_totalPrice (s : Store) (showId : Nat) (selected : List SelectedSeat)
    (hnodup : (s.seats.map (fun seat => seat._id)).Nodup) (h : SelectionOf s showId selected) :
    (findSeatsByIds s.seats (selected.map (fun e => e.seatId))).foldl
        (fun sum seat => sum + seatPrice seat) 0 = totalPrice selected := by
  obtain ⟨hsel, hall⟩ := h
  have hstored : ∀ id ∈ selected.map (fun e => e.seatId),
      id ∈ s.seats.map (fun seat => seat._id) := by
    intro id hid
    obtain ⟨e, he, rfl⟩ := List.mem_map.mp hid
    obtain ⟨seat, hmem, hseat, _⟩ := hall e he
    exact List.mem_map.mpr ⟨seat, hmem, hseat⟩
  have hperm := findSeatsByIds_ids_perm s.seats _ hsel hnodup hstored
  have hfound : (findSeatsByIds s.seats (selected.map (fun e => e.seatId))).map seatPrice =
      ((findSeatsByIds s.seats (selected.map (fun e => e.seatId))).map
        (fun seat => seat._id)).map (priceOfId s) := by
    rw [List.map_map]
    apply List.map_congr_left
    intro seat hmem
    have hin : seat ∈ s.seats := List.mem_of_mem_filter hmem
    exact (priceOfId_of_mem s hnodup seat hin).symm
  have hselected : selected.map (fun e => e.price) =
      (selected.map (fun e => e.seatId)).map (priceOfId s) := by
    rw [List.map_map]
    apply List.map_congr_left
    intro e he
    obtain ⟨seat, hmem, hseat, hprice, _⟩ := hall e he
    simp only [Function.comp]
    rw [← hseat, priceOfId_of_mem s hnodup seat hmem, hprice]
  rw [foldl_seatPrice, zero_add, totalPrice_eq_sum, hfound, hselected]
  exact (hperm.map (priceOfId s)).sum_eq

/-- For a selection of the store, no stored seat the request names is reserved. -/
theorem selection_free (s : Store) (showId : Nat) (selected : List SelectedSeat)
    (hnodup : (s.seats.map (fun seat => seat._id)).Nodup) (h : SelectionOf s showId selected) :
    ∀ seat ∈ s.seats, seat._id ∈ selected.map (fun e => e.seatId) →
      seat.is_reserved = false := by
  intro seat hmem hid
  obtain ⟨e, he, heq⟩ := List.mem_map.mp hid
  obtain ⟨seat', hmem', hseat', _, hfree, _⟩ := h.2 e he
  have : seat' = seat := seat_eq_of_id_eq hnodup hmem' hmem (hseat'.trans heq)
  rw [← this]
  exact hfree

/-- A `POST /book` without a token is answered 401; one whose token does not
verify is answered 500 with the message of the error `jwt.verify` throws. The
store is left as it was in both cases. -/
theorem book_of_bad_token (verify : Verifier) (s : Store) (r : BookRequest) :
    (r.token = none ∨ r.token = some "" →
        book verify s r = (⟨401, .error "Unauthorized"⟩, s)) ∧
      (∀ token msg, r.token = some token → token ≠ "" → verify token = .error msg →
        book verify s r = (⟨500, .error msg⟩, s)) := by
  rcases r with ⟨tok, sh, sts, extra⟩
  constructor
  · intro htok
    simp only at htok
    rcases htok with h | h <;> subst h <;> simp [book]
  · intro token msg htok hne hver
    simp only at htok
    subst htok
    simp [book, hne, hver]

/-- The answer to `GET /bookings/<id>` with a token that verifies
for a user other than the one of the path is answered 200 by the first handler
registered for the path, which never compares the two ids; the handler that
answers 403 "Access denied" in that case is registered second and is not
reached. -/
theorem getBookings_of_other_user (verify : Verifier) (db : Database)
    (r : BookingsRequest) (token : String) (decoded : Decoded)
    (htok : r.token = some token) (hne : token ≠ "") (hver : verify token = .ok decoded)
    (hother : decoded.userId ≠ r.userId) :
    (getBookings verify db r).status = 200 ∧
      getBookings verify db r = getBookingsWithDetails verify db r ∧
      getMyBookings verify db r = ⟨403, .error "Access denied"⟩ := by
  refine ⟨?_, rfl, ?_⟩
  · simp [getBookings, bookingsHandlers, getBookingsWithDetails, htok, hne, hver]
  · simp [getMyBookings, htok, hne, hver, hother]

/-- Well-formed ids are cast to themselves. -/
theorem castIds_map_oid (ids : List Nat) : castIds (ids.map IdValue.oid) = .ok ids := by
  induction ids with
  | nil => rfl
  | cons id rest ih => simp only [List.map_cons, castIds, ih]

/-- A list of values that is cast holds well-formed ids only. -/
theorem eq_map_oid_of_castIds (vals : List IdValue) (ids : List Nat)
    (h : castIds vals = .ok ids) : vals = ids.map IdValue.oid := by
  induction vals generalizing ids with
  | nil =>
    simp only [castIds, Except.ok.injEq] at h
    rw [← h]
    rfl
  | cons v rest ih =>
    cases v with
    | oid id =>
      simp only [castIds] at h
      cases hrest : castIds rest with
      | error value => rw [hrest] at h; simp at h
      | ok ids' =>
        rw [hrest] at h
        simp only [Except.ok.injEq] at h
        rw [← h, List.map_cons, ← ih ids' hrest]
    | malformed text => simp [castIds] at h

/-- The whole route on a request whose ids are well-formed is `book`. -/
theorem bookRoute_raw (verify : Verifier) (messages : DriverMessages) (s : Store)
    (r : BookRequest) : bookRoute verify messages s r.raw = book verify s r := by
  rcases r with ⟨tok, sh, sts, extra⟩
  cases tok with
  | none => rfl
  | some token =>
    by_cases hne : token = ""
    · simp [bookRoute, book, BookRequest.raw, hne]
    · cases hver : verify token with
      | error msg => simp [bookRoute, book, BookRequest.raw, hne, hver]
      | ok decoded =>
        cases sh with
        | none => simp [bookRoute, book, BookRequest.raw, hne, hver]
        | some show_id =>
          cases sts with
          | none => simp [bookRoute, book, BookRequest.raw, hne, hver]
          | some seats =>
            by_cases hlen : seats = []
            · simp [bookRoute, book, BookRequest.raw, hne, hver, hlen]
            · by_cases hres :
                  ((findSeatsByIds s.seats seats).filter (fun seat => seat.is_reserved)).length > 0
              · simp [bookRoute, book, BookRequest.raw, hne, hver, hlen, hres, castIds_map_oid]
              · simp [bookRoute, book, BookRequest.raw, hne, hver, hlen, hres, castIds_map_oid]

/-- The whole route on a request with a well-formed show_id and well-formed
seat ids is `book` on these ids. -/
theorem bookRoute_of_wellFormed (verify : Verifier) (messages : DriverMessages) (s : Store)
    (r : RawBookRequest) (show_id : Nat) (ids : List Nat)
    (hshow : r.show_id = some (.oid show_id)) (hseats : r.seats = some (ids.map IdValue.oid)) :
    bookRoute verify messages s r =
      book verify s { token := r.token, show_id := some show_id, seats := some ids,
                      extra := r.extra } := by
  rw [← bookRoute_raw verify messages s]
  rcases r with ⟨tok, sh, sts, extra⟩
  simp only at hshow hseats
  subst hshow hseats
  rfl

/-- Every run of the whole route either answers something other than 200 and
leaves the store as it was, or is a run on well-formed ids answered 200. -/
theorem bookRoute_cases (verify : Verifier) (messages : DriverMessages) (s : Store)
    (r : RawBookRequest) :
    ((bookRoute verify messages s r).1.status ≠ 200 ∧ (bookRoute verify messages s r).2 = s) ∨
    (∃ (show_id : Nat) (ids : List Nat),
      r.show_id = some (.oid show_id) ∧ r.seats = some (ids.map IdValue.oid) ∧
      (bookRoute verify messages s r).1.status = 200) := by
  rcases r with ⟨tok, sh, sts, extra⟩
  cases tok with
  | none => left; simp [bookRoute]
  | some token =>
    by_cases hne : token = ""
    · left; simp [bookRoute, hne]
    · cases hver : verify token with
      | error msg => left; simp [bookRoute, hne, hver]
      | ok decoded =>
        cases sh with
        | none => left; simp [bookRoute, hne, hver]
        | some show_id =>
          cases sts with
          | none => left; simp [bookRoute, hne, hver]
          | some seats =>
            by_cases hmiss : show_id = .malformed "" ∨ seats = []
            · left; simp [bookRoute, hne, hver, hmiss]
            · cases hcast : castIds seats with
              | error value => left; simp [bookRoute, hne, hver, hmiss, hcast]
              | ok ids =>
                by_cases hres :
                    ((findSeatsByIds s.seats ids).filter (fun seat => seat.is_reserved)).length > 0
                · left; simp [bookRoute, hne, hver, hmiss, hcast, hres]
                · cases show_id with
                  | malformed value =>
                    left
                    have h1 : ¬(value = "" ∨ seats = []) := by
                      intro h
                      rcases h with h | h
                      · exact hmiss (Or.inl (by rw [h]))
                      · exact hmiss (Or.inr h)
                    simp [bookRoute, hne, hver, hcast, hres, h1]
                  | oid showId =>
                    right
                    have h1 : ¬seats = [] := fun h => hmiss (Or.inr h)
                    refine ⟨showId, ids, rfl, ?_, ?_⟩
                    · simp only [eq_map_oid_of_castIds seats ids hcast]
                    · simp [bookRoute, hne, hver, hcast, hres, h1]

/-- On the whole route too, an answer other than 200 leaves the store as it was. -/
theorem bookRoute_store_of_ne_200 (verify : Verifier) (messages : DriverMessages) (s : Store)
    (r : RawBookRequest) (h : (bookRoute verify messages s r).1.status ≠ 200) :
    (bookRoute verify messages s r).2 = s := by
  rcases bookRoute_cases verify messages s r with ⟨_, hs⟩ | ⟨_, _, _, _, hok⟩
  · exact hs
  · exact absurd hok h

/-- A run of the whole route answered 200 is a run of `book` on well-formed ids. -/
theorem bookRoute_of_status_200 (verify : Verifier) (messages : DriverMessages) (s : Store)
    (r : RawBookRequest) (h : (bookRoute verify messages s r).1.status = 200) :
    ∃ (show_id : Nat) (ids : List Nat),
      r.show_id = some (.oid show_id) ∧ r.seats = some (ids.map IdValue.oid) ∧
      bookRoute verify messages s r =
        book verify s { token := r.token, show_id := some show_id, seats := some ids,
                        extra := r.extra } := by
  rcases bookRoute_cases verify messages s r with ⟨hne, _⟩ | ⟨show_id, ids, hshow, hseats, _⟩
  · exact absurd h hne
  · exact ⟨show_id, ids, hshow, hseats,
      bookRoute_of_wellFormed verify messages s r show_id ids hshow hseats⟩

/-- A seat value that cannot be cast makes the whole route fail with the store
left as it was. -/
theorem bookRoute_of_malformed_seat (verify : Verifier) (messages : DriverMessages) (s : Store)
    (r : RawBookRequest) (vals : List IdValue) (text : String)
    (hseats : r.seats = some vals) (hbad : IdValue.malformed text ∈ vals) :
    (bookRoute verify messages s r).1.status ≠ 200 ∧ (bookRoute verify messages s r).2 = s := by
  rcases bookRoute_cases verify messages s r with h | ⟨_, ids, _, hs, _⟩
  · exact h
  · rw [hseats] at hs
    rw [Option.some.inj hs] at hbad
    obtain ⟨id, _, hid⟩ := List.mem_map.mp hbad
    exact IdValue.noConfusion hid

/-- A show value that cannot be cast makes the whole route fail with the store
left as it was. -/
theorem bookRoute_of_malformed_show (verify : Verifier) (messages : DriverMessages) (s : Store)
    (r : RawBookRequest) (text : String) (hshow : r.show_id = some (.malformed text)) :
    (bookRoute verify messages s r).1.status ≠ 200 ∧ (bookRoute verify messages s r).2 = s := by
  rcases bookRoute_cases verify messages s r with h | ⟨_, _, hs, _, _⟩
  · exact h
  · rw [hshow] at hs
    exact IdValue.noConfusion (Option.some.inj hs)

/-- For every successful `POST /book` on well-formed ids, the total_price returned
and the total_price stored in the new booking both equal the sum, over the
seats the call actually reserved, of each seat's stored price when that is
present and non-zero and of its tier price otherwise; that sum is the sum of
the tier prices whenever the stored price of each of those seats is its tier
price. -/
theorem total_is_sum_of_seatPrice (verify : Verifier) (s : Store) (r : BookRequest)
    (hok : (book verify s r).1.status = 200) :
    (∃ msg id n, (book verify s r).1.body = .booked msg id
        ((reservedBy s.seats (book verify s r).2.seats).map seatPrice).sum n) ∧
      (∃ b, (book verify s r).2.bookings = s.bookings ++ [b] ∧
        b.total_price = ((reservedBy s.seats (book verify s r).2.seats).map seatPrice).sum) ∧
      ((∀ seat ∈ reservedBy s.seats (book verify s r).2.seats,
          seat.price = some (getPriceByPriority seat.priority)) →
        ((reservedBy s.seats (book verify s r).2.seats).map seatPrice).sum =
          ((reservedBy s.seats (book verify s r).2.seats).map
            (fun seat => getPriceByPriority seat.priority)).sum) := by
  obtain ⟨token, decoded, show_id, seats, _, _, _, _, _, _, hnil, hb⟩ :=
    book_of_status_200 verify s r hok
  have hfree := free_of_filter_nil s.seats seats hnil
  have hsum : ((reservedBy s.seats (reserveSeats s.seats seats)).map seatPrice).sum =
      (findSeatsByIds s.seats seats).foldl (fun sum seat => sum + seatPrice seat) 0 := by
    rw [reservedBy_reserveSeats s.seats seats hfree, foldl_seatPrice, List.map_map, zero_add]
    rfl
  rw [hb]
  simp only [bookedStore, bookedResponse, hsum]
  refine ⟨⟨_, _, _, rfl⟩, ⟨_, rfl, rfl⟩, ?_⟩
  intro hprice
  rw [← hsum]
  congr 1
  apply List.map_congr_left
  intro seat hmem
  have hp := hprice seat hmem
  simp only [seatPrice, hp]
  split_ifs <;> rfl

/-- After every successful `POST /book` on well-formed ids, every stored seat named in the
request's seat list is reserved, and every named seat that was in the store
before the call is still there and reserved. -/
theorem book_named_seats_reserved (verify : Verifier) (s : Store) (r : BookRequest)
    (ids : List Nat) (hseats : r.seats = some ids)
    (hok : (book verify s r).1.status = 200) :
    (∀ seat ∈ (book verify s r).2.seats, seat._id ∈ ids → seat.is_reserved = true) ∧
      (∀ id ∈ ids, (∃ seat ∈ s.seats, seat._id = id) →
        ∃ seat ∈ (book verify s r).2.seats, seat._id = id ∧ seat.is_reserved = true) := by
  obtain ⟨token, decoded, show_id, seats, _, _, _, _, hs, _, _, hb⟩ :=
    book_of_status_200 verify s r hok
  have hids : seats = ids := Option.some.inj (hs.symm.trans hseats)
  subst hids
  rw [hb]
  simp only [bookedStore]
  constructor
  · intro seat hmem hid
    obtain ⟨old, _, heq⟩ := (mem_reserveSeats s.seats seats seat).mp hmem
    by_cases hold : old._id ∈ seats
    · rw [if_pos hold] at heq
      rw [heq]
    · rw [if_neg hold] at heq
      rw [heq] at hid
      exact absurd hid hold
  · rintro id hid ⟨old, hold, rfl⟩
    refine ⟨{ old with is_reserved := true }, ?_, rfl, rfl⟩
    exact (mem_reserveSeats s.seats seats _).mpr ⟨old, hold, by rw [if_pos hid]⟩

/-- Reading a stored seat after the update is updating the seat read. -/
theorem hydrate_reserve (d : StoredSeat) :
    hydrate d.reserve = { hydrate d with is_reserved := true } := rfl

/-- The tier price of the specification is the price of the priority. -/
theorem tierPrice_eq (seat : Seat) : tierPrice seat = getPriceByPriority seat.priority := by
  unfold tierPrice seatCategory getPriceByPriority
  by_cases h3 : seat.priority = 3
  · simp [h3]
  · by_cases h2 : seat.priority = 2
    · simp [h2]
    · by_cases h1 : seat.priority = 1
      · simp [h1]
      · simp [h1, h2, h3]

/-- The seats a call reserved are seats of the store after the call. -/
theorem mem_of_mem_reservedBy {before after : List Seat} {seat : Seat}
    (h : seat ∈ reservedBy before after) : seat ∈ after := by
  simp only [reservedBy, List.mem_map, List.mem_filter] at h
  obtain ⟨p, ⟨hp, _⟩, rfl⟩ := h
  exact (List.of_mem_zip hp).2

/-- In every reachable store each seat has a priority among 1, 2, 3 and the
price of its priority. -/
theorem seatsPriced_of_reachable (verify : Verifier) (s : Store)
    (h : Reachable verify s) : SeatsPriced s := by
  have hlayout : ∀ v ∈ (seatDocs 0).map SeatDoc.view,
      (v.2.2.2.1 = 1 ∨ v.2.2.2.1 = 2 ∨ v.2.2.2.1 = 3) ∧
        v.2.2.2.2 = some (getPriceByPriority v.2.2.2.1) := by decide
  induction h with
  | init => intro seat hmem; exact absurd hmem (List.not_mem_nil _)
  | addShow r _ ih =>
    intro seat hmem
    rcases mem_postShows verify _ r seat hmem with hold | hnew
    · exact ih seat hold
    · exact hlayout seat.view hnew
  | book r _ _ ih =>
    intro seat hmem
    obtain ⟨old, hold, hp, hpr, _, _⟩ := mem_book verify _ r seat hmem
    rw [hp, hpr]
    exact ih old hold
  | deleteShow r _ ih =>
    intro seat hmem
    exact ih seat (mem_deleteShows verify _ r seat hmem)

/-- A request on the whole route naming, by well-formed ids, a stored seat that
is reserved is answered 400 with the fixed message, whatever its show value,
and the store stays as it was. -/
theorem bookRoute_of_conflict (verify : Verifier) (messages : DriverMessages) (s : Store)
    (r : RawBookRequest) (token : String) (decoded : Decoded) (showValue : IdValue)
    (ids : List Nat)
    (htok : r.token = some token) (hne : token ≠ "") (hver : verify token = .ok decoded)
    (hshow : r.show_id = some showValue) (hshowne : showValue ≠ .malformed "")
    (hseats : r.seats = some (ids.map IdValue.oid)) (hlen : ids ≠ [])
    (hres : ∃ seat ∈ s.seats, seat._id ∈ ids ∧ seat.is_reserved = true) :
    bookRoute verify messages s r = (⟨400, .error "Some seats are already reserved"⟩, s) := by
  have hpos := (alreadyReserved_pos_iff s.seats ids).mpr hres
  have hmiss : ¬(showValue = .malformed "" ∨ ids = []) := by
    intro h
    rcases h with h | h
    · exact hshowne h
    · exact hlen h
  rcases r with ⟨tok, sh, sts, extra⟩
  simp only at htok hshow hseats
  subst htok hshow hseats
  simp [bookRoute, hne, hver, hmiss, castIds_map_oid, hpos]

/-- The typed handler does not read the shows. -/
theorem book_with_shows (verify : Verifier) (s : Store) (r : BookRequest) (shows : List Show) :
    book verify { s with shows := shows } r =
      ((book verify s r).1, { (book verify s r).2 with shows := shows }) := by
  rcases r with ⟨tok, sh, sts, extra⟩
  cases tok with
  | none => rfl
  | some token =>
    by_cases hne : token = ""
    · simp [book, hne]
    · cases hver : verify token with
      | error msg => simp [book, hne, hver]
      | ok decoded =>
        cases sh with
        | none => simp [book, hne, hver]
        | some show_id =>
          cases sts with
          | none => simp [book, hne, hver]
          | some seats =>
            by_cases hlen : seats = []
            · simp [book, hne, hver, hlen]
            · rw [book_of_checked verify s ⟨some token, some show_id, some seats, extra⟩
                  token decoded show_id seats rfl hne hver rfl rfl hlen,
                book_of_checked verify { s with shows := shows }
                  ⟨some token, some show_id, some seats, extra⟩
                  token decoded show_id seats rfl hne hver rfl rfl hlen]
              split_ifs <;> rfl

/-- The whole route does not read the shows. -/
theorem bookRoute_with_shows (verify : Verifier) (messages : DriverMessages) (s : Store)
    (r : RawBookRequest) (shows : List Show) :
    bookRoute verify messages { s with shows := shows } r =
      ((bookRoute verify messages s r).1,
       { (bookRoute verify messages s r).2 with shows := shows }) := by
  rcases r with ⟨tok, sh, sts, extra⟩
  cases tok with
  | none => rfl
  | some token =>
    by_cases hne : token = ""
    · simp [bookRoute, hne]
    · cases hver : verify token with
      | error msg => simp [bookRoute, hne, hver]
      | ok decoded =>
        cases sh with
        | none => simp [bookRoute, hne, hver]
        | some show_id =>
          cases sts with
          | none => simp [bookRoute, hne, hver]
          | some seats =>
            by_cases hmiss : show_id = .malformed "" ∨ seats = []
            · simp [bookRoute, hne, hver, hmiss]
            · cases hcast : castIds seats with
              | error value => simp [bookRoute, hne, hver, hmiss, hcast]
              | ok ids =>
                by_cases hres :
                    ((findSeatsByIds s.seats ids).filter (fun seat => seat.is_reserved)).length > 0
                · simp [bookRoute, hne, hver, hmiss, hcast, hres]
                · cases show_id with
                  | malformed value =>
                    have h1 : ¬(value = "" ∨ seats = []) := by
                      intro h
                      rcases h with h | h
                      · exact hmiss (Or.inl (by rw [h]))
                      · exact hmiss (Or.inr h)
                    simp [bookRoute, hne, hver, hcast, hres, h1]
                  | oid showId =>
                    have h1 : ¬seats = [] := fun h => hmiss (Or.inr h)
                    simp [bookRoute, hne, hver, hcast, hres, h1]

/-! ## C1. Atomicity of a failed booking -/

/-- C1: for every store and every `POST /book` request, an answer other than
success (status 200) leaves the list of reserved seats, and indeed the whole
seat collection, identical to what it was before the call. -/
theorem C1_failure_keeps_reserved_seats (verify : Verifier) (s : Store) (r : BookRequest)
    (h : (book verify s r).1.status ≠ 200) :
    reservedSeats (book verify s r).2 = reservedSeats s ∧
      (book verify s r).2.seats = s.seats := by
  rw [book_store_of_ne_200 verify s r h]
  exact ⟨rfl, rfl⟩

/-- C1 at a request whose token is missing, on the one-seat store. -/
theorem C1_failure_keeps_reserved_seats_witness :
    (book demoVerify oneSeatStore
        { token := none, show_id := some 10, seats := some [1], extra := [] }).1.status ≠ 200 ∧
      (reservedSeats (book demoVerify oneSeatStore
          { token := none, show_id := some 10, seats := some [1], extra := [] }).2
          = reservedSeats oneSeatStore ∧
        (book demoVerify oneSeatStore
          { token := none, show_id := some 10, seats := some [1], extra := [] }).2.seats
          = oneSeatStore.seats) :=
  ⟨by decide, C1_failure_keeps_reserved_seats demoVerify oneSeatStore _ (by decide)⟩

/-! ## C2. Exclusivity -/

/-- C2, refuted as stated: the store above is reachable from the empty store,
and it holds two bookings, both listing seat 1. -/
theorem C2_seat_in_two_bookings :
    Reachable demoVerify rebookedStore ∧
      rebookedStore.bookings =
        [{ _id := 81, user_id := 7, show_id := 0, seats := [1], total_price := 400 },
         { _id := 82, user_id := 7, show_id := 0, seats := [1], total_price := 0 }] ∧
      ¬ NoSharedSeat rebookedStore := by
  have hb : rebookedStore.bookings =
      [{ _id := 81, user_id := 7, show_id := 0, seats := [1], total_price := 400 },
       { _id := 82, user_id := 7, show_id := 0, seats := [1], total_price := 0 }] := by
    decide
  refine ⟨?_, hb, ?_⟩
  · exact ReachableWith.book _
      (ReachableWith.deleteShow _
        (ReachableWith.book _ (ReachableWith.addShow showRequest ReachableWith.init) trivial))
      trivial
  · unfold NoSharedSeat
    rw [hb]
    decide

/-- C2, amended: in every state reachable from the empty store by sequentially
executed operations (show creation with seat provisioning, `POST /book`, show
deletion) in which every `POST /book` names only seats stored at the time of
the call, no seat identifier appears in the seats list of two different
bookings. -/
theorem C2_no_shared_seat_when_seats_stored (verify : Verifier) (s : Store)
    (h : ReachableWith verify NamesStoredSeats s) : NoSharedSeat s := by
  have hinv : StoreInv s := by
    induction h with
    | init =>
      refine ⟨?_, ?_, List.Pairwise.nil⟩
      · intro seat hmem; exact absurd hmem (List.not_mem_nil _)
      · intro b hb; exact absurd hb (List.not_mem_nil _)
    | addShow r _ ih => exact ih.postShows verify r
    | book r _ hguard ih => exact ih.book verify r hguard
    | deleteShow r _ ih => exact ih.deleteShows verify r
  exact hinv.2.2

/-- C2 amended, at the store reached by creating a show and booking its seats
1, 2 and then 2, 3: the second request is refused and one booking stands. -/
theorem C2_no_shared_seat_when_seats_stored_witness :
    NoSharedSeat
      (book demoVerify
        (book demoVerify (postShows demoVerify emptyStore showRequest).2
          { token := some "user-7", show_id := some 0, seats := some [1, 2], extra := [] }).2
        { token := some "user-7", show_id := some 0, seats := some [2, 3], extra := [] }).2 :=
  C2_no_shared_seat_when_seats_stored demoVerify _
    (ReachableWith.book _
      (ReachableWith.book _ (ReachableWith.addShow showRequest ReachableWith.init)
        (by
          intro ids hids id hid
          have hids2 : ids = [1, 2] := (Option.some.inj hids).symm
          subst hids2
          revert id
          decide))
      (by
        intro ids hids id hid
        have hids2 : ids = [2, 3] := (Option.some.inj hids).symm
        subst hids2
        revert id
        decide))

/-! ## C3. Price of a booking -/

/-- C3: in every store reachable from the empty store by show creation,
`POST /book` and show deletion, for every successful `POST /book` the
total_price returned and the total_price stored in the new booking both equal
the sum, over the seats the call actually reserved, of each seat's tier price
(150 for Standard, 250 for Premium, 400 for VIP). -/
theorem C3_total_is_tier_sum (verify : Verifier) (messages : DriverMessages) (s : Store)
    (r : RawBookRequest) (hreach : Reachable verify s)
    (hok : (bookRoute verify messages s r).1.status = 200) :
    (∃ msg id n, (bookRoute verify messages s r).1.body = .booked msg id
        ((reservedBy s.seats (bookRoute verify messages s r).2.seats).map tierPrice).sum n) ∧
      (∃ b, (bookRoute verify messages s r).2.bookings = s.bookings ++ [b] ∧
        b.total_price =
          ((reservedBy s.seats (bookRoute verify messages s r).2.seats).map tierPrice).sum) := by
  obtain ⟨show_id, ids, _, _, hb⟩ := bookRoute_of_status_200 verify messages s r hok
  rw [hb] at hok ⊢
  have hpriced : SeatsPriced (book verify s
      { token := r.token, show_id := some show_id, seats := some ids, extra := r.extra }).2 :=
    seatsPriced_of_reachable verify _ (ReachableWith.book _ hreach trivial)
  obtain ⟨hresp, hbooking, hsum⟩ := total_is_sum_of_seatPrice verify s _ hok
  have htier : ((reservedBy s.seats (book verify s
      { token := r.token, show_id := some show_id, seats := some ids,
        extra := r.extra }).2.seats).map seatPrice).sum =
      ((reservedBy s.seats (book verify s
        { token := r.token, show_id := some show_id, seats := some ids,
          extra := r.extra }).2.seats).map tierPrice).sum := by
    rw [hsum (fun seat hmem => (hpriced seat (mem_of_mem_reservedBy hmem)).2)]
    congr 1
    apply List.map_congr_left
    intro seat _
    exact (tierPrice_eq seat).symm
  rw [← htier]
  exact ⟨hresp, hbooking⟩

/-- C3 at the booking of seats 1 (VIP) and 21 (Premium) of the freshly
provisioned show: the total is 650. -/
theorem C3_total_is_tier_sum_witness :
    (bookRoute demoVerify demoMessages freshShowStore
        { token := some "user-7", show_id := some (.oid 0), seats := some [.oid 1, .oid 21],
          extra := [] }).1 = ⟨200, .booked "Booking successful" 81 650 2⟩ ∧
      ∃ msg id n, (bookRoute demoVerify demoMessages freshShowStore
          { token := some "user-7", show_id := some (.oid 0), seats := some [.oid 1, .oid 21],
            extra := [] }).1.body = .booked msg id
        ((reservedBy freshShowStore.seats (bookRoute demoVerify demoMessages freshShowStore
          { token := some "user-7", show_id := some (.oid 0), seats := some [.oid 1, .oid 21],
            extra := [] }).2.seats).map tierPrice).sum n :=
  ⟨by decide,
   (C3_total_is_tier_sum demoVerify demoMessages freshShowStore
      { token := some "user-7", show_id := some (.oid 0), seats := some [.oid 1, .oid 21],
        extra := [] }
      (ReachableWith.addShow showRequest ReachableWith.init) (by decide)).1⟩

/-! ## C4. Fields of the body the handler does not read -/

/-- C4: two `POST /book` requests run against the same store with the same
token, show_id and seat list get the same response (so the same total_price)
and leave the same store, whatever other fields their bodies carry. -/
theorem C4_other_body_fields_ignored (verify : Verifier) (s : Store) (r₁ r₂ : BookRequest)
    (htok : r₁.token = r₂.token) (hshow : r₁.show_id = r₂.show_id)
    (hseats : r₁.seats = r₂.seats) :
    book verify s r₁ = book verify s r₂ := by
  rcases r₁ with ⟨t₁, sh₁, st₁, e₁⟩
  rcases r₂ with ⟨t₂, sh₂, st₂, e₂⟩
  simp only at htok hshow hseats
  subst htok hshow hseats
  rfl

/-- C4 at a request that injects a total_price of 1: it is booked at 150 like
the plain request. -/
theorem C4_other_body_fields_ignored_witness :
    tamperedRequest.extra ≠ plainRequest.extra ∧
      book demoVerify oneSeatStore tamperedRequest = book demoVerify oneSeatStore plainRequest :=
  ⟨by decide, C4_other_body_fields_ignored demoVerify oneSeatStore tamperedRequest plainRequest
    rfl rfl rfl⟩

/-! ## C5. Reserved seats are refused -/

/-- C5, refuted as stated: on the partly booked store a request with a valid
token and a show_id whose seat list names seat 2, which is reserved, and the
value "Z9", which is no ObjectId, is answered 500, not 400; the store is left
as it was. -/
theorem C5_reserved_seat_and_bad_id_500 :
    (∃ seat ∈ partlyBookedStore.seats, seat._id = 2 ∧ seat.is_reserved = true) ∧
      bookRoute demoVerify demoMessages partlyBookedStore
        { token := some "user-7", show_id := some (.oid 10),
          seats := some [.oid 2, .malformed "Z9"], extra := [] } =
        (⟨500, .error (demoMessages.castError "Z9")⟩, partlyBookedStore) := by
  decide

/-- C5, amended: for every store and every `POST /book` request with a valid
token, a show_id and a non-empty seat list, if at least one stored seat named in
the list is already reserved, the handler creates no booking and leaves the
store as it was; it answers 400 when every id of the list is a well-formed
ObjectId. -/
theorem C5_reserved_seat_no_booking (verify : Verifier) (messages : DriverMessages)
    (s : Store) (r : RawBookRequest) (token : String) (decoded : Decoded)
    (showValue : IdValue) (values : List IdValue)
    (htok : r.token = some token) (hne : token ≠ "") (hver : verify token = .ok decoded)
    (hshow : r.show_id = some showValue) (hshowne : showValue ≠ .malformed "")
    (hseats : r.seats = some values) (_hlen : values ≠ [])
    (hres : ∃ seat ∈ s.seats, IdValue.oid seat._id ∈ values ∧ seat.is_reserved = true) :
    (bookRoute verify messages s r).2.bookings = s.bookings ∧
      (bookRoute verify messages s r).2 = s ∧
      (∀ ids : List Nat, values = ids.map IdValue.oid →
        (bookRoute verify messages s r).1.status = 400) := by
  have hwell : ∀ ids : List Nat, values = ids.map IdValue.oid →
      bookRoute verify messages s r = (⟨400, .error "Some seats are already reserved"⟩, s) := by
    intro ids hvals
    obtain ⟨seat, hmem, hid, hreserved⟩ := hres
    have hin : seat._id ∈ ids := by
      rw [hvals] at hid
      obtain ⟨id, hidmem, heq⟩ := List.mem_map.mp hid
      rw [← IdValue.oid.inj heq]
      exact hidmem
    exact bookRoute_of_conflict verify messages s r token decoded showValue ids htok hne hver
      hshow hshowne (hvals ▸ hseats) (List.ne_nil_of_mem hin) ⟨seat, hmem, hin, hreserved⟩
  have hstore : (bookRoute verify messages s r).2 = s := by
    rcases bookRoute_cases verify messages s r with ⟨_, hs⟩ | ⟨_, ids, _, hs, hok⟩
    · exact hs
    · have hvals : values = ids.map IdValue.oid := Option.some.inj (hseats.symm.trans hs)
      rw [hwell ids hvals]
  refine ⟨by rw [hstore], hstore, ?_⟩
  intro ids hvals
  rw [hwell ids hvals]

/-- C5 amended, at a request for seats 2 and 3 of the partly booked store. -/
theorem C5_reserved_seat_no_booking_witness :
    (bookRoute demoVerify demoMessages partlyBookedStore
        { token := some "user-7", show_id := some (.oid 10), seats := some [.oid 2, .oid 3],
          extra := [] }).1.status = 400 ∧
      (bookRoute demoVerify demoMessages partlyBookedStore
        { token := some "user-7", show_id := some (.oid 10), seats := some [.oid 2, .oid 3],
          extra := [] }).2 = partlyBookedStore :=
  have h := C5_reserved_seat_no_booking demoVerify demoMessages partlyBookedStore
    { token := some "user-7", show_id := some (.oid 10), seats := some [.oid 2, .oid 3],
      extra := [] } "user-7"
    { userId := 7, username := "asha", role := "user" } (.oid 10) [.oid 2, .oid 3]
    rfl (by decide) rfl rfl (by decide) rfl (by decide)
    ⟨{ _id := 2, show_id := 10, seat_row := "A", seat_col := 2, is_reserved := true,
       priority := 3, price := some 400 }, by decide, by decide, rfl⟩
  ⟨h.2.2 [2, 3] rfl, h.2.1⟩

/-! ## C6. What the refusal says -/

/-- C6, refuted as stated: on the partly booked store a request for seats 1, 3
and a request for seats 2, 3 conflict on different seats (seat 1, seat 2), and
both get the very same response, status 400 with the fixed text, which
therefore names neither. -/
theorem C6_response_names_no_seat :
    conflictingSeats partlyBookedStore [1, 3] = [1] ∧
      conflictingSeats partlyBookedStore [2, 3] = [2] ∧
      (book demoVerify partlyBookedStore
        { token := some "user-7", show_id := some 10, seats := some [1, 3], extra := [] }).1
        = ⟨400, .error "Some seats are already reserved"⟩ ∧
      (book demoVerify partlyBookedStore
        { token := some "user-7", show_id := some 10, seats := some [2, 3], extra := [] }).1
        = ⟨400, .error "Some seats are already reserved"⟩ := by
  decide

/-- C6, amended: when `POST /book` fails because named seats are already
reserved, the response is status 400 with the fixed body
`{ error: "Some seats are already reserved" }`, the same whichever seats
conflicted. -/
theorem C6_conflict_response_fixed (verify : Verifier) (s : Store) (r : BookRequest)
    (token : String) (decoded : Decoded) (show_id : Nat) (seats : List Nat)
    (htok : r.token = some token) (hne : token ≠ "") (hver : verify token = .ok decoded)
    (hshow : r.show_id = some show_id) (hseats : r.seats = some seats) (hlen : seats ≠ [])
    (hconf : conflictingSeats s seats ≠ []) :
    (book verify s r).1 = ⟨400, .error "Some seats are already reserved"⟩ := by
  rw [book_of_conflict verify s r token decoded show_id seats htok hne hver hshow hseats hlen
    ((conflictingSeats_ne_nil_iff s seats).mp hconf)]

/-- C6 amended, at a request for seats 1, 2 and 3 of the partly booked store. -/
theorem C6_conflict_response_fixed_witness :
    conflictingSeats partlyBookedStore [1, 2, 3] ≠ [] ∧
      (book demoVerify partlyBookedStore
        { token := some "user-7", show_id := some 10, seats := some [1, 2, 3], extra := [] }).1
        = ⟨400, .error "Some seats are already reserved"⟩ :=
  ⟨by decide,
   C6_conflict_response_fixed demoVerify partlyBookedStore _ "user-7"
    { userId := 7, username := "asha", role := "user" } 10 [1, 2, 3] rfl (by decide) rfl rfl rfl
    (by decide) (by decide)⟩

/-! ## C7. Named seats are reserved -/

/-- C7, refuted as stated: on the one-seat store a request naming seats 1 and 9
succeeds, and afterwards the store holds no seat 9, reserved or not: the seat
named 9 is not reserved in the store. -/
theorem C7_named_seat_not_in_store :
    (bookRoute demoVerify demoMessages oneSeatStore
        { token := some "user-7", show_id := some (.oid 10), seats := some [.oid 1, .oid 9],
          extra := [] }).1.status = 200 ∧
      ¬ ∃ seat ∈ (bookRoute demoVerify demoMessages oneSeatStore
          { token := some "user-7", show_id := some (.oid 10), seats := some [.oid 1, .oid 9],
            extra := [] }).2.seats, seat._id = 9 := by
  decide

/-- C7, amended: after every successful `POST /book`, every stored seat named
in the request's seat list is reserved: every seat of the store whose id is in
the list is reserved, and every named seat that was in the store before the
call is still there and reserved. An id of the list that names no stored seat
names none afterwards either. -/
theorem C7_stored_named_seats_reserved (verify : Verifier) (messages : DriverMessages)
    (s : Store) (r : RawBookRequest)
    (hok : (bookRoute verify messages s r).1.status = 200) :
    ∃ ids : List Nat, r.seats = some (ids.map IdValue.oid) ∧
      (∀ seat ∈ (bookRoute verify messages s r).2.seats,
        seat._id ∈ ids → seat.is_reserved = true) ∧
      (∀ id ∈ ids, (∃ seat ∈ s.seats, seat._id = id) →
        ∃ seat ∈ (bookRoute verify messages s r).2.seats,
          seat._id = id ∧ seat.is_reserved = true) ∧
      (∀ id ∈ ids, (¬ ∃ seat ∈ s.seats, seat._id = id) →
        ¬ ∃ seat ∈ (bookRoute verify messages s r).2.seats, seat._id = id) := by
  obtain ⟨show_id, ids, _, hseats, hb⟩ := bookRoute_of_status_200 verify messages s r hok
  rw [hb] at hok ⊢
  obtain ⟨h1, h2⟩ := book_named_seats_reserved verify s _ ids rfl hok
  refine ⟨ids, hseats, h1, h2, ?_⟩
  rintro id _ hnone ⟨seat, hmem, hid⟩
  obtain ⟨old, hold, _, _, holdid, _⟩ := mem_book verify s _ seat hmem
  exact hnone ⟨old, hold, holdid ▸ hid⟩

/-- C7 amended, at the request naming seats 1 and 9 on the one-seat store. -/
theorem C7_stored_named_seats_reserved_witness :
    ∃ ids : List Nat, some [IdValue.oid 1, IdValue.oid 9] = some (ids.map IdValue.oid) ∧
      (∀ seat ∈ (bookRoute demoVerify demoMessages oneSeatStore
          { token := some "user-7", show_id := some (.oid 10), seats := some [.oid 1, .oid 9],
            extra := [] }).2.seats,
        seat._id ∈ ids → seat.is_reserved = true) ∧
      (∀ id ∈ ids, (∃ seat ∈ oneSeatStore.seats, seat._id = id) →
        ∃ seat ∈ (bookRoute demoVerify demoMessages oneSeatStore
            { token := some "user-7", show_id := some (.oid 10),
              seats := some [.oid 1, .oid 9], extra := [] }).2.seats,
          seat._id = id ∧ seat.is_reserved = true) ∧
      (∀ id ∈ ids, (¬ ∃ seat ∈ oneSeatStore.seats, seat._id = id) →
        ¬ ∃ seat ∈ (bookRoute demoVerify demoMessages oneSeatStore
            { token := some "user-7", show_id := some (.oid 10),
              seats := some [.oid 1, .oid 9], extra := [] }).2.seats, seat._id = id) :=
  C7_stored_named_seats_reserved demoVerify demoMessages oneSeatStore
    { token := some "user-7", show_id := some (.oid 10), seats := some [.oid 1, .oid 9],
      extra := [] } (by decide)

/-! ## C8. Effect of a booking on seats and bookings -/

/-- C8, refuted as stated: on the one-seat store a request naming the two seat
ids 1 and 9 succeeds, and the call changes one seat from available to
reserved, not two. -/
theorem C8_two_ids_one_seat_flipped :
    (book demoVerify oneSeatStore
        { token := some "user-7", show_id := some 10, seats := some [1, 9], extra := [] }).1.status
        = 200 ∧
      (reservedBy oneSeatStore.seats (book demoVerify oneSeatStore
        { token := some "user-7", show_id := some 10, seats := some [1, 9], extra := [] }).2.seats).length
        = 1 ∧
      [1, 9].length = 2 := by
  decide

/-- C8, amended: a successful `POST /book` adds exactly one booking and changes
from available to reserved exactly the stored seats whose id is in the list,
leaving every other seat unchanged; these are N seats when the N ids are
distinct and each names a stored seat (stored ids being distinct). An
unsuccessful call adds no booking and changes no seat. -/
theorem C8_booking_effect (verify : Verifier) (s : Store) (r : BookRequest) :
    ((book verify s r).1.status = 200 →
      ∃ ids, r.seats = some ids ∧
        (∃ b, (book verify s r).2.bookings = s.bookings ++ [b]) ∧
        List.Forall₂ (SeatStep ids) s.seats (book verify s r).2.seats ∧
        (reservedBy s.seats (book verify s r).2.seats).length =
          (s.seats.filter (fun seat => decide (seat._id ∈ ids))).length ∧
        (ids.Nodup → (s.seats.map (fun seat => seat._id)).Nodup →
          (∀ id ∈ ids, id ∈ s.seats.map (fun seat => seat._id)) →
          (reservedBy s.seats (book verify s r).2.seats).length = ids.length)) ∧
      ((book verify s r).1.status ≠ 200 →
        (book verify s r).2.bookings = s.bookings ∧ (book verify s r).2.seats = s.seats) := by
  constructor
  · intro hok
    obtain ⟨token, decoded, show_id, seats, _, _, _, _, hs, _, hnil, hb⟩ :=
      book_of_status_200 verify s r hok
    have hfree := free_of_filter_nil s.seats seats hnil
    have hlen : (reservedBy s.seats (reserveSeats s.seats seats)).length =
        (findSeatsByIds s.seats seats).length := by
      rw [reservedBy_reserveSeats s.seats seats hfree, List.length_map]
    refine ⟨seats, hs, ?_⟩
    rw [hb]
    simp only [bookedStore]
    refine ⟨⟨_, rfl⟩, forall₂_reserveSeats s.seats seats hfree, hlen, ?_⟩
    intro hids hstore hall
    rw [hlen]
    exact length_findSeatsByIds s.seats seats hids hstore hall
  · intro hfail
    rw [book_store_of_ne_200 verify s r hfail]
    exact ⟨rfl, rfl⟩

/-- C8 amended, at the booking of seat 1 of the one-seat store: one booking is
added and one seat is flipped. -/
theorem C8_booking_effect_witness :
    (book demoVerify oneSeatStore plainRequest).1.status = 200 ∧
      ∃ ids, plainRequest.seats = some ids ∧
        (∃ b, (book demoVerify oneSeatStore plainRequest).2.bookings
          = oneSeatStore.bookings ++ [b]) ∧
        List.Forall₂ (SeatStep ids) oneSeatStore.seats
          (book demoVerify oneSeatStore plainRequest).2.seats ∧
        (reservedBy oneSeatStore.seats (book demoVerify oneSeatStore plainRequest).2.seats).length
          = (oneSeatStore.seats.filter (fun seat => decide (seat._id ∈ ids))).length ∧
        (ids.Nodup → (oneSeatStore.seats.map (fun seat => seat._id)).Nodup →
          (∀ id ∈ ids, id ∈ oneSeatStore.seats.map (fun seat => seat._id)) →
          (reservedBy oneSeatStore.seats
            (book demoVerify oneSeatStore plainRequest).2.seats).length = ids.length) :=
  ⟨by decide, (C8_booking_effect demoVerify oneSeatStore plainRequest).1 (by decide)⟩

/-! ## C9. Seats the request names -/

/-- C9, refuted as stated: on the one-seat store (seat 1 of show 10), a request
for show 10 naming seat 9, which does not exist, and a request for show 20
naming seat 1, which belongs to show 10, both succeed; each creates a booking,
and the second reserves seat 1. -/
theorem C9_unknown_or_foreign_seat_booked :
    bookRoute demoVerify demoMessages oneSeatStore
        { token := some "user-7", show_id := some (.oid 10), seats := some [.oid 9],
          extra := [] } =
        (⟨200, .booked "Booking successful" 11 0 1⟩,
         { oneSeatStore with
           bookings := [{ _id := 11, user_id := 7, show_id := 10, seats := [9],
                          total_price := 0 }],
           nextId := 12 }) ∧
      bookRoute demoVerify demoMessages oneSeatStore
        { token := some "user-7", show_id := some (.oid 20), seats := some [.oid 1],
          extra := [] } =
        (⟨200, .booked "Booking successful" 11 150 1⟩,
         { oneSeatStore with
           seats := [{ _id := 1, show_id := 10, seat_row := "F", seat_col := 1,
                       is_reserved := true, priority := 1, price := some 150 }],
           bookings := [{ _id := 11, user_id := 7, show_id := 20, seats := [1],
                          total_price := 150 }],
           nextId := 12 }) := by
  decide

/-- C9, amended: `POST /book` naming a well-formed seat id that does not exist,
or that belongs to a show other than the request's show_id, is not rejected for
it. With a valid token, a well-formed show_id and a non-empty list of
well-formed seat ids, the call succeeds whenever no stored seat named in the
list is already reserved: it adds one booking that records the show_id and the
seat list as given, and sets the flag of the stored seats named in the list,
whatever their show, leaving the other seats unchanged. A seat list holding a
value that is not a well-formed ObjectId makes the call fail, with no seat
changed and no booking created. -/
theorem C9_unknown_or_foreign_seat_not_checked (verify : Verifier)
    (messages : DriverMessages) (s : Store) (r : RawBookRequest) (token : String)
    (decoded : Decoded) (show_id : Nat) (values : List IdValue)
    (htok : r.token = some token) (hne : token ≠ "") (hver : verify token = .ok decoded)
    (hshow : r.show_id = some (.oid show_id)) (hseats : r.seats = some values)
    (hlen : values ≠ []) :
    (∀ ids : List Nat, values = ids.map IdValue.oid →
        (∃ id ∈ ids, ∀ seat ∈ s.seats, seat._id = id → seat.show_id ≠ show_id) →
        (∀ seat ∈ s.seats, seat._id ∈ ids → seat.is_reserved = false) →
        (bookRoute verify messages s r).1.status = 200 ∧
          (∃ b, (bookRoute verify messages s r).2.bookings = s.bookings ++ [b] ∧
            b.show_id = show_id ∧ b.seats = ids) ∧
          List.Forall₂ (SeatStep ids) s.seats (bookRoute verify messages s r).2.seats) ∧
      (∀ text, IdValue.malformed text ∈ values →
        (bookRoute verify messages s r).1.status ≠ 200 ∧
          (bookRoute verify messages s r).2.seats = s.seats ∧
          (bookRoute verify messages s r).2.bookings = s.bookings) := by
  constructor
  · intro ids hvals _ hfree
    have hids : ids ≠ [] := by
      intro h
      rw [h] at hvals
      exact hlen hvals
    rw [bookRoute_of_wellFormed verify messages s r show_id ids hshow (hvals ▸ hseats),
      book_of_free verify s _ token decoded show_id ids htok hne hver rfl rfl hids hfree]
    exact ⟨rfl, ⟨_, rfl, rfl, rfl⟩, forall₂_reserveSeats s.seats ids hfree⟩
  · intro text hbad
    obtain ⟨hfail, hstore⟩ := bookRoute_of_malformed_seat verify messages s r values text hseats hbad
    exact ⟨hfail, by rw [hstore], by rw [hstore]⟩

/-- C9 amended, at a request for show 20 naming seats 1 (of show 10) and 9 (not
stored) on the one-seat store. -/
theorem C9_unknown_or_foreign_seat_not_checked_witness :
    (bookRoute demoVerify demoMessages oneSeatStore
        { token := some "user-7", show_id := some (.oid 20), seats := some [.oid 1, .oid 9],
          extra := [] }).1.status = 200 ∧
      (∃ b, (bookRoute demoVerify demoMessages oneSeatStore
          { token := some "user-7", show_id := some (.oid 20), seats := some [.oid 1, .oid 9],
            extra := [] }).2.bookings = oneSeatStore.bookings ++ [b] ∧
        b.show_id = 20 ∧ b.seats = [1, 9]) ∧
      List.Forall₂ (SeatStep [1, 9]) oneSeatStore.seats
        (bookRoute demoVerify demoMessages oneSeatStore
          { token := some "user-7", show_id := some (.oid 20), seats := some [.oid 1, .oid 9],
            extra := [] }).2.seats :=
  (C9_unknown_or_foreign_seat_not_checked demoVerify demoMessages oneSeatStore
      { token := some "user-7", show_id := some (.oid 20), seats := some [.oid 1, .oid 9],
        extra := [] } "user-7"
      { userId := 7, username := "asha", role := "user" } 20 [.oid 1, .oid 9]
      rfl (by decide) rfl rfl rfl (by decide)).1 [1, 9] rfl ⟨9, by decide, by decide⟩ (by decide)

/-! ## C10. The show the request names -/

/-- C10, refuted as stated: the one-seat store holds show 10 only; a request
for show 99 naming seat 1 succeeds, reserves the seat and stores a booking for
show 99. -/
theorem C10_unknown_show_booked :
    (oneSeatStore.shows.find? (fun sh => sh._id = 99)) = none ∧
      bookRoute demoVerify demoMessages oneSeatStore
        { token := some "user-7", show_id := some (.oid 99), seats := some [.oid 1],
          extra := [] } =
        (⟨200, .booked "Booking successful" 11 150 1⟩,
         { oneSeatStore with
           seats := [{ _id := 1, show_id := 10, seat_row := "F", seat_col := 1,
                       is_reserved := true, priority := 1, price := some 150 }],
           bookings := [{ _id := 11, user_id := 7, show_id := 99, seats := [1],
                          total_price := 150 }],
           nextId := 12 }) := by
  decide

/-- C10, amended: `POST /book` never looks the show up. With a valid token, a
well-formed show_id that references no existing show and a non-empty list of
well-formed seat ids none of whose stored seats is reserved, the call succeeds,
stores a booking that records the show_id as given and leaves the shows as they
were; and for every request the response, the seats and the bookings are the
same whatever shows the store holds. A show_id that is not a well-formed
ObjectId makes the call fail, with seats and bookings unchanged. -/
theorem C10_show_not_looked_up (verify : Verifier) (messages : DriverMessages) (s : Store)
    (r : RawBookRequest) :
    (∀ token decoded (show_id : Nat) (ids : List Nat),
        r.token = some token → token ≠ "" → verify token = .ok decoded →
        r.show_id = some (.oid show_id) → (∀ sh ∈ s.shows, sh._id ≠ show_id) →
        r.seats = some (ids.map IdValue.oid) → ids ≠ [] →
        (∀ seat ∈ s.seats, seat._id ∈ ids → seat.is_reserved = false) →
        (bookRoute verify messages s r).1.status = 200 ∧
          (∃ b, (bookRoute verify messages s r).2.bookings = s.bookings ++ [b] ∧
            b.show_id = show_id) ∧
          (bookRoute verify messages s r).2.shows = s.shows) ∧
      (∀ shows : List Show,
        (bookRoute verify messages { s with shows := shows } r).1 =
            (bookRoute verify messages s r).1 ∧
          (bookRoute verify messages { s with shows := shows } r).2.seats =
            (bookRoute verify messages s r).2.seats ∧
          (bookRoute verify messages { s with shows := shows } r).2.bookings =
            (bookRoute verify messages s r).2.bookings) ∧
      (∀ text, r.show_id = some (.malformed text) →
        (bookRoute verify messages s r).1.status ≠ 200 ∧
          (bookRoute verify messages s r).2.seats = s.seats ∧
          (bookRoute verify messages s r).2.bookings = s.bookings) := by
  refine ⟨?_, ?_, ?_⟩
  · intro token decoded show_id ids htok hne hver hshow _ hseats hlen hfree
    rw [bookRoute_of_wellFormed verify messages s r show_id ids hshow hseats,
      book_of_free verify s _ token decoded show_id ids htok hne hver rfl rfl hlen hfree]
    exact ⟨rfl, ⟨_, rfl, rfl⟩, rfl⟩
  · intro shows
    rw [bookRoute_with_shows verify messages s r shows]
    exact ⟨rfl, rfl, rfl⟩
  · intro text hshow
    obtain ⟨hfail, hstore⟩ := bookRoute_of_malformed_show verify messages s r text hshow
    exact ⟨hfail, by rw [hstore], by rw [hstore]⟩

/-- C10 amended, at the request for show 99 naming seat 1 on the one-seat
store: it succeeds and the booking records show 99. -/
theorem C10_show_not_looked_up_witness :
    (bookRoute demoVerify demoMessages oneSeatStore
        { token := some "user-7", show_id := some (.oid 99), seats := some [.oid 1],
          extra := [] }).1.status = 200 ∧
      (∃ b, (bookRoute demoVerify demoMessages oneSeatStore
          { token := some "user-7", show_id := some (.oid 99), seats := some [.oid 1],
            extra := [] }).2.bookings = oneSeatStore.bookings ++ [b] ∧ b.show_id = 99) ∧
      (bookRoute demoVerify demoMessages oneSeatStore
        { token := some "user-7", show_id := some (.oid 99), seats := some [.oid 1],
          extra := [] }).2.shows = oneSeatStore.shows :=
  (C10_show_not_looked_up demoVerify demoMessages oneSeatStore
      { token := some "user-7", show_id := some (.oid 99), seats := some [.oid 1],
        extra := [] }).1 "user-7"
    { userId := 7, username := "asha", role := "user" } 99 [1]
    rfl (by decide) rfl rfl (by decide) rfl (by decide) (by decide)

/-! ## C11. Number of seats in a request -/

/-- C11, refuted as stated: on a freshly provisioned show, a request naming the
nine distinct seat ids 1 to 9 succeeds; one booking of nine seats is stored at
3600 and nine seats are reserved. -/
theorem C11_nine_seats_booked :
    [1, 2, 3, 4, 5, 6, 7, 8, 9].Nodup ∧
      (bookRoute demoVerify demoMessages freshShowStore nineSeatsRequest.raw).1 =
        ⟨200, .booked "Booking successful" 81 3600 9⟩ ∧
      (bookRoute demoVerify demoMessages freshShowStore nineSeatsRequest.raw).2.bookings =
        [{ _id := 81, user_id := 7, show_id := 0, seats := [1, 2, 3, 4, 5, 6, 7, 8, 9],
           total_price := 3600 }] ∧
      (reservedSeats
        (bookRoute demoVerify demoMessages freshShowStore nineSeatsRequest.raw).2).length = 9 := by
  decide

/-- C11, amended: `POST /book` with more than 8 distinct seat ids is not
rejected for their number. With a valid token, a well-formed show_id and
well-formed seat ids, it succeeds when no stored seat named in the list is
already reserved, adding one booking that lists all the ids and reserving every
stored seat named; it is answered 400, with the store left as it was, when a
stored seat named in the list is already reserved. -/
theorem C11_no_cap_on_seat_count (verify : Verifier) (messages : DriverMessages) (s : Store)
    (r : RawBookRequest) (token : String) (decoded : Decoded) (show_id : Nat)
    (ids : List Nat)
    (htok : r.token = some token) (hne : token ≠ "") (hver : verify token = .ok decoded)
    (hshow : r.show_id = some (.oid show_id)) (hseats : r.seats = some (ids.map IdValue.oid))
    (hmany : ids.length > 8) (_hdistinct : ids.Nodup) :
    ((∀ seat ∈ s.seats, seat._id ∈ ids → seat.is_reserved = false) →
      (bookRoute verify messages s r).1.status = 200 ∧
        (∃ b, (bookRoute verify messages s r).2.bookings = s.bookings ++ [b] ∧ b.seats = ids) ∧
        List.Forall₂ (SeatStep ids) s.seats (bookRoute verify messages s r).2.seats) ∧
      ((∃ seat ∈ s.seats, seat._id ∈ ids ∧ seat.is_reserved = true) →
        (bookRoute verify messages s r).1 = ⟨400, .error "Some seats are already reserved"⟩ ∧
          (bookRoute verify messages s r).2 = s) := by
  have hlen : ids ≠ [] := by
    intro h
    rw [h] at hmany
    exact absurd hmany (by decide)
  rw [bookRoute_of_wellFormed verify messages s r show_id ids hshow hseats]
  constructor
  · intro hfree
    rw [book_of_free verify s _ token decoded show_id ids htok hne hver rfl rfl hlen hfree]
    exact ⟨rfl, ⟨_, rfl, rfl⟩, forall₂_reserveSeats s.seats ids hfree⟩
  · intro hres
    rw [book_of_conflict verify s _ token decoded show_id ids htok hne hver rfl rfl hlen hres]
    exact ⟨rfl, rfl⟩

/-- C11 amended, at the request for seats 1 to 9 of the freshly provisioned show. -/
theorem C11_no_cap_on_seat_count_witness :
    [1, 2, 3, 4, 5, 6, 7, 8, 9].length > 8 ∧
      (bookRoute demoVerify demoMessages freshShowStore nineSeatsRequest.raw).1.status = 200 :=
  ⟨by decide,
   ((C11_no_cap_on_seat_count demoVerify demoMessages freshShowStore nineSeatsRequest.raw
      "user-7" { userId := 7, username := "asha", role := "user" } 0
      [1, 2, 3, 4, 5, 6, 7, 8, 9] rfl (by decide) rfl rfl rfl (by decide) (by decide)).1
      (by decide)).1⟩

/-! ## C12. Repeated seat ids -/

/-- C12, refuted as stated: on the one-seat store a request naming seat 1 twice
succeeds; the seat is priced once (150), the booking lists it twice and the
response counts two seats. -/
theorem C12_repeated_seat_booked :
    ¬ [1, 1].Nodup ∧
      book demoVerify oneSeatStore repeatedSeatRequest =
        (⟨200, .booked "Booking successful" 11 150 2⟩,
         { oneSeatStore with
           seats := [{ _id := 1, show_id := 10, seat_row := "F", seat_col := 1,
                       is_reserved := true, priority := 1, price := some 150 }],
           bookings := [{ _id := 11, user_id := 7, show_id := 10, seats := [1, 1],
                          total_price := 150 }],
           nextId := 12 }) := by
  decide

/-- C12, amended: `POST /book` whose seat list contains the same seat id more
than once is not rejected for it. With a valid token and a show_id it has the
status, the total_price and the effect on the seats of the request that names
each id once; the booking it stores lists the ids as given, repeats included,
and seats_count is the length of the list as given. -/
theorem C12_repeated_ids_count_once (verify : Verifier) (s : Store) (r : BookRequest)
    (token : String) (decoded : Decoded) (show_id : Nat) (seats : List Nat)
    (htok : r.token = some token) (hne : token ≠ "") (hver : verify token = .ok decoded)
    (hshow : r.show_id = some show_id) (hseats : r.seats = some seats)
    (hrep : ¬ seats.Nodup) :
    (book verify s r).1.status = (book verify s r.dedup).1.status ∧
      (book verify s r).2.seats = (book verify s r.dedup).2.seats ∧
      ((book verify s r).1.status = 200 →
        ∃ id total, (book verify s r).1.body = .booked "Booking successful" id total seats.length ∧
          (book verify s r.dedup).1.body =
            .booked "Booking successful" id total seats.dedup.length ∧
          ∃ b, (book verify s r).2.bookings = s.bookings ++ [b] ∧ b.seats = seats ∧
            b.total_price = total) := by
  have hlen : seats ≠ [] := by
    intro h
    rw [h] at hrep
    exact hrep List.nodup_nil
  have hlen2 : seats.dedup ≠ [] := by
    intro h
    exact hlen (List.dedup_eq_nil seats |>.mp h)
  have hseats2 : r.dedup.seats = some seats.dedup := by
    simp only [BookRequest.dedup, hseats, Option.map_some']
  rw [book_of_checked verify s r token decoded show_id seats htok hne hver hshow hseats hlen,
    book_of_checked verify s r.dedup token decoded show_id seats.dedup htok hne hver hshow
      hseats2 hlen2, findSeatsByIds_dedup]
  split_ifs
  · exact ⟨rfl, rfl, fun h => by simp at h⟩
  · refine ⟨rfl, ?_, fun _ => ⟨_, _, rfl, ?_, _, rfl, rfl, rfl⟩⟩
    · simp only [bookedStore, reserveSeats_dedup]
    · simp only [bookedResponse, findSeatsByIds_dedup]

/-- C12 amended, at the request naming seat 1 twice on the one-seat store. -/
theorem C12_repeated_ids_count_once_witness :
    ¬ [1, 1].Nodup ∧
      (book demoVerify oneSeatStore repeatedSeatRequest).1.status =
        (book demoVerify oneSeatStore repeatedSeatRequest.dedup).1.status ∧
      (book demoVerify oneSeatStore repeatedSeatRequest).2.seats =
        (book demoVerify oneSeatStore repeatedSeatRequest.dedup).2.seats :=
  ⟨by decide,
   (C12_repeated_ids_count_once demoVerify oneSeatStore repeatedSeatRequest "user-7"
      { userId := 7, username := "asha", role := "user" } 10 [1, 1]
      rfl (by decide) rfl rfl rfl (by decide)).1,
   (C12_repeated_ids_count_once demoVerify oneSeatStore repeatedSeatRequest "user-7"
      { userId := 7, username := "asha", role := "user" } 10 [1, 1]
      rfl (by decide) rfl rfl rfl (by decide)).2.1⟩

/-! ## C13. Missing body fields -/

/-- C13, refuted as stated: a request with no show_id and no token is answered
401, not 400. -/
theorem C13_missing_fields_not_400 :
    bookRoute demoVerify demoMessages oneSeatStore
        { token := none, show_id := none, seats := some [.oid 1], extra := [] } =
      (⟨401, .error "Unauthorized"⟩, oneSeatStore) := by
  decide

/-- C13, amended: `POST /book` with a missing show_id or a missing or empty
seat list changes no seat and creates no booking, whatever its token; it
answers 400 when the token is present and verifies, the token being checked
before the body (a request without a token is answered 401). -/
theorem C13_missing_fields_after_token (verify : Verifier) (messages : DriverMessages)
    (s : Store) (r : RawBookRequest)
    (hbad : r.show_id = none ∨ r.seats = none ∨ r.seats = some []) :
    (bookRoute verify messages s r).2.seats = s.seats ∧
      (bookRoute verify messages s r).2.bookings = s.bookings ∧
      (∀ token decoded, r.token = some token → token ≠ "" → verify token = .ok decoded →
        (bookRoute verify messages s r).1 = ⟨400, .error "Missing booking data"⟩) ∧
      (r.token = none ∨ r.token = some "" →
        (bookRoute verify messages s r).1 = ⟨401, .error "Unauthorized"⟩) := by
  have hstore : (bookRoute verify messages s r).2 = s := by
    rcases bookRoute_cases verify messages s r with ⟨_, hs⟩ | ⟨_, ids, hshow, hseats, _⟩
    · exact hs
    · rcases hbad with h | h | h
      · rw [h] at hshow; exact Option.noConfusion hshow
      · rw [h] at hseats; exact Option.noConfusion hseats
      · rw [h] at hseats
        have hnil : ids = [] := by
          have := Option.some.inj hseats
          cases ids with
          | nil => rfl
          | cons a l => simp at this
        subst hnil
        rcases r with ⟨tok, sh, sts, extra⟩
        simp only at h
        subst h
        cases tok with
        | none => rfl
        | some token =>
          by_cases hne : token = ""
          · simp [bookRoute, hne]
          · cases hver : verify token <;> cases sh <;> simp [bookRoute, hne, hver]
  refine ⟨by rw [hstore], by rw [hstore], ?_, ?_⟩
  · intro token decoded htok hne hver
    rcases r with ⟨tok, sh, sts, extra⟩
    simp only at htok hbad
    subst htok
    rcases hbad with h | h | h <;> subst h
    · simp [bookRoute, hne, hver]
    · cases sh <;> simp [bookRoute, hne, hver]
    · cases sh <;> simp [bookRoute, hne, hver]
  · intro htok
    rcases r with ⟨tok, sh, sts, extra⟩
    simp only at htok
    rcases htok with h | h <;> subst h <;> simp [bookRoute]

/-- C13 amended, at a request with a valid token and an empty seat list. -/
theorem C13_missing_fields_after_token_witness :
    (bookRoute demoVerify demoMessages oneSeatStore
        { token := some "user-7", show_id := some (.oid 10), seats := some [], extra := [] }).1 =
        ⟨400, .error "Missing booking data"⟩ :=
  (C13_missing_fields_after_token demoVerify demoMessages oneSeatStore
      { token := some "user-7", show_id := some (.oid 10), seats := some [], extra := [] }
      (Or.inr (Or.inr rfl))).2.2.1 "user-7"
    { userId := 7, username := "asha", role := "user" } rfl (by decide) rfl

/-! ## C14. Reserved seats stay reserved -/

/-- C14: no server operation changes a stored seat from reserved to available.
In a store whose seat ids are distinct and already issued, for every operation,
and for every sequence of operations, a seat that exists both before and after
and was reserved before is reserved after. -/
theorem C14_reserved_stays_reserved (verify : Verifier) (s : Store) (hids : SeatIdsOk s) :
    (∀ (op : Operation) (seat seat' : Seat), seat ∈ s.seats →
        seat' ∈ (op.run verify s).seats → seat'._id = seat._id →
        seat.is_reserved = true → seat'.is_reserved = true) ∧
      (∀ (ops : List Operation) (seat seat' : Seat), seat ∈ s.seats →
        seat' ∈ (runAll verify s ops).seats → seat'._id = seat._id →
        seat.is_reserved = true → seat'.is_reserved = true) := by
  constructor
  · intro op seat seat' hbefore hafter hsame hres
    exact keepsReservations_reserved (keepsReservations_run verify s op) hids hbefore hafter
      hsame hres
  · intro ops seat seat' hbefore hafter hsame hres
    exact keepsReservations_reserved (keepsReservations_runAll verify ops s hids).1 hids hbefore
      hafter hsame hres

/-- C14 at the partly booked store and a request that books seat 3: seat 1,
reserved before, is reserved after. -/
theorem C14_reserved_stays_reserved_witness :
    SeatIdsOk partlyBookedStore ∧
      ∀ seat' ∈ ((Operation.book
          { token := some "user-7", show_id := some 10, seats := some [3], extra := [] }).run
          demoVerify partlyBookedStore).seats,
        seat'._id = 1 → seat'.is_reserved = true :=
  ⟨by unfold SeatIdsOk; decide,
   fun seat' hafter hsame =>
    (C14_reserved_stays_reserved demoVerify partlyBookedStore (by unfold SeatIdsOk; decide)).1
      (Operation.book { token := some "user-7", show_id := some 10, seats := some [3], extra := [] })
      { _id := 1, show_id := 10, seat_row := "A", seat_col := 1, is_reserved := true,
        priority := 3, price := some 400 }
      seat' (by decide) hafter hsame rfl⟩

/-! ## C15. Seats created for a show -/

/-- C15: for a show that has no seats, `createSeatsForShow` appends exactly 80
seats, all of that show and all unreserved, exactly one for every pair of a row
in A..H and a column in 1..10; the show then has these 80 seats. -/
theorem C15_eighty_seats_created (s : Store) (showId : Nat)
    (hnone : ∀ seat ∈ s.seats, seat.show_id ≠ showId) :
    (createSeatsForShow s showId).seats = s.seats ++ createdSeats s showId ∧
      (createdSeats s showId).length = 80 ∧
      seatsOfShow (createSeatsForShow s showId) showId = createdSeats s showId ∧
      (∀ seat ∈ createdSeats s showId,
        seat.show_id = showId ∧ seat.is_reserved = false ∧
          seat.seat_row ∈ rows ∧ 1 ≤ seat.seat_col ∧ seat.seat_col ≤ 10) ∧
      (∀ row ∈ rows, ∀ col, 1 ≤ col → col ≤ 10 →
        ((createdSeats s showId).filter
          (fun seat => decide (seat.seat_row = row ∧ seat.seat_col = col))).length = 1) := by
  have hcreated := createdSeats_of_none s showId hnone
  have hshow := insertMany_show_id (seatDocs showId) s.nextId showId (seatDocs_show_id showId)
  have hview : (createdSeats s showId).map Seat.view = (seatDocs 0).map SeatDoc.view := by
    rw [hcreated, insertMany_view, seatDocs_view]
  refine ⟨?_, ?_, ?_, ?_, ?_⟩
  · rw [hcreated, createSeatsForShow_of_none s showId hnone]
  · rw [hcreated, insertMany_length, seatDocs_length]
  · rw [hcreated, seatsOfShow, createSeatsForShow_of_none s showId hnone]
    simp only [List.filter_append]
    have h1 : s.seats.filter (fun seat => decide (seat.show_id = showId)) = [] := by
      rw [List.filter_eq_nil_iff]
      intro seat hmem
      simpa using hnone seat hmem
    have h2 : (insertMany s.nextId (seatDocs showId)).filter
        (fun seat => decide (seat.show_id = showId)) = insertMany s.nextId (seatDocs showId) := by
      rw [List.filter_eq_self]
      intro seat hmem
      simpa using hshow seat hmem
    rw [h1, h2, List.nil_append]
  · intro seat hmem
    have hv := view_mem_of_mem_createdSeats s showId seat hmem
    have hall : ∀ v ∈ (seatDocs 0).map SeatDoc.view,
        v.2.2.1 = false ∧ v.1 ∈ rows ∧ 1 ≤ v.2.1 ∧ v.2.1 ≤ 10 := by decide
    rw [hcreated] at hmem
    exact ⟨hshow seat hmem, hall seat.view hv⟩
  · intro row hrow col hlo hhi
    have hcol : col ∈ List.range' 1 10 := by
      rw [List.mem_range'_1]
      omega
    have hcount : ∀ row ∈ rows, ∀ col ∈ List.range' 1 10,
        (((seatDocs 0).map SeatDoc.view).filter
          (fun v => decide (v.1 = row ∧ v.2.1 = col))).length = 1 := by decide
    rw [← hcount row hrow col hcol, ← hview, List.filter_map, List.length_map]
    rfl

/-- C15 at the creation of seats for show 0 in a store that holds only the show. -/
theorem C15_eighty_seats_created_witness :
    (createdSeats { emptyStore with nextId := 1 } 0).length = 80 :=
  (C15_eighty_seats_created { emptyStore with nextId := 1 } 0
    (fun seat hmem => absurd hmem (List.not_mem_nil seat))).2.1

/-! ## C16. Rows and tiers -/

/-- C16: every seat created by `createSeatsForShow` in row A or B is VIP
(priority 3, price 400), in row C, D or E is Premium (priority 2, price 250),
and in row F, G or H is Standard (priority 1, price 150). -/
theorem C16_tier_of_row (s : Store) (showId : Nat) (seat : Seat)
    (hmem : seat ∈ createdSeats s showId) :
    (seat.seat_row ∈ ["A", "B"] →
        seatCategory seat = "VIP" ∧ seat.priority = 3 ∧ seat.price = some 400) ∧
      (seat.seat_row ∈ ["C", "D", "E"] →
        seatCategory seat = "Premium" ∧ seat.priority = 2 ∧ seat.price = some 250) ∧
      (seat.seat_row ∈ ["F", "G", "H"] →
        seatCategory seat = "Standard" ∧ seat.priority = 1 ∧ seat.price = some 150) := by
  have hv := view_mem_of_mem_createdSeats s showId seat hmem
  have hall : ∀ v ∈ (seatDocs 0).map SeatDoc.view,
      (v.1 ∈ ["A", "B"] → v.2.2.2.1 = 3 ∧ v.2.2.2.2 = some 400) ∧
        (v.1 ∈ ["C", "D", "E"] → v.2.2.2.1 = 2 ∧ v.2.2.2.2 = some 250) ∧
        (v.1 ∈ ["F", "G", "H"] → v.2.2.2.1 = 1 ∧ v.2.2.2.2 = some 150) := by decide
  obtain ⟨h1, h2, h3⟩ := hall seat.view hv
  refine ⟨fun h => ?_, fun h => ?_, fun h => ?_⟩
  · obtain ⟨hp, hpr⟩ := h1 h
    have hp2 : seat.priority = 3 := hp
    exact ⟨by simp [seatCategory, hp2], hp2, hpr⟩
  · obtain ⟨hp, hpr⟩ := h2 h
    have hp2 : seat.priority = 2 := hp
    exact ⟨by simp [seatCategory, hp2], hp2, hpr⟩
  · obtain ⟨hp, hpr⟩ := h3 h
    have hp2 : seat.priority = 1 := hp
    exact ⟨by simp [seatCategory, hp2], hp2, hpr⟩

/-- C16 at seat C1 of the freshly provisioned show: it is Premium at 250. -/
theorem C16_tier_of_row_witness :
    seatCategory { _id := 21, show_id := 0, seat_row := "C", seat_col := 1, is_reserved := false,
                   priority := 2, price := some 250 } = "Premium" :=
  ((C16_tier_of_row { emptyStore with nextId := 1 } 0
      { _id := 21, show_id := 0, seat_row := "C", seat_col := 1, is_reserved := false,
        priority := 2, price := some 250 } (by decide)).2.1 (by decide)).1

/-! ## C17. Provisioning twice -/

/-- C17, refuted as stated: the one-seat store holds a single seat for show 10;
calling `createSeatsForShow` for show 10 twice leaves what calling it once
leaves, namely the store as it was, and the show holds 1 seat, not 80. -/
theorem C17_one_seat_stays_one :
    createSeatsForShow (createSeatsForShow oneSeatStore 10) 10 =
        createSeatsForShow oneSeatStore 10 ∧
      createSeatsForShow oneSeatStore 10 = oneSeatStore ∧
      (seatsOfShow (createSeatsForShow (createSeatsForShow oneSeatStore 10) 10) 10).length = 1 := by
  decide

/-- C17, amended: for every store state and every show, calling
`createSeatsForShow` twice in succession leaves the same store, hence the same
seats with the same prices and categories, as calling it once. The show then
holds 80 seats when the store held no seat of the show before the first call;
when it held one, however few, both calls leave the store exactly as it was. -/
theorem C17_second_call_changes_nothing (s : Store) (showId : Nat) :
    createSeatsForShow (createSeatsForShow s showId) showId = createSeatsForShow s showId ∧
      ((∀ seat ∈ s.seats, seat.show_id ≠ showId) →
        (seatsOfShow (createSeatsForShow (createSeatsForShow s showId) showId) showId).length
          = 80) ∧
      ((∃ seat ∈ s.seats, seat.show_id = showId) →
        createSeatsForShow (createSeatsForShow s showId) showId = s) := by
  have hidem : createSeatsForShow (createSeatsForShow s showId) showId =
      createSeatsForShow s showId :=
    createSeatsForShow_of_some _ showId (exists_seat_after_createSeatsForShow s showId)
  refine ⟨hidem, ?_, ?_⟩
  · intro hnone
    rw [hidem, seatsOfShow, createSeatsForShow_of_none s showId hnone]
    simp only [List.filter_append]
    have h1 : s.seats.filter (fun seat => decide (seat.show_id = showId)) = [] := by
      rw [List.filter_eq_nil_iff]
      intro seat hmem
      simpa using hnone seat hmem
    have h2 : (insertMany s.nextId (seatDocs showId)).filter
        (fun seat => decide (seat.show_id = showId)) = insertMany s.nextId (seatDocs showId) := by
      rw [List.filter_eq_self]
      intro seat hmem
      simpa using insertMany_show_id (seatDocs showId) s.nextId showId
        (seatDocs_show_id showId) seat hmem
    rw [h1, h2, List.nil_append, insertMany_length, seatDocs_length]
  · intro hsome
    rw [hidem, createSeatsForShow_of_some s showId hsome]

/-- C17 amended, at show 0 in a store that holds only the show: after two calls
the show holds 80 seats. -/
theorem C17_second_call_changes_nothing_witness :
    (seatsOfShow
      (createSeatsForShow (createSeatsForShow { emptyStore with nextId := 1 } 0) 0) 0).length
      = 80 :=
  (C17_second_call_changes_nothing { emptyStore with nextId := 1 } 0).2.1
    (fun seat hmem => absurd hmem (List.not_mem_nil seat))

/-! ## C18. The price table -/

/-- C18: `getPriceByPriority` returns 150 for priority 1, 250 for priority 2,
400 for priority 3 and 150 for every other input, so its result is always one
of 150, 250 and 400. -/
theorem C18_getPriceByPriority_table :
    getPriceByPriority 1 = 150 ∧ getPriceByPriority 2 = 250 ∧ getPriceByPriority 3 = 400 ∧
      (∀ priority : Int, priority ≠ 1 → priority ≠ 2 → priority ≠ 3 →
        getPriceByPriority priority = 150) ∧
      (∀ priority : Int, getPriceByPriority priority = 150 ∨
        getPriceByPriority priority = 250 ∨ getPriceByPriority priority = 400) := by
  refine ⟨rfl, rfl, rfl, ?_, ?_⟩
  · intro priority h1 h2 h3
    simp only [getPriceByPriority, h1, h2, h3, if_false]
  · intro priority
    unfold getPriceByPriority
    split_ifs
    · exact Or.inl rfl
    · exact Or.inr (Or.inl rfl)
    · exact Or.inr (Or.inr rfl)
    · exact Or.inl rfl

/-- C18 at priority 7, which is not in the table. -/
theorem C18_getPriceByPriority_table_witness : getPriceByPriority 7 = 150 :=
  C18_getPriceByPriority_table.2.2.2.1 7 (by decide) (by decide) (by decide)

/-! ## C19. Requests racing for a seat -/

/-- C19, refuted as stated: two requests for seat 1 of the one-seat store run
concurrently, their steps alternating (both `Seat.find` calls come before either
`Seat.updateMany`): both succeed and two bookings list seat 1. When the first
handler finishes before the second starts, the second is answered 400 with the
fixed text, which names no seat. -/
theorem C19_both_racing_requests_succeed :
    interleave demoVerify [false, true, false, true, false, true]
        (oneSeatStore, .start plainRequest, .start rivalRequest) =
        ({ oneSeatStore with
           seats := [{ _id := 1, show_id := 10, seat_row := "F", seat_col := 1,
                       is_reserved := true, priority := 1, price := some 150 }],
           bookings := [{ _id := 11, user_id := 7, show_id := 10, seats := [1],
                          total_price := 150 },
                        { _id := 12, user_id := 1, show_id := 10, seats := [1],
                          total_price := 150 }],
           nextId := 13 },
         .done ⟨200, .booked "Booking successful" 11 150 1⟩,
         .done ⟨200, .booked "Booking successful" 12 150 1⟩) ∧
      (interleave demoVerify [false, false, false, true, true, true]
        (oneSeatStore, .start plainRequest, .start rivalRequest)).2.2 =
        .done ⟨400, .error "Some seats are already reserved"⟩ := by
  decide

/-- C19, amended: when `POST /book` requests with valid tokens that all name one
stored seat are handled one after the other, each to completion before the next
starts, at most one succeeds, and every other one is answered 400 with the fixed
text "Some seats are already reserved", which names no seat. -/
theorem C19_one_winner_when_serial (verify : Verifier) (s : Store) (rs : List BookRequest)
    (x : Nat) (hx : ∃ seat ∈ s.seats, seat._id = x)
    (hreqs : ∀ r ∈ rs, NamesSeat verify r x) :
    ((bookAll verify s rs).1.filter (fun resp => decide (resp.status = 200))).length ≤ 1 ∧
      ∀ resp ∈ (bookAll verify s rs).1, resp.status ≠ 200 → resp = conflictResponse := by
  induction rs generalizing s with
  | nil => exact ⟨Nat.zero_le _, fun resp hmem => absurd hmem (List.not_mem_nil _)⟩
  | cons r rs ih =>
    have hrest : ∀ r' ∈ rs, NamesSeat verify r' x :=
      fun r' hr' => hreqs r' (List.mem_cons_of_mem r hr')
    obtain ⟨token, decoded, show_id, seats, htok, hne, hver, hshow, hseats, hxin⟩ :=
      hreqs r (List.mem_cons_self r rs)
    have hlen : seats ≠ [] := List.ne_nil_of_mem hxin
    by_cases hconf : ∃ seat ∈ s.seats, seat._id ∈ seats ∧ seat.is_reserved = true
    · have hb := book_of_conflict verify s r token decoded show_id seats htok hne hver hshow
        hseats hlen hconf
      obtain ⟨hcount, hothers⟩ := ih s hx hrest
      simp only [bookAll, hb]
      constructor
      · rw [List.filter_cons_of_neg (by decide)]
        exact hcount
      · intro resp hmem hne200
        rcases List.mem_cons.mp hmem with rfl | hmem
        · rfl
        · exact hothers resp hmem hne200
    · have hfree : ∀ seat ∈ s.seats, seat._id ∈ seats → seat.is_reserved = false := by
        intro seat hmem hid
        by_contra hres
        exact hconf ⟨seat, hmem, hid, by simpa using hres⟩
      have hb := book_of_free verify s r token decoded show_id seats htok hne hver hshow hseats
        hlen hfree
      obtain ⟨stored, hstored, hid⟩ := hx
      have hxres : ∃ seat ∈ (bookedStore s decoded.userId show_id seats).seats,
          seat._id = x ∧ seat.is_reserved = true :=
        ⟨{ stored with is_reserved := true },
          (mem_reserveSeats s.seats seats _).mpr
            ⟨stored, hstored, by rw [if_pos (hid ▸ hxin)]⟩, hid, rfl⟩
      have hall := bookAll_of_reserved verify x rs _ hxres hrest
      simp only [bookAll, hb]
      constructor
      · have hnil : (bookAll verify (bookedStore s decoded.userId show_id seats) rs).1.filter
            (fun resp => decide (resp.status = 200)) = [] := by
          rw [List.filter_eq_nil_iff]
          intro resp hmem
          rw [hall resp hmem]
          decide
        rw [List.filter_cons_of_pos (by rfl), hnil]
        exact Nat.le_refl 1
      · intro resp hmem hne200
        rcases List.mem_cons.mp hmem with rfl | hmem
        · exact absurd rfl hne200
        · exact hall resp hmem

/-- C19 amended, at the two requests for seat 1 of the one-seat store handled
one after the other: the first succeeds, the second gets the conflict answer. -/
theorem C19_one_winner_when_serial_witness :
    (bookAll demoVerify oneSeatStore [plainRequest, rivalRequest]).1 =
        [⟨200, .booked "Booking successful" 11 150 1⟩, conflictResponse] ∧
      ((bookAll demoVerify oneSeatStore [plainRequest, rivalRequest]).1.filter
        (fun resp => decide (resp.status = 200))).length ≤ 1 :=
  ⟨by decide,
   (C19_one_winner_when_serial demoVerify oneSeatStore [plainRequest, rivalRequest] 1
      ⟨_, List.mem_cons_self _ _, rfl⟩
      (by
        intro r hr
        rcases List.mem_cons.mp hr with rfl | hr
        · exact ⟨"user-7", { userId := 7, username := "asha", role := "user" }, 10, [1],
            rfl, by decide, rfl, rfl, rfl, by decide⟩
        · rcases List.mem_cons.mp hr with rfl | hr
          · exact ⟨"admin", { userId := 1, username := "admin", role := "admin" }, 10, [1],
              rfl, by decide, rfl, rfl, rfl, by decide⟩
          · exact absurd hr (List.not_mem_nil _))).1⟩

/-! ## C20. Disjoint requests in either order -/

/-- C20: for two `POST /book` requests with valid tokens that name disjoint,
non-empty lists of existing available seats of the same show, both requests
succeed whichever is executed first, and the seat collection, hence the set of
reserved seats, is the same after either order. -/
theorem C20_disjoint_requests_commute (verify : Verifier) (s : Store) (r₁ r₂ : BookRequest)
    (token₁ token₂ : String) (decoded₁ decoded₂ : Decoded) (show_id : Nat)
    (seats₁ seats₂ : List Nat)
    (htok₁ : r₁.token = some token₁) (hne₁ : token₁ ≠ "") (hver₁ : verify token₁ = .ok decoded₁)
    (htok₂ : r₂.token = some token₂) (hne₂ : token₂ ≠ "") (hver₂ : verify token₂ = .ok decoded₂)
    (hshow₁ : r₁.show_id = some show_id) (hshow₂ : r₂.show_id = some show_id)
    (hseats₁ : r₁.seats = some seats₁) (hseats₂ : r₂.seats = some seats₂)
    (hlen₁ : seats₁ ≠ []) (hlen₂ : seats₂ ≠ [])
    (hdisj : ∀ id ∈ seats₁, id ∉ seats₂)
    (_hexist : ∀ id ∈ seats₁ ++ seats₂, ∃ seat ∈ s.seats, seat._id = id ∧ seat.show_id = show_id)
    (hfree : ∀ seat ∈ s.seats, seat._id ∈ seats₁ ++ seats₂ → seat.is_reserved = false) :
    (book verify s r₁).1.status = 200 ∧ (book verify (book verify s r₁).2 r₂).1.status = 200 ∧
      (book verify s r₂).1.status = 200 ∧ (book verify (book verify s r₂).2 r₁).1.status = 200 ∧
      (book verify (book verify s r₁).2 r₂).2.seats =
        (book verify (book verify s r₂).2 r₁).2.seats ∧
      reservedSeats (book verify (book verify s r₁).2 r₂).2 =
        reservedSeats (book verify (book verify s r₂).2 r₁).2 := by
  have hfree₁ : ∀ seat ∈ s.seats, seat._id ∈ seats₁ → seat.is_reserved = false :=
    fun seat hmem hid => hfree seat hmem (List.mem_append_left _ hid)
  have hfree₂ : ∀ seat ∈ s.seats, seat._id ∈ seats₂ → seat.is_reserved = false :=
    fun seat hmem hid => hfree seat hmem (List.mem_append_right _ hid)
  have hdisj' : ∀ id ∈ seats₂, id ∉ seats₁ := fun id h2 h1 => hdisj id h1 h2
  have hb₁ := book_of_free verify s r₁ token₁ decoded₁ show_id seats₁ htok₁ hne₁ hver₁ hshow₁
    hseats₁ hlen₁ hfree₁
  have hb₂ := book_of_free verify s r₂ token₂ decoded₂ show_id seats₂ htok₂ hne₂ hver₂ hshow₂
    hseats₂ hlen₂ hfree₂
  have hb₁₂ := book_of_free verify (bookedStore s decoded₁.userId show_id seats₁) r₂ token₂
    decoded₂ show_id seats₂ htok₂ hne₂ hver₂ hshow₂ hseats₂ hlen₂
    (free_after_reserveSeats s.seats seats₁ seats₂ hdisj hfree₂)
  have hb₂₁ := book_of_free verify (bookedStore s decoded₂.userId show_id seats₂) r₁ token₁
    decoded₁ show_id seats₁ htok₁ hne₁ hver₁ hshow₁ hseats₁ hlen₁
    (free_after_reserveSeats s.seats seats₂ seats₁ hdisj' hfree₁)
  have hseats : (book verify (book verify s r₁).2 r₂).2.seats =
      (book verify (book verify s r₂).2 r₁).2.seats := by
    rw [hb₁, hb₂, hb₁₂, hb₂₁]
    exact reserveSeats_comm s.seats seats₁ seats₂
  refine ⟨?_, ?_, ?_, ?_, hseats, ?_⟩
  · rw [hb₁]; rfl
  · rw [hb₁, hb₁₂]; rfl
  · rw [hb₂]; rfl
  · rw [hb₂, hb₂₁]; rfl
  · rw [reservedSeats, reservedSeats, hseats]

/-- C20 at requests for seats 1, 2 and for seats 3, 4 of the freshly
provisioned show. -/
theorem C20_disjoint_requests_commute_witness :
    (book demoVerify (book demoVerify freshShowStore
          { token := some "user-7", show_id := some 0, seats := some [1, 2], extra := [] }).2
        { token := some "admin", show_id := some 0, seats := some [3, 4], extra := [] }).1.status
        = 200 ∧
      (book demoVerify (book demoVerify freshShowStore
          { token := some "admin", show_id := some 0, seats := some [3, 4], extra := [] }).2
        { token := some "user-7", show_id := some 0, seats := some [1, 2], extra := [] }).1.status
        = 200 ∧
      reservedSeats
        (book demoVerify (book demoVerify freshShowStore
          { token := some "user-7", show_id := some 0, seats := some [1, 2], extra := [] }).2
        { token := some "admin", show_id := some 0, seats := some [3, 4], extra := [] }).2 =
      reservedSeats
        (book demoVerify (book demoVerify freshShowStore
          { token := some "admin", show_id := some 0, seats := some [3, 4], extra := [] }).2
        { token := some "user-7", show_id := some 0, seats := some [1, 2], extra := [] }).2 :=
  have h := C20_disjoint_requests_commute demoVerify freshShowStore
    { token := some "user-7", show_id := some 0, seats := some [1, 2], extra := [] }
    { token := some "admin", show_id := some 0, seats := some [3, 4], extra := [] }
    "user-7" "admin" { userId := 7, username := "asha", role := "user" }
    { userId := 1, username := "admin", role := "admin" } 0 [1, 2] [3, 4]
    rfl (by decide) rfl rfl (by decide) rfl rfl rfl rfl rfl (by decide) (by decide)
    (by decide) (by decide) (by decide)
  ⟨h.2.1, h.2.2.2.1, h.2.2.2.2.2⟩

/-! ## C21. Requests without a valid token -/

/-- C21, at the failing input: a `POST /book` for seat 1 of the one-seat store
whose token does not verify is answered 500 with the message of the error
`jwt.verify` throws, not 401, and the store is left as it was; the same request
without a token is answered 401. -/
theorem C21_bad_token_answered_500 :
    book demoVerify oneSeatStore
        { token := some "expired", show_id := some 10, seats := some [1], extra := [] } =
        (⟨500, .error "jwt malformed"⟩, oneSeatStore) ∧
      book demoVerify oneSeatStore
        { token := none, show_id := some 10, seats := some [1], extra := [] } =
        (⟨401, .error "Unauthorized"⟩, oneSeatStore) :=
  ⟨(book_of_bad_token demoVerify oneSeatStore
      { token := some "expired", show_id := some 10, seats := some [1], extra := [] }).2
      "expired" "jwt malformed" rfl (by decide) rfl,
   (book_of_bad_token demoVerify oneSeatStore
      { token := none, show_id := some 10, seats := some [1], extra := [] }).1 (Or.inl rfl)⟩

/-! ## C22. Deleting a show -/

/-- C22: after a successful admin `DELETE /shows/:id`, no seat with that
show_id remains in the store, and the seats of every other show are unchanged. -/
theorem C22_delete_show_cascades (verify : Verifier) (s : Store) (r : DeleteShowRequest)
    (hok : (deleteShows verify s r).1.status = 200) :
    (∀ seat ∈ (deleteShows verify s r).2.seats, seat.show_id ≠ r.id) ∧
      seatsOfShow (deleteShows verify s r).2 r.id = [] ∧
      (∀ other, other ≠ r.id →
        seatsOfShow (deleteShows verify s r).2 other = seatsOfShow s other) ∧
      (deleteShows verify s r).2.seats = s.seats.filter (fun seat => seat.show_id ≠ r.id) := by
  have hseats : (deleteShows verify s r).2.seats =
      s.seats.filter (fun seat => seat.show_id ≠ r.id) := by
    rw [deleteShows_of_status_200 verify s r hok]
  have hnone : ∀ seat ∈ (deleteShows verify s r).2.seats, seat.show_id ≠ r.id := by
    intro seat hmem
    rw [hseats, List.mem_filter] at hmem
    simpa using hmem.2
  refine ⟨hnone, ?_, ?_, hseats⟩
  · rw [seatsOfShow, List.filter_eq_nil_iff]
    intro seat hmem
    simpa using hnone seat hmem
  · intro other hother
    rw [seatsOfShow, seatsOfShow, hseats, List.filter_filter]
    apply List.filter_congr
    intro seat _
    by_cases h : seat.show_id = other
    · simp [h, hother]
    · simp [h]

/-- C22 at the deletion of show 0 from the freshly provisioned store. -/
theorem C22_delete_show_cascades_witness :
    (deleteShows demoVerify freshShowStore { token := some "admin", id := 0 }).1.status = 200 ∧
      seatsOfShow (deleteShows demoVerify freshShowStore { token := some "admin", id := 0 }).2 0
        = [] :=
  ⟨by decide,
   (C22_delete_show_cascades demoVerify freshShowStore { token := some "admin", id := 0 }
      (by decide)).2.1⟩

/-! ## C23. Admin-only routes -/

/-- C23: every route marked admin-only (`POST /movies`, `PUT /movies/:id`,
`DELETE /movies/:id`, `PUT /movies/:id/cast-crew`, `POST /shows`,
`DELETE /shows/:id`) answers 403 "Access denied" and leaves the database
unchanged when the verified token's role is not admin. -/
theorem C23_admin_routes_refuse_other_roles (verify : Verifier) (applyUpdate : ApplyUpdate)
    (db : Database) (req : AdminRequest) (token : String) (decoded : Decoded)
    (htok : req.token = some token) (hne : token ≠ "") (hver : verify token = .ok decoded)
    (hrole : decoded.role ≠ "admin") :
    adminRoute verify applyUpdate db req = (⟨403, .error "Access denied"⟩, db) := by
  cases req with
  | postMovies r =>
    simp only [AdminRequest.token] at htok
    simp [adminRoute, postMovies, htok, hne, hver, hrole]
  | putMovie r =>
    simp only [AdminRequest.token] at htok
    simp [adminRoute, putMovie, htok, hne, hver, hrole]
  | deleteMovie r =>
    simp only [AdminRequest.token] at htok
    simp [adminRoute, deleteMovie, htok, hne, hver, hrole]
  | putCastCrew r =>
    simp only [AdminRequest.token] at htok
    simp [adminRoute, putCastCrew, htok, hne, hver, hrole]
  | postShows r =>
    simp only [AdminRequest.token] at htok
    simp [adminRoute, postShows, htok, hne, hver, hrole]
  | deleteShows r =>
    simp only [AdminRequest.token] at htok
    simp [adminRoute, deleteShows, htok, hne, hver, hrole]

/-- C23 at the deletion of show 10, whose seats are partly booked, asked by
user 7, who is not an admin. -/
theorem C23_admin_routes_refuse_other_roles_witness :
    adminRoute demoVerify overwriteFields demoDatabase
        (.deleteShows { token := some "user-7", id := 10 }) =
      (⟨403, .error "Access denied"⟩, demoDatabase) :=
  C23_admin_routes_refuse_other_roles demoVerify overwriteFields demoDatabase
    (.deleteShows { token := some "user-7", id := 10 }) "user-7"
    { userId := 7, username := "asha", role := "user" } rfl (by decide) rfl (by decide)

/-! ## C24. Provisioning a show that has seats -/

/-- C24: if the store already holds at least one seat for the show, however
few, `createSeatsForShow` leaves the entire seat collection, and the rest of the
store, unchanged. -/
theorem C24_existing_seat_blocks_provisioning (s : Store) (showId : Nat)
    (h : ∃ seat ∈ s.seats, seat.show_id = showId) :
    (createSeatsForShow s showId).seats = s.seats ∧ createSeatsForShow s showId = s := by
  rw [createSeatsForShow_of_some s showId h]
  exact ⟨rfl, rfl⟩

/-- C24 at the one-seat store, which holds a single seat for show 10. -/
theorem C24_existing_seat_blocks_provisioning_witness :
    (seatsOfShow oneSeatStore 10).length = 1 ∧
      (createSeatsForShow oneSeatStore 10).seats = oneSeatStore.seats :=
  ⟨by decide,
   (C24_existing_seat_blocks_provisioning oneSeatStore 10
      ⟨_, List.mem_cons_self _ _, rfl⟩).1⟩

/-! ## C25. One pricing rule for listing and booking -/

/-- C25, refuted as stated: a Premium seat stored without a `price` field reads
with the schema default 150, so both routes price it at 150 and not at
`getPriceByPriority(2) = 250`: the listing of show 10 shows 999, 250, 250 and
150, and booking the seat alone costs 150. -/
theorem C25_absent_price_reads_default :
    unpricedSeat.price = .absent ∧
      statedPrice unpricedSeat = 250 ∧
      seatPrice (hydrate unpricedSeat) = 150 ∧
      (getSeats mixedPriceStore 10).body = .seatList
        [{ _id := 1, seat_row := "C", seat_col := 1, is_reserved := false, priority := 2,
           price := 999, category := "Premium" },
         { _id := 2, seat_row := "C", seat_col := 2, is_reserved := false, priority := 2,
           price := 250, category := "Premium" },
         { _id := 3, seat_row := "C", seat_col := 3, is_reserved := false, priority := 2,
           price := 250, category := "Premium" },
         { _id := 4, seat_row := "C", seat_col := 4, is_reserved := false, priority := 2,
           price := 150, category := "Premium" }] ∧
      (bookRoute demoVerify demoMessages mixedPriceStore
        { token := some "user-7", show_id := some (.oid 10), seats := some [.oid 4],
          extra := [] }).1 =
        ⟨200, .booked "Booking successful" 11 150 1⟩ := by
  decide

/-- C25, amended: `GET /seats/:show_id` and `POST /book` price a seat alike: at
its stored price when the field holds a non-zero number, at
`getPriceByPriority(priority)` when the stored price is 0 or null, and at 150,
the default of the schema, when the field is absent. The listing shows that
price for every seat of the show, and the total of a successful booking is the
sum of that price over the stored seats the request names. -/
theorem C25_listing_and_booking_price_alike (verify : Verifier) (messages : DriverMessages)
    (s : Store) :
    (∀ d : StoredSeat,
        (∀ p, d.price = .number p → p ≠ 0 → seatPrice (hydrate d) = p) ∧
        (d.price = .number 0 ∨ d.price = .null →
          seatPrice (hydrate d) = getPriceByPriority (hydrate d).priority) ∧
        (d.price = .absent → seatPrice (hydrate d) = 150)) ∧
      (∀ show_id, (getSeats s show_id).status = 200 ∧
        ∃ views, (getSeats s show_id).body = .seatList views ∧
          views.map (fun v => (v._id, v.price)) =
            (seatsOfShow s show_id).map (fun seat => (seat._id, seatPrice seat))) ∧
      (∀ r, (bookRoute verify messages s r).1.status = 200 →
        ∃ (ids : List Nat) (msg : String) (id n : Nat),
          r.seats = some (ids.map IdValue.oid) ∧
          (bookRoute verify messages s r).1.body =
            .booked msg id ((findSeatsByIds s.seats ids).map seatPrice).sum n) := by
  refine ⟨?_, ?_, ?_⟩
  · intro d
    refine ⟨?_, ?_, ?_⟩
    · intro p hp h0
      simp [seatPrice, hydrate, hp, h0]
    · intro h
      rcases h with h | h <;> simp [seatPrice, hydrate, h]
    · intro h
      simp [seatPrice, hydrate, h]
  · intro show_id
    refine ⟨rfl, _, rfl, ?_⟩
    simp only [seatsWithPrice, seatsOfShow, List.map_map]
    rfl
  · intro r hok
    obtain ⟨show_id, ids, _, hseats, heq⟩ := bookRoute_of_status_200 verify messages s r hok
    rw [heq] at hok ⊢
    obtain ⟨_, _, _, seats, _, _, _, _, hs, _, _, hb⟩ := book_of_status_200 verify s _ hok
    have hids : ids = seats := Option.some.inj hs
    subst hids
    refine ⟨ids, "Booking successful", s.nextId, ids.length, hseats, ?_⟩
    rw [hb]
    simp only [bookedResponse, foldl_seatPrice, zero_add]

/-- C25 amended, at the store whose seats carry a stored price of 999, of 0, of
null and no price field: booking the four costs 999 + 250 + 250 + 150. -/
theorem C25_listing_and_booking_price_alike_witness :
    (bookRoute demoVerify demoMessages mixedPriceStore
        { token := some "user-7", show_id := some (.oid 10),
          seats := some [.oid 1, .oid 2, .oid 3, .oid 4], extra := [] }).1 =
        ⟨200, .booked "Booking successful" 11 1649 4⟩ ∧
      ∃ (ids : List Nat) (msg : String) (id n : Nat),
        some [IdValue.oid 1, .oid 2, .oid 3, .oid 4] = some (ids.map IdValue.oid) ∧
        (bookRoute demoVerify demoMessages mixedPriceStore
          { token := some "user-7", show_id := some (.oid 10),
            seats := some [.oid 1, .oid 2, .oid 3, .oid 4], extra := [] }).1.body =
          .booked msg id ((findSeatsByIds mixedPriceStore.seats ids).map seatPrice).sum n :=
  ⟨by decide,
   (C25_listing_and_booking_price_alike demoVerify demoMessages mixedPriceStore).2.2
      { token := some "user-7", show_id := some (.oid 10),
        seats := some [.oid 1, .oid 2, .oid 3, .oid 4], extra := [] }
      (by decide)⟩

/-! ## C26. Reading the bookings of a user -/

/-- C26, at the failing input: user 7 asks `GET /bookings/1`. The answer is 200
and lists the booking of user 1, given by the first handler registered for the
path, which never compares the two ids; the handler registered second, which is
not reached, would answer 403 "Access denied". -/
theorem C26_other_users_bookings_served :
    getBookings demoVerify rivalDatabase { token := some "user-7", userId := 1 } =
        ⟨200, .bookingDetails
          [{ booking_id := 11, movie_name := "Inception",
             poster_url := "https://example.org/inception.jpg", theatre_name := "INOX",
             show_datetime := some 0, total_price := 150, seat_count := 1, seats := ["F1"] }]⟩ ∧
      getMyBookings demoVerify rivalDatabase { token := some "user-7", userId := 1 } =
        ⟨403, .error "Access denied"⟩ :=
  ⟨by decide,
   (getBookings_of_other_user demoVerify rivalDatabase
      { token := some "user-7", userId := 1 } "user-7"
      { userId := 7, username := "asha", role := "user" } rfl (by decide) rfl (by decide)).2.2⟩

/-! ## C27. Size of the selection -/

/-- C27: starting from a freshly loaded seat map, where the selection is empty,
after any sequence of `toggleSeatSelection` calls `SELECTED_SEATS` holds at most
8 seats. -/
theorem C27_selection_at_most_eight (clicks : List SeatView) :
    (selectionAfter clicks).length ≤ 8 :=
  foldl_toggleSeatSelection_length_le clicks [] (Nat.zero_le 8)

/-! ## C28. Priority and price of stored seats -/

/-- C28: in every state reachable from the empty store through show creation
and `POST /book` (and show deletion as well), every stored seat has a priority
in {1, 2, 3} and a price equal to `getPriceByPriority(priority)`. -/
theorem C28_reachable_seats_priced (verify : Verifier) (s : Store)
    (h : Reachable verify s) : SeatsPriced s := by
  have hlayout : ∀ v ∈ (seatDocs 0).map SeatDoc.view,
      (v.2.2.2.1 = 1 ∨ v.2.2.2.1 = 2 ∨ v.2.2.2.1 = 3) ∧
        v.2.2.2.2 = some (getPriceByPriority v.2.2.2.1) := by decide
  induction h with
  | init => intro seat hmem; exact absurd hmem (List.not_mem_nil _)
  | addShow r _ ih =>
    intro seat hmem
    rcases mem_postShows verify _ r seat hmem with hold | hnew
    · exact ih seat hold
    · exact hlayout seat.view hnew
  | book r _ _ ih =>
    intro seat hmem
    obtain ⟨old, hold, hp, hpr, _, _⟩ := mem_book verify _ r seat hmem
    rw [hp, hpr]
    exact ih old hold
  | deleteShow r _ ih =>
    intro seat hmem
    exact ih seat (mem_deleteShows verify _ r seat hmem)

/-- C28 at the store reached by creating a show and booking its seats 1 and 2. -/
theorem C28_reachable_seats_priced_witness :
    SeatsPriced (book demoVerify (postShows demoVerify emptyStore showRequest).2
      { token := some "user-7", show_id := some 0, seats := some [1, 2], extra := [] }).2 :=
  C28_reachable_seats_priced demoVerify _
    (ReachableWith.book _ (ReachableWith.addShow showRequest ReachableWith.init) trivial)

/-! ## C29. Owner of a booking -/

/-- C29: the booking created by a successful `POST /book` has user_id equal to
the userId in the verified token, and the bookings it leaves are the same
whatever other fields, a user_id among them, the request body carries. -/
theorem C29_booking_owner_is_token_user (verify : Verifier) (s : Store) (r : BookRequest)
    (hok : (book verify s r).1.status = 200) :
    (∃ token decoded, r.token = some token ∧ verify token = .ok decoded ∧
        ∃ b, (book verify s r).2.bookings = s.bookings ++ [b] ∧ b.user_id = decoded.userId) ∧
      ∀ extra, (book verify s { r with extra := extra }).2.bookings =
        (book verify s r).2.bookings := by
  obtain ⟨token, decoded, show_id, seats, htok, _, hver, _, _, _, _, hb⟩ :=
    book_of_status_200 verify s r hok
  refine ⟨⟨token, decoded, htok, hver, ?_⟩, fun extra => rfl⟩
  rw [hb]
  exact ⟨_, rfl, rfl⟩

/-- C29 at a request of user 7 whose body carries user_id 99: the booking
stored belongs to user 7. -/
theorem C29_booking_owner_is_token_user_witness :
    (book demoVerify oneSeatStore forgedUserRequest).2.bookings =
        [{ _id := 11, user_id := 7, show_id := 10, seats := [1], total_price := 150 }] ∧
      ∃ token decoded, forgedUserRequest.token = some token ∧
        demoVerify token = .ok decoded ∧
        ∃ b, (book demoVerify oneSeatStore forgedUserRequest).2.bookings =
          oneSeatStore.bookings ++ [b] ∧ b.user_id = decoded.userId :=
  ⟨by decide,
   (C29_booking_owner_is_token_user demoVerify oneSeatStore forgedUserRequest (by decide)).1⟩

/-! ## C30. Total shown and total charged -/

/-- C30: if the selection was built by `toggleSeatSelection` from the seats
`GET /seats/:show_id` returned for the store, on which clicks reach the
available seats only, and the store has not changed since, then for the request
`bookSeats` sends: whenever `POST /book` answers 200, its total_price is the
total `updateBookingSummary` showed and `bookSeats` confirmed, and it does
answer 200, with that total, when the user's token verifies. Stored seat ids
are distinct, as the database guarantees. -/
theorem C30_client_total_is_server_total (verify : Verifier) (s : Store) (showId : Nat)
    (clicks : List SeatView) (user : CurrentUser) (r : BookRequest)
    (hnodup : (s.seats.map (fun seat => seat._id)).Nodup)
    (hclicks : ∀ c ∈ clicks, c ∈ clickableSeats s showId)
    (hsent : bookSeats user showId (selectionAfter clicks) true = some r) :
    ((book verify s r).1.status = 200 →
        (book verify s r).1.body = .booked "Booking successful" s.nextId
          (totalPrice (selectionAfter clicks)) (selectionAfter clicks).length) ∧
      (∀ decoded, user.token ≠ "" → verify user.token = .ok decoded →
        (book verify s r).1 = ⟨200, .booked "Booking successful" s.nextId
          (totalPrice (selectionAfter clicks)) (selectionAfter clicks).length⟩) := by
  have hsel : SelectionOf s showId (selectionAfter clicks) :=
    selectionOf_foldl s showId clicks []
      ⟨List.nodup_nil, fun e he => absurd he (List.not_mem_nil e)⟩ hclicks
  have htotal := server_total_eq_totalPrice s showId (selectionAfter clicks) hnodup hsel
  have hfree := selection_free s showId (selectionAfter clicks) hnodup hsel
  have hr : (selectionAfter clicks).length ≠ 0 ∧
      r = { token := some user.token, show_id := some showId,
            seats := some ((selectionAfter clicks).map (fun e => e.seatId)),
            extra := [("user_id", (user.userId : Int))] } := by
    unfold bookSeats at hsent
    split at hsent
    · exact absurd hsent (by simp)
    · rename_i hlen
      simp only [Bool.not_true, Bool.false_eq_true, if_false, Option.some.injEq] at hsent
      exact ⟨hlen, hsent.symm⟩
  obtain ⟨hlen, hreq⟩ := hr
  have hne : (selectionAfter clicks).map (fun e => e.seatId) ≠ [] := by
    intro h
    exact hlen (by rw [← List.length_map (selectionAfter clicks) (fun e => e.seatId), h]; rfl)
  constructor
  · intro hok
    obtain ⟨token, decoded, show_id, seats, htok, hne', hver, hshow, hseats, hlen', _, hb⟩ :=
      book_of_status_200 verify s r hok
    have hs : seats = (selectionAfter clicks).map (fun e => e.seatId) := by
      rw [hreq] at hseats
      exact (Option.some.inj hseats).symm
    rw [hb, hs]
    simp only [bookedResponse, htotal, List.length_map]
  · intro decoded htokne hver
    rw [book_of_free verify s r user.token decoded showId
      ((selectionAfter clicks).map (fun e => e.seatId)) (by rw [hreq]) htokne hver
      (by rw [hreq]) (by rw [hreq]) hne hfree]
    simp only [bookedResponse, htotal, List.length_map]


/-- C30 at one click on seat 1 of the one-seat store by user 7: the client shows
150 and the server charges 150. -/
theorem C30_client_total_is_server_total_witness :
    totalPrice (selectionAfter [clickOnSeatOne]) = 150 ∧
      (book demoVerify oneSeatStore
        { token := some "user-7", show_id := some 10, seats := some [1],
          extra := [("user_id", 7)] }).1 =
        ⟨200, .booked "Booking successful" oneSeatStore.nextId
          (totalPrice (selectionAfter [clickOnSeatOne])) (selectionAfter [clickOnSeatOne]).length⟩ :=
  ⟨by decide,
   (C30_client_total_is_server_total demoVerify oneSeatStore 10 [clickOnSeatOne] demoUser
      { token := some "user-7", show_id := some 10, seats := some [1],
        extra := [("user_id", 7)] }
      (by decide) (by decide) (by decide)).2
      { userId := 7, username := "asha", role := "user" } (by decide) rfl⟩

end CineReserve
